import Mathlib

/-!
# sView audio queue (`StMoviePlayer/StVideo/StAudioQueue.cpp`)

A shallow embedding of `StAudioQueue`: the channel layout resolution of `init`, the control
events of `parseEvents`, the OpenAL streaming of `stalQueue`, the wait loop of
`stalFillBuffers`, and the worker loop `decodeLoop` with `decodePacket`.

Conventions of the embedding.

* The object is the record `StAudioQueue`; every member function is a function on that record.
* Values of type `double`/`float` are rationals. Where the code anchors the clock (lines
  597-602, 653-658 and 663-682) every conversion, quotient and difference is rounded to the
  nearest `double`, as the machine rounds it (`toDouble`); elsewhere the arithmetic is the
  exact one.
* The OpenAL device is a list of sources, each with its play state, its queue of buffers
  (oldest first) and the number of queued buffers already played. What the hardware does
  between two polls is an explicit argument of the function which polls.
* `NUM_AL_SOURCES` and `NUM_AL_BUFFERS` are declared in `StAudioQueue.h`, which is not part of
  the sources at hand: they are the two fields of `ALConfig`, an argument of every function
  which needs them.
* A byte rate of 0, for which the quotient of the in-flight bytes by the bytes of one second
  is an infinity or not a number in the code, is outside the embedding: the statements about
  the value of the clock suppose a positive byte rate.
* What the worker meets from outside, the packets in its queue, the answers of the decoder,
  the flags raised by the other thread, comes as lists of inputs, one for each iteration of a
  loop; a loop whose inputs end before it does has not returned. `StPCMBuffer::addData`, whose
  sources are not at hand, is an argument of `decodePacket`.
-/

namespace SView

/-! ## Sample buffers -/

/-- Sample formats of a PCM buffer (`PCM8_UNSIGNED` .. `PCM64FLOAT`). -/
inductive StPcmFormat
  | PCM8_UNSIGNED
  | PCM16_SIGNED
  | PCM32_SIGNED
  | PCM32FLOAT
  | PCM64FLOAT
  deriving DecidableEq, Repr

/-- Sample format announced by the codec context (`stLibAV::audio::SAMPLE_FMT`); `OTHER` stands
for every value which is none of the five tested by `init`. -/
inductive SampleFmt
  | U8
  | S16
  | S32
  | FLT
  | DBL
  | OTHER
  deriving DecidableEq, Repr

/-- Channel configurations `StChannelMap::CH10` .. `StChannelMap::CH51`. -/
inductive Channels
  | CH10
  | CH20
  | CH40
  | CH51
  deriving DecidableEq, Repr

/-- Channel order conventions `StChannelMap::PCM`, `StChannelMap::AC3`, `StChannelMap::OGG`. -/
inductive OrderRules
  | PCM
  | AC3
  | OGG
  deriving DecidableEq, Repr

/-- Modelled from the spec: the number of channels of a `StChannelMap` configuration
(`StChannelMap.h` is not among the sources): mono, stereo, quad and 5.1. -/
def Channels.count : Channels → Nat
  | .CH10 => 1
  | .CH20 => 2
  | .CH40 => 4
  | .CH51 => 6

/-- Modelled from the spec: bytes of one sample of a format (`StPCMBuffer.h` is not among the
sources). -/
def StPcmFormat.sampleSize : StPcmFormat → Nat
  | .PCM8_UNSIGNED => 1
  | .PCM16_SIGNED => 2
  | .PCM32_SIGNED => 4
  | .PCM32FLOAT => 4
  | .PCM64FLOAT => 8

/-- Modelled from the spec: the `SampleBuffer` of the data model (`StPCMBuffer`, whose header is
not among the sources): format tag, frequency, channel configuration with its order convention,
number of channel groups (one per output source) and the fill size of one channel group in
bytes, which is the same for every group. -/
structure StPCMBuffer where
  format : StPcmFormat
  freq : Int
  channels : Channels
  rules : OrderRules
  sourcesCount : Nat
  dataSize : Nat
  deriving DecidableEq, Repr

namespace StPCMBuffer

/-- Modelled from the spec: `setFormat` sets the format tag. -/
def setFormat (f : StPcmFormat) (b : StPCMBuffer) : StPCMBuffer := { b with format := f }

/-- Modelled from the spec: `setFreq` sets the sample frequency. -/
def setFreq (f : Int) (b : StPCMBuffer) : StPCMBuffer := { b with freq := f }

/-- Modelled from the spec: `setupChannels(theChannels, theRules, theSourcesCount)` sets the
channel configuration, the order convention and the number of channel groups. -/
def setupChannels (c : Channels) (r : OrderRules) (n : Nat) (b : StPCMBuffer) : StPCMBuffer :=
  { b with channels := c, rules := r, sourcesCount := n }

/-- Modelled from the spec: `setDataSize(n)` spreads `n` bytes evenly over the channel groups. -/
def setDataSize (n : Nat) (b : StPCMBuffer) : StPCMBuffer :=
  { b with dataSize := n / b.sourcesCount }

/-- Modelled from the spec: `clear()` drops the data and keeps the setup. -/
def clear (b : StPCMBuffer) : StPCMBuffer := { b with dataSize := 0 }

/-- Modelled from the spec: `getDataSize(theSourceId)`, the fill size of one channel group. -/
def getDataSize (b : StPCMBuffer) (_srcId : Nat) : Nat := b.dataSize

/-- Modelled from the spec: `getDataSizeWhole()`, the bytes held by all channel groups
together. -/
def getDataSizeWhole (b : StPCMBuffer) : Nat := b.dataSize * b.sourcesCount

/-- Modelled from the spec: `getSecondSize()`, the bytes of one second of audio in the format
of the buffer. -/
def getSecondSize (b : StPCMBuffer) : Nat := b.format.sampleSize * b.channels.count * b.freq.toNat

end StPCMBuffer

/-! ## OpenAL device -/

/-- The `ALenum` sample formats used by `init`: the four core ones and those obtained from
`alGetEnumValue` by name. -/
inductive ALFormat
  | AL_FORMAT_MONO8
  | AL_FORMAT_MONO16
  | AL_FORMAT_STEREO8
  | AL_FORMAT_STEREO16
  | AL_FORMAT_MONO_FLOAT32
  | AL_FORMAT_STEREO_FLOAT32
  | AL_FORMAT_MONO_DOUBLE_EXT
  | AL_FORMAT_STEREO_DOUBLE_EXT
  | AL_FORMAT_QUAD8
  | AL_FORMAT_QUAD16
  | AL_FORMAT_QUAD32
  | AL_FORMAT_51CHN8
  | AL_FORMAT_51CHN16
  | AL_FORMAT_51CHN32
  deriving DecidableEq, Repr

/-- Channels interleaved in one buffer of an OpenAL format. -/
def ALFormat.channels : ALFormat → Nat
  | .AL_FORMAT_MONO8 | .AL_FORMAT_MONO16 | .AL_FORMAT_MONO_FLOAT32
  | .AL_FORMAT_MONO_DOUBLE_EXT => 1
  | .AL_FORMAT_STEREO8 | .AL_FORMAT_STEREO16 | .AL_FORMAT_STEREO_FLOAT32
  | .AL_FORMAT_STEREO_DOUBLE_EXT => 2
  | .AL_FORMAT_QUAD8 | .AL_FORMAT_QUAD16 | .AL_FORMAT_QUAD32 => 4
  | .AL_FORMAT_51CHN8 | .AL_FORMAT_51CHN16 | .AL_FORMAT_51CHN32 => 6

/-- Play state of a source as polled by `stalGetSourceState`; `UNKNOWN` is the `default:` case
of its `switch`. -/
inductive ALState
  | AL_INITIAL
  | AL_PLAYING
  | AL_PAUSED
  | AL_STOPPED
  | UNKNOWN
  deriving DecidableEq, Repr

/-- A position vector (`StGLVec3`); the coordinates used are the integers -1, 0 and 1. -/
abbrev StGLVec3 := Int × Int × Int

def POSITION_CENTER : StGLVec3 := (0, 0, 0)
def POSITION_FRONT_LEFT : StGLVec3 := (-1, 0, -1)
def POSITION_FRONT_CENTER : StGLVec3 := (0, 0, -1)
def POSITION_FRONT_RIGHT : StGLVec3 := (1, 0, -1)
def POSITION_LFE : StGLVec3 := (0, 0, 0)
def POSITION_REAR_LEFT : StGLVec3 := (-1, 0, 1)
def POSITION_REAR_RIGHT : StGLVec3 := (1, 0, 1)

/-- An OpenAL buffer handle `myAlBuffers[src][slot]`, named by its source index and ring slot. -/
abbrev ALBuffer := Nat × Nat

/-- One OpenAL source: play state, queued buffers (oldest first), how many of them the source
has finished playing, and its position. -/
structure ALSource where
  state : ALState
  queue : List ALBuffer
  processed : Nat
  position : StGLVec3
  deriving DecidableEq, Repr

/-- A source as `alGenSources` followed by the configuration loop of `stalInit` leaves it. -/
def ALSource.fresh : ALSource :=
  { state := .AL_INITIAL, queue := [], processed := 0, position := (0, 0, 0) }

/-- The device context `myAlCtx` with the sources `myAlSources`: capability flags probed when
the context is created, the listener gain and the sources. -/
structure StALContext where
  hasExtFloat32 : Bool
  hasExtFloat64 : Bool
  hasExtMultiChannel : Bool
  listenerGain : ℚ
  sources : List ALSource
  deriving DecidableEq

/-- Apply `f` to the source of index `i`; a call on a handle which does not exist changes
nothing. -/
def updateSource (f : ALSource → ALSource) : Nat → List ALSource → List ALSource
  | _, [] => []
  | 0, a :: l => f a :: l
  | n + 1, a :: l => a :: updateSource f n l

namespace StALContext

/-- `alSourcefv(myAlSources[i], AL_POSITION, v)`. -/
def setPosition (i : Nat) (v : StGLVec3) (c : StALContext) : StALContext :=
  { c with sources := updateSource (fun a => { a with position := v }) i c.sources }

/-- Position of the source of index `i`, if there is one. -/
def positionOf (c : StALContext) (i : Nat) : Option StGLVec3 :=
  (c.sources.get? i).map (fun a => a.position)

end StALContext

/-! ## Values of type `double`

A finite value of type `double` (IEEE 754 binary64) is a rational of the form `m * 2 ^ k` with
`m < 2 ^ 53` and `-1074 ≤ k ≤ 971`. The result of an arithmetic operation on doubles, and of a
conversion to `double`, is the exact result rounded to the nearest such value, a tie going to
the one with the even `m`. -/

/-- The integer nearest to `n / d`, for positive `d`; a tie goes to the even one. -/
def roundHalfEven (n d : Nat) : Nat :=
  if 2 * (n % d) < d then n / d
  else if d < 2 * (n % d) then n / d + 1
  else if n / d % 2 = 0 then n / d else n / d + 1

/-- The integer part of the binary logarithm of `n`, by at most `fuel` halvings. -/
def log2Fuel : Nat → Nat → Nat
  | 0, _ => 0
  | fuel + 1, n => if 2 ≤ n then log2Fuel fuel (n / 2) + 1 else 0

/-- The integer part of the binary logarithm of a positive `n`. -/
def natLog2 (n : Nat) : Nat := log2Fuel n n

/-- The integer part of the binary logarithm of `n / d`, for positive `n` and `d`. -/
def floorLog2 (n d : Nat) : Int :=
  if natLog2 d ≤ natLog2 n then
    if d * 2 ^ (natLog2 n - natLog2 d) ≤ n then ((natLog2 n - natLog2 d : Nat) : Int)
    else ((natLog2 n - natLog2 d : Nat) : Int) - 1
  else
    if d ≤ n * 2 ^ (natLog2 d - natLog2 n) then -((natLog2 d - natLog2 n : Nat) : Int)
    else -((natLog2 d - natLog2 n : Nat) : Int) - 1

/-- The largest finite value of type `double`. -/
def maxDouble : ℚ := (((2 ^ 53 - 1) * 2 ^ 971 : Nat) : ℚ)

/-- The value of type `double` nearest to `q`, a tie going to the even one: with `e` the binary
exponent of `q`, not below that of the smallest normal number, `q` is rounded to a multiple of
`2 ^ (e - 52)`. No expression of the code embedded here exceeds the largest double when its
operands are doubles; beyond it, where the machine gives an infinity, the value is the largest
double. -/
def toDouble (q : ℚ) : ℚ :=
  if q = 0 then 0
  else
    let e := max (floorLog2 q.num.natAbs q.den) (-1022)
    let v : ℚ :=
      if 52 ≤ e then
        ((roundHalfEven q.num.natAbs (q.den * 2 ^ (e - 52).toNat) * 2 ^ (e - 52).toNat : Nat) : ℚ)
      else
        ((roundHalfEven (q.num.natAbs * 2 ^ (52 - e).toNat) q.den : Nat) : ℚ) /
          ((2 ^ (52 - e).toNat : Nat) : ℚ)
    if q < 0 then -(min v maxDouble) else min v maxDouble

/-! ## The audio queue -/

/-- `myIsAlValid`: state of the device session. -/
inductive StAlInit
  | ST_AL_INIT_NA
  | ST_AL_INIT_KO
  | ST_AL_INIT_OK
  deriving DecidableEq, Repr

/-- Modelled from the spec: the `PlaybackClock` of the data model, a pausable stopwatch
(`playTimerStart`, `playTimerPause`, `playTimerResume` are members of `StAVPacketQueue`, whose
sources are absent): `elapsed` is the value the clock reports now, in seconds, and `running`
tells whether it advances. -/
structure StTimer where
  elapsed : ℚ
  running : Bool
  deriving DecidableEq

/-- Modelled from the spec: the clock after `dt` seconds: a running clock has advanced, a
paused one has not. -/
def StTimer.tick (dt : ℚ) (c : StTimer) : StTimer :=
  if c.running then { c with elapsed := c.elapsed + dt } else c

/-- Codec identifiers tested by `init`; `OTHER` is any codec which is neither AC3 nor Vorbis. -/
inductive CodecId
  | CODEC_ID_AC3
  | CODEC_ID_VORBIS
  | OTHER
  deriving DecidableEq, Repr

/-- Version of the libavcodec library at hand (`stLibAV::Version`). -/
structure Version where
  myMajor : Nat
  myMinor : Nat
  deriving DecidableEq, Repr

/-- What `init` learns from FFmpeg about the stream: the results of `StAVPacketQueue::init`,
of the test of the codec type, of `avcodec_find_decoder` and of `avcodec_open2`, and the fields
of the codec context it reads. -/
structure AVStream where
  queueInitOk : Bool
  isAudio : Bool
  decoderFound : Bool
  codecOpened : Bool
  sample_fmt : SampleFmt
  sample_rate : Int
  channels : Int
  codecId : CodecId
  deriving DecidableEq, Repr

/-- The members of `StAudioQueue` read or written by the functions embedded here. `errors`
collects the messages handed to `signals.onError`; `myIsPlaying` is the playing intent kept by
`StAVPacketQueue`; `oldPts` is the function-local `static double oldPts` of `stalFillBuffers`;
`dataLoopSumm` is `myAlDataLoop.summ()`. -/
structure StAudioQueue where
  myPlaybackTimer : StTimer
  myBufferSrc : StPCMBuffer
  myBufferOut : StPCMBuffer
  myIsAlValid : StAlInit
  myToSwitchDev : Bool
  myIsDisconnected : Bool
  myAlDeviceName : String
  myAlCtx : StALContext
  myAlFormat : ALFormat
  myPrevFormat : ALFormat
  myPrevFrequency : Int
  myAlGain : ℚ
  myAlGainPrev : ℚ
  dataLoopSumm : Nat
  myToQuit : Bool
  myIsPlaying : Bool
  oldPts : ℚ
  errors : List String
  deriving DecidableEq

/-- `isReoderingNeededInit()`: the library is old when its version is below 52.72. -/
def isReoderingNeededInit (aVersion : Version) : Bool :=
  let isUpToDate := decide (aVersion.myMajor > 52) ||
    (decide (aVersion.myMajor = 52) && decide (aVersion.myMinor ≥ 72))
  !isUpToDate

/-- `isReoderingNeeded()`: the value of `isReoderingNeededInit()` computed at the first call;
the library version does not change during the life of the process. -/
def isReoderingNeeded (aVersion : Version) : Bool := isReoderingNeededInit aVersion

namespace StAudioQueue

/-- `signals.onError(msg)`. -/
def onError (msg : String) (s : StAudioQueue) : StAudioQueue :=
  { s with errors := s.errors ++ [msg] }

/-- `stalConfigureSources1()`. -/
def stalConfigureSources1 (s : StAudioQueue) : StAudioQueue :=
  { s with myAlCtx := s.myAlCtx.setPosition 0 POSITION_CENTER }

/-- `stalConfigureSources4_0()`. -/
def stalConfigureSources4_0 (s : StAudioQueue) : StAudioQueue :=
  { s with myAlCtx :=
      (((s.myAlCtx.setPosition 0 POSITION_FRONT_LEFT).setPosition 1 POSITION_FRONT_RIGHT).setPosition
        2 POSITION_REAR_LEFT).setPosition 3 POSITION_REAR_RIGHT }

/-- `stalConfigureSources5_1()`. -/
def stalConfigureSources5_1 (s : StAudioQueue) : StAudioQueue :=
  { s with myAlCtx :=
      (((((s.myAlCtx.setPosition 0 POSITION_FRONT_LEFT).setPosition 1 POSITION_FRONT_RIGHT).setPosition
        2 POSITION_FRONT_CENTER).setPosition 3 POSITION_LFE).setPosition
        4 POSITION_REAR_LEFT).setPosition 5 POSITION_REAR_RIGHT }

/-- `deinit()`: both sample buffers are cleared (`StAVPacketQueue::deinit()` releases the codec,
which is not part of this record). -/
def deinit (s : StAudioQueue) : StAudioQueue :=
  { s with myBufferSrc := s.myBufferSrc.clear, myBufferOut := s.myBufferOut.clear }

/-- The chain at the top of the branches for 1 and 2 channels and for 6 channels without the
multichannel extension (lines 288-307, 313-332, 394-412): the OpenAL format and the format of
the output buffer, given the four OpenAL formats of the branch. -/
def setupCoreFormat (al8 alDouble alFloat32 al16 : ALFormat) (s : StAudioQueue) : StAudioQueue :=
  if s.myBufferSrc.format = .PCM8_UNSIGNED then
    { s with myAlFormat := al8, myBufferOut := s.myBufferOut.setFormat .PCM8_UNSIGNED }
  else if s.myBufferSrc.format = .PCM64FLOAT && s.myAlCtx.hasExtFloat64 then
    { s with myAlFormat := alDouble, myBufferOut := s.myBufferOut.setFormat .PCM64FLOAT }
  else if (s.myBufferSrc.format = .PCM32_SIGNED || s.myBufferSrc.format = .PCM32FLOAT
      || s.myBufferSrc.format = .PCM64FLOAT) && s.myAlCtx.hasExtFloat32 then
    { s with myAlFormat := alFloat32, myBufferOut := s.myBufferOut.setFormat .PCM32FLOAT }
  else
    { s with myAlFormat := al16, myBufferOut := s.myBufferOut.setFormat .PCM16_SIGNED }

/-- The chain at the top of the branches for 4 and 6 channels with the multichannel extension
(lines 339-352, 364-377). -/
def setupMultiFormat (al8 al32 al16 : ALFormat) (s : StAudioQueue) : StAudioQueue :=
  if s.myBufferSrc.format = .PCM8_UNSIGNED then
    { s with myAlFormat := al8, myBufferOut := s.myBufferOut.setFormat .PCM8_UNSIGNED }
  else if s.myBufferSrc.format = .PCM32_SIGNED || s.myBufferSrc.format = .PCM32FLOAT
      || s.myBufferSrc.format = .PCM64FLOAT then
    { s with myAlFormat := al32, myBufferOut := s.myBufferOut.setFormat .PCM32FLOAT }
  else
    { s with myAlFormat := al16, myBufferOut := s.myBufferOut.setFormat .PCM16_SIGNED }

/-- The channel order of the source buffer of a 6 channel stream (lines 380-391, 415-426). -/
def setupSrcChannels51 (aVersion : Version) (codec : CodecId) (s : StAudioQueue) : StAudioQueue :=
  if isReoderingNeeded aVersion then
    if codec = .CODEC_ID_AC3 then
      { s with myBufferSrc := s.myBufferSrc.setupChannels .CH51 .AC3 1 }
    else if codec = .CODEC_ID_VORBIS then
      { s with myBufferSrc := s.myBufferSrc.setupChannels .CH51 .OGG 1 }
    else
      { s with myBufferSrc := s.myBufferSrc.setupChannels .CH51 .PCM 1 }
  else
    { s with myBufferSrc := s.myBufferSrc.setupChannels .CH51 .PCM 1 }

/-- Lines 286-431 of `init`: "setup channel order". The result is the value returned. -/
def initChannels (aVersion : Version) (strm : AVStream) (s : StAudioQueue) : Bool × StAudioQueue :=
  if strm.channels = 1 then
    let s := setupCoreFormat .AL_FORMAT_MONO8 .AL_FORMAT_MONO_DOUBLE_EXT .AL_FORMAT_MONO_FLOAT32
      .AL_FORMAT_MONO16 s
    let s := { s with myBufferSrc := s.myBufferSrc.setupChannels .CH10 .PCM 1 }
    let s := { s with myBufferOut := s.myBufferOut.setupChannels .CH10 .PCM 1 }
    (true, s.stalConfigureSources1)
  else if strm.channels = 2 then
    let s := setupCoreFormat .AL_FORMAT_STEREO8 .AL_FORMAT_STEREO_DOUBLE_EXT
      .AL_FORMAT_STEREO_FLOAT32 .AL_FORMAT_STEREO16 s
    let s := { s with myBufferSrc := s.myBufferSrc.setupChannels .CH20 .PCM 1 }
    let s := { s with myBufferOut := s.myBufferOut.setupChannels .CH20 .PCM 1 }
    (true, s.stalConfigureSources1)
  else if strm.channels = 4 then
    if s.myAlCtx.hasExtMultiChannel then
      let s := setupMultiFormat .AL_FORMAT_QUAD8 .AL_FORMAT_QUAD32 .AL_FORMAT_QUAD16 s
      let s := { s with myBufferSrc := s.myBufferSrc.setupChannels .CH40 .PCM 1 }
      let s := { s with myBufferOut := s.myBufferOut.setupChannels .CH40 .PCM 1 }
      (true, s.stalConfigureSources1)
    else
      (false,
        (s.onError "OpenAL: multichannel extension (AL_FORMAT_QUAD16) not available").deinit)
  else if strm.channels = 6 then
    if s.myAlCtx.hasExtMultiChannel then
      let s := setupMultiFormat .AL_FORMAT_51CHN8 .AL_FORMAT_51CHN32 .AL_FORMAT_51CHN16 s
      let s := { s with myBufferOut := s.myBufferOut.setupChannels .CH51 .PCM 1 }
      let s := setupSrcChannels51 aVersion strm.codecId s
      (true, s.stalConfigureSources1)
    else
      let s := setupCoreFormat .AL_FORMAT_MONO8 .AL_FORMAT_MONO_DOUBLE_EXT .AL_FORMAT_MONO_FLOAT32
        .AL_FORMAT_MONO16 s
      let s := { s with myBufferOut := s.myBufferOut.setupChannels .CH51 .PCM 6 }
      let s := setupSrcChannels51 aVersion strm.codecId s
      (true, s.stalConfigureSources5_1)
  else
    (true, s)

/-- Lines 264-280 of `init`: the format of the source buffer for the sample format of the
codec, `none` when the sample format is not supported. -/
def srcFormatOf : SampleFmt → Option StPcmFormat
  | .U8 => some .PCM8_UNSIGNED
  | .S16 => some .PCM16_SIGNED
  | .S32 => some .PCM32_SIGNED
  | .FLT => some .PCM32FLOAT
  | .DBL => some .PCM64FLOAT
  | .OTHER => none

/-- `StAudioQueue::init(theFormatCtx, theStreamId)`. The result is `none` while the device
session is not yet known (`ST_AL_INIT_NA`: the function sleeps and tests again), and otherwise
the value returned together with the object afterwards. -/
def init (aVersion : Version) (strm : AVStream) (s : StAudioQueue) :
    Option (Bool × StAudioQueue) :=
  if s.myIsAlValid = .ST_AL_INIT_NA then
    none
  else if s.myIsAlValid ≠ .ST_AL_INIT_OK then
    some (false, (s.onError "OpenAL: no playback device available").deinit)
  else if !strm.queueInitOk || !strm.isAudio then
    some (false, (s.onError "FFmpeg: invalid stream").deinit)
  else if !strm.decoderFound then
    some (false, (s.onError "FFmpeg: audio codec not found").deinit)
  else if !strm.codecOpened then
    some (false, (s.onError "FFmpeg: could not open audio codec").deinit)
  else
    match srcFormatOf strm.sample_fmt with
    | none => some (false, (s.onError "Audio sample format not supported").deinit)
    | some f =>
      let s := { s with myBufferSrc := s.myBufferSrc.setFormat f }
      let s := { s with myBufferSrc := s.myBufferSrc.setFreq strm.sample_rate }
      let s := { s with myBufferOut := s.myBufferOut.setFreq strm.sample_rate }
      some (initChannels aVersion strm s)

/-- Channels the configured output sources carry together: the channels interleaved in one
buffer of the device format, times the number of output sources the output buffer feeds. -/
def totalChannels (s : StAudioQueue) : Nat :=
  s.myAlFormat.channels * s.myBufferOut.sourcesCount

end StAudioQueue

/-! ## Device operations

The effect of the OpenAL calls on a source, after the OpenAL 1.1 specification: a stopped source
has played its whole queue, an initial source has played nothing, `alSourcePlay` starts at the
head of the queue unless the source was paused, `alSourcePause` acts on a playing source only,
and only a buffer which has been played can be unqueued. -/

namespace ALSource

/-- `alSourcePlay` on one source. -/
def play (a : ALSource) : ALSource :=
  { a with state := .AL_PLAYING, processed := if a.state = .AL_PAUSED then a.processed else 0 }

/-- `alSourcePause` on one source. -/
def pause (a : ALSource) : ALSource :=
  if a.state = .AL_PLAYING then { a with state := .AL_PAUSED } else a

/-- `alSourceStop` on one source. -/
def stop (a : ALSource) : ALSource :=
  if a.state = .AL_INITIAL then a else { a with state := .AL_STOPPED, processed := a.queue.length }

/-- `alSourceQueueBuffers(src, 1, &b)`. -/
def enqueue (b : ALBuffer) (a : ALSource) : ALSource :=
  { a with queue := a.queue ++ [b],
           processed := if a.state = .AL_STOPPED then a.processed + 1 else a.processed }

/-- `alSourceUnqueueBuffers(src, 1, &id)`: the oldest buffer leaves the queue when it has been
played; otherwise the call fails and returns no handle. -/
def unqueue (a : ALSource) : Option ALBuffer × ALSource :=
  match a.queue with
  | [] => (none, a)
  | b :: q =>
    if a.processed ≠ 0 then (some b, { a with queue := q, processed := a.processed - 1 })
    else (none, a)

/-- `alSourcei(src, AL_BUFFER, 0)`: detaches the whole queue of a source which is not playing
or paused. -/
def detach (a : ALSource) : ALSource :=
  if a.state = .AL_PLAYING ∨ a.state = .AL_PAUSED then a else { a with queue := [], processed := 0 }

/-- What the hardware does to a source in a lapse of time: a playing source finishes `n` more
buffers of its queue, and stops when it has finished them all. -/
def advance (n : Nat) (a : ALSource) : ALSource :=
  if a.state = .AL_PLAYING ∧ n ≠ 0 then
    { a with processed := min (a.processed + n) a.queue.length,
             state := if a.queue.length ≤ a.processed + n then .AL_STOPPED else .AL_PLAYING }
  else a

/-- The inner loop of `stalEmpty` (lines 153-156): `n` calls of `alSourceUnqueueBuffers`. -/
def unqueueMany : Nat → ALSource → ALSource
  | 0, a => a
  | n + 1, a => unqueueMany n a.unqueue.2

end ALSource

/-- Hardware progress on every source: the source of index `i` finishes `hw i` more buffers. -/
def advanceFrom (hw : Nat → Nat) : Nat → List ALSource → List ALSource
  | _, [] => []
  | i, a :: l => a.advance (hw i) :: advanceFrom hw (i + 1) l

namespace StALContext

/-- `alGetSourcei(myAlSources[i], AL_BUFFERS_PROCESSED, &n)`; the variable keeps its initial
value 0 when the handle is not valid. -/
def buffersProcessed (c : StALContext) (i : Nat) : Nat :=
  match c.sources.get? i with
  | some a => a.processed
  | none => 0

/-- `alGetSourcei(myAlSources[i], AL_BUFFERS_QUEUED, &n)`. -/
def buffersQueued (c : StALContext) (i : Nat) : Nat :=
  match c.sources.get? i with
  | some a => a.queue.length
  | none => 0

/-- `alSourceQueueBuffers(myAlSources[i], 1, &b)`. -/
def queueBuffer (i : Nat) (b : ALBuffer) (c : StALContext) : StALContext :=
  { c with sources := updateSource (ALSource.enqueue b) i c.sources }

/-- `alSourceUnqueueBuffers(myAlSources[i], 1, &id)`: `id` keeps its value when the call
fails. -/
def unqueueBuffer (i : Nat) (id : Option ALBuffer) (c : StALContext) :
    Option ALBuffer × StALContext :=
  match c.sources.get? i with
  | none => (id, c)
  | some a =>
    match a.unqueue.1 with
    | none => (id, c)
    | some b => (some b, { c with sources := updateSource (fun x => x.unqueue.2) i c.sources })

/-- `alSourcePlayv(NUM_AL_SOURCES, myAlSources)`. -/
def alSourcePlayv (c : StALContext) : StALContext :=
  { c with sources := c.sources.map ALSource.play }

/-- `alSourcePausev(NUM_AL_SOURCES, myAlSources)`. -/
def alSourcePausev (c : StALContext) : StALContext :=
  { c with sources := c.sources.map ALSource.pause }

/-- `alSourceStopv(NUM_AL_SOURCES, myAlSources)`. -/
def alSourceStopv (c : StALContext) : StALContext :=
  { c with sources := c.sources.map ALSource.stop }

/-- Hardware progress of the source of index `i` alone. -/
def advance (i n : Nat) (c : StALContext) : StALContext :=
  { c with sources := updateSource (ALSource.advance n) i c.sources }

/-- Hardware progress of all sources. -/
def advanceAll (hw : Nat → Nat) (c : StALContext) : StALContext :=
  { c with sources := advanceFrom hw 0 c.sources }

/-- The staging loop of `stalQueue` (lines 538-545): ring slot `slot` of each of the first `n`
sources is filled and queued on its source. -/
def stageBuffers (slot n : Nat) (c : StALContext) : StALContext :=
  (List.range n).foldl (fun c i => c.queueBuffer i (i, slot)) c

/-- The refill loop of `stalQueue` (lines 560-590) over the source indices `ids`; `id` is the
variable `alBuffIdToFill`, and `wait i` the number of buffers source `i` finishes while the
function waits for it, at most 2 seconds. The result is `false` when the function returned
from inside the wait. -/
def refillSources (wait : Nat → Nat) : List Nat → Option ALBuffer → StALContext →
    Bool × StALContext
  | [], _, c => (true, c)
  | i :: rest, id, c =>
    let c := if i ≠ 0 then c.advance i (wait i) else c
    if i ≠ 0 ∧ c.buffersProcessed i = 0 then
      (false, c)
    else
      let r := c.unqueueBuffer i id
      match r.1 with
      | some b => refillSources wait rest r.1 (r.2.queueBuffer i b)
      | none => refillSources wait rest r.1 r.2

end StALContext

/-- The constants of `StAudioQueue.h`: number of sources and depth of the buffer ring. -/
structure ALConfig where
  NUM_AL_SOURCES : Nat
  NUM_AL_BUFFERS : Nat
  deriving DecidableEq, Repr

/-- What the platform answers when the object asks: whether the device context reports
connected, whether a context can be created on the named and on the default device, and the
extensions of a context created now. -/
structure ALEnv where
  isConnected : Bool
  createNamed : Bool
  createDefault : Bool
  hasExtFloat32 : Bool
  hasExtFloat64 : Bool
  hasExtMultiChannel : Bool
  deriving DecidableEq, Repr

/-- Control events returned by `popPlayEvent`, the seek target included; `OTHER` is any value
of the enumeration which falls to `default:` in `parseEvents`. -/
inductive StPlayEvent
  | ST_PLAYEVENT_NONE
  | ST_PLAYEVENT_PLAY
  | ST_PLAYEVENT_STOP
  | ST_PLAYEVENT_PAUSE
  | ST_PLAYEVENT_RESUME
  | ST_PLAYEVENT_SEEK (aPtsSeek : ℚ)
  | OTHER
  deriving DecidableEq

/-- Modelled from the spec: `stAreEqual(a, b, tolerance)` (declared outside the sources at
hand) compares two gains up to a tolerance. -/
def stAreEqual (a b tol : ℚ) : Bool := decide (|a - b| < tol)

namespace StAudioQueue

/-- Modelled from the spec: `playTimerStart(t)`, start-at(t) of the playback clock. -/
def playTimerStart (t : ℚ) (s : StAudioQueue) : StAudioQueue :=
  { s with myPlaybackTimer := { elapsed := t, running := true } }

/-- Modelled from the spec: `playTimerPause()`. -/
def playTimerPause (s : StAudioQueue) : StAudioQueue :=
  { s with myPlaybackTimer := { s.myPlaybackTimer with running := false } }

/-- Modelled from the spec: `playTimerResume()`. -/
def playTimerResume (s : StAudioQueue) : StAudioQueue :=
  { s with myPlaybackTimer := { s.myPlaybackTimer with running := true } }

/-- `stalEmpty()`: all sources are stopped, then each one has as many buffers unqueued as it
reports queued and its queue detached. -/
def stalEmpty (s : StAudioQueue) : StAudioQueue :=
  { s with myAlCtx :=
      { s.myAlCtx.alSourceStopv with
        sources := s.myAlCtx.alSourceStopv.sources.map
          (fun a => (a.unqueueMany a.queue.length).detach) } }

/-- `stalGetSourceState()`: the state of source 0; without a valid handle the variable is not
written, which is the `UNKNOWN` value here. -/
def stalGetSourceState (s : StAudioQueue) : ALState :=
  match s.myAlCtx.sources.head? with
  | some a => a.state
  | none => .UNKNOWN

/-- Modelled from the spec: `stalIsAudioPlaying()` (defined in `StAudioQueue.h`): the reference
source is playing. -/
def stalIsAudioPlaying (s : StAudioQueue) : Bool := s.stalGetSourceState = .AL_PLAYING

/-- `stalInit()`: a context is created on the named device or else on the default one; then
the sources are generated and configured and the listener gets the gain. -/
def stalInit (K : ALConfig) (env : ALEnv) (s : StAudioQueue) : Bool × StAudioQueue :=
  if !env.createNamed && !env.createDefault then
    (false, s)
  else
    (true, { s with myAlCtx :=
      { hasExtFloat32 := env.hasExtFloat32, hasExtFloat64 := env.hasExtFloat64,
        hasExtMultiChannel := env.hasExtMultiChannel, listenerGain := s.myAlGain,
        sources := List.replicate K.NUM_AL_SOURCES ALSource.fresh } })

/-- `stalDeinit()`: the queues are emptied, the sources stopped and deleted with their buffers,
the context destroyed. -/
def stalDeinit (s : StAudioQueue) : StAudioQueue :=
  { s with myAlCtx := { s.stalEmpty.myAlCtx with sources := [] } }

/-- The assignment `myIsAlValid = (stalInit() ? ST_AL_INIT_OK : ST_AL_INIT_KO)`. -/
def reopen (K : ALConfig) (env : ALEnv) (s : StAudioQueue) : StAudioQueue :=
  let r := s.stalInit K env
  { r.2 with myIsAlValid := if r.1 then .ST_AL_INIT_OK else .ST_AL_INIT_KO }

/-- `stalCheckConnected()`. -/
def stalCheckConnected (K : ALConfig) (env : ALEnv) (s : StAudioQueue) : Bool × StAudioQueue :=
  if !s.myIsDisconnected && env.isConnected then
    (true, s)
  else
    let s := { s with myAlDeviceName := "" }
    let s := s.stalDeinit
    let s := s.reopen K env
    (false, { s with myIsDisconnected := true })

/-- Lines 452-456 of `parseEvents`: a changed gain is handed to the listener. -/
def syncGain (s : StAudioQueue) : StAudioQueue :=
  if !stAreEqual s.myAlGain s.myAlGainPrev (1 / 10000000) then
    { s with myAlGainPrev := s.myAlGain, myAlCtx := { s.myAlCtx with listenerGain := s.myAlGain } }
  else s

/-- `parseEvents()`; `ev` is the event `popPlayEvent` returns, should the function come to call
it. -/
def parseEvents (K : ALConfig) (env : ALEnv) (ev : StPlayEvent) (s : StAudioQueue) :
    Bool × StAudioQueue :=
  if s.myToSwitchDev then
    let s := s.stalDeinit
    let s := s.reopen K env
    (true, { s with myIsDisconnected := false, myToSwitchDev := false })
  else
    let s := s.syncGain
    match ev with
    | .ST_PLAYEVENT_PLAY => (false, ((s.stalEmpty).playTimerStart 0).playTimerPause)
    | .ST_PLAYEVENT_STOP => (false, (s.playTimerPause).stalEmpty)
    | .ST_PLAYEVENT_PAUSE =>
      let s := s.playTimerPause
      (false, { s with myAlCtx := s.myAlCtx.alSourcePausev })
    | .ST_PLAYEVENT_RESUME =>
      let s := s.playTimerResume
      (false, { s with myAlCtx := s.myAlCtx.alSourcePlayv })
    | .ST_PLAYEVENT_SEEK aPtsSeek =>
      let s := ((s.stalEmpty).playTimerStart aPtsSeek).playTimerPause
      let s := { s with myBufferSrc := s.myBufferSrc.setDataSize 0 }
      let s := { s with myBufferOut := s.myBufferOut.setDataSize 0 }
      (true, s)
    | .ST_PLAYEVENT_NONE => (false, s)
    | .OTHER => (false, s)

/-- The estimate `double(myAlDataLoop.summ() + myBufferOut.getDataSizeWhole()) /
double(myBufferOut.getSecondSize())` of lines 597, 653 and 668, for a positive byte rate: the
two byte counts are converted to `double` and the quotient is a `double`. The sum of the two
`size_t` is taken without wrap-around. -/
def diffSecs (s : StAudioQueue) : ℚ :=
  toDouble (toDouble ((s.dataLoopSumm + s.myBufferOut.getDataSizeWhole : Nat) : ℚ) /
    toDouble (s.myBufferOut.getSecondSize : ℚ))

/-- Lines 597-602 and 653-658: the clock is started at the double `thePts - diffSecs` when it
is below 100000, or else at 0. -/
def anchorClock (thePts : ℚ) (s : StAudioQueue) : StAudioQueue :=
  if toDouble (thePts - s.diffSecs) < 100000 then
    s.playTimerStart (toDouble (thePts - s.diffSecs))
  else s.playTimerStart 0

/-- Lines 595-617 of `stalQueue`: playback is started when the reference source was polled
stopped and the ring is ready; the value returned is `isQueued`. -/
def stalQueueStart (K : ALConfig) (env : ALEnv) (thePts : ℚ) (aState : ALState)
    (toTryToPlay isQueued : Bool) (s : StAudioQueue) : Bool × StAudioQueue :=
  if aState = .AL_STOPPED && toTryToPlay then
    let s := s.anchorClock thePts
    let s := { s with myAlCtx := s.myAlCtx.alSourcePlayv }
    let s := (s.stalCheckConnected K env).2
    let toPause := !s.myIsPlaying
    let s := if toPause then { s with myAlCtx := s.myAlCtx.alSourcePausev } else s
    (isQueued, s)
  else
    (isQueued, s)

/-- `stalQueue(thePts)`. `wait` is the progress of the hardware while the function waits for
the other sources (see `StALContext.refillSources`). -/
def stalQueue (K : ALConfig) (env : ALEnv) (wait : Nat → Nat) (thePts : ℚ) (s : StAudioQueue) :
    Bool × StAudioQueue :=
  let aState := s.stalGetSourceState
  let aProcessed := s.myAlCtx.buffersProcessed 0
  let aQueued := s.myAlCtx.buffersQueued 0
  let changed : Bool := s.myPrevFormat ≠ s.myAlFormat || s.myPrevFrequency ≠ s.myBufferOut.freq
  if (aState = .AL_PLAYING || aState = .AL_PAUSED) && changed then
    (false, s)
  else
    let toReset : Bool := changed || (aState = .AL_STOPPED && aQueued = K.NUM_AL_BUFFERS)
    let s := if toReset then s.stalEmpty else s
    let aProcessed := if toReset then 0 else aProcessed
    let aQueued := if toReset then 0 else aQueued
    if aProcessed = 0 && aQueued < K.NUM_AL_BUFFERS then
      let s := { s with myPrevFormat := s.myAlFormat, myPrevFrequency := s.myBufferOut.freq }
      let s := { s with myAlCtx := s.myAlCtx.stageBuffers aQueued s.myBufferOut.sourcesCount }
      s.stalQueueStart K env thePts aState (aQueued + 1 = K.NUM_AL_BUFFERS) true
    else if aProcessed ≠ 0 && (aState = .AL_PLAYING || aState = .AL_PAUSED) then
      if s.myBufferOut.getDataSize 0 = 0 then
        (true, s)
      else
        let s := { s with myPrevFormat := s.myAlFormat, myPrevFrequency := s.myBufferOut.freq }
        let r := s.myAlCtx.refillSources wait (List.range s.myBufferOut.sourcesCount) none
        if r.1 then
          { s with myAlCtx := r.2 }.stalQueueStart K env thePts aState true true
        else
          (false, { s with myAlCtx := r.2 })
    else
      s.stalQueueStart K env thePts aState false false

end StAudioQueue

/-- The three ways through the body of the wait loop of `stalFillBuffers`. -/
inductive FillBranch
  | quit
  | autoResume
  | drift
  deriving DecidableEq, Repr

namespace StAudioQueue

/-- The body of the wait loop of `stalFillBuffers` (lines 641-683), entered when `stalQueue` has
returned `false`. `ev` is the event `popPlayEvent` returns and `aPos` the offset
`AL_SEC_OFFSET` of source 0, should the body come to ask for them. The first component names the
branch taken: `quit` is the `return` of line 646. -/
def stalFillBody (K : ALConfig) (env : ALEnv) (ev : StPlayEvent) (aPos : ℚ) (thePts : ℚ)
    (toIgnoreEvents : Bool) (s : StAudioQueue) : FillBranch × StAudioQueue :=
  let r := if !toIgnoreEvents then s.parseEvents K env ev else (false, s)
  let toSkipPlaybackFrom := r.1
  let s := r.2
  if s.myToQuit then
    (.quit, s)
  else if !toSkipPlaybackFrom && !s.stalIsAudioPlaying && s.myIsPlaying then
    let s := s.anchorClock thePts
    let s := { s with myAlCtx := s.myAlCtx.alSourcePlayv }
    (.autoResume, (s.stalCheckConnected K env).2)
  else
    let diffSecs := toDouble (s.diffSecs - aPos)
    if toDouble (thePts - diffSecs) < 100000 then
      if thePts ≠ s.oldPts then
        (.drift, { s.playTimerStart (toDouble (thePts - diffSecs)) with oldPts := thePts })
      else
        (.drift, s)
    else
      (.drift, s)

end StAudioQueue

/-- What happens around one turn of the wait loop of `stalFillBuffers`, outside the object:
the seconds `dt` passed and the `hw i` buffers finished by source `i` since the previous poll,
the progress `wait` during the wait for the other sources, the answers `env` of the platform,
the event returned by `popPlayEvent`, the offset `aPos` reported for source 0, whether the
destructor has raised `myToQuit` meanwhile, and the playing intent set by the controlling
side. -/
structure FillInput where
  dt : ℚ
  hw : Nat → Nat
  wait : Nat → Nat
  env : ALEnv
  event : StPlayEvent
  aPos : ℚ
  toQuit : Bool
  isPlaying : Bool

/-- `true` for a seek event. -/
def StPlayEvent.isSeek : StPlayEvent → Bool
  | .ST_PLAYEVENT_SEEK _ => true
  | _ => false

/-- One turn of the wait loop of `stalFillBuffers` as an observer records it: whether the call
of `parseEvents` of this turn consumed a seek event, and the branch the turn took. -/
structure FillTurn where
  seek : Bool
  branch : FillBranch
  deriving DecidableEq, Repr

/-- The record of one call of `stalFillBuffers`: the turns of its wait loop, in order, whether
the function has returned, and the object at that point. -/
structure FillRun where
  trace : List FillTurn
  returned : Bool
  state : StAudioQueue

namespace StAudioQueue

/-- The object when a turn of the wait loop begins: time has passed on the clock, the hardware
has progressed and the other thread has written its flags. -/
def meet (i : FillInput) (s : StAudioQueue) : StAudioQueue :=
  { s with myPlaybackTimer := s.myPlaybackTimer.tick i.dt,
           myAlCtx := s.myAlCtx.advanceAll i.hw, myToQuit := s.myToQuit || i.toQuit,
           myIsPlaying := i.isPlaying }

/-- The wait loop `while(!stalQueue(thePts)) { ... }` of `stalFillBuffers`, one `FillInput` for
each call of `stalQueue`. When the inputs end before the loop does, the run has not returned. -/
def fillLoop (K : ALConfig) (thePts : ℚ) (toIgnoreEvents : Bool) :
    List FillInput → StAudioQueue → FillRun
  | [], s => { trace := [], returned := false, state := s }
  | i :: rest, s =>
    let r := (s.meet i).stalQueue K i.env i.wait thePts
    if r.1 then
      { trace := [], returned := true, state := r.2 }
    else
      let b := r.2.stalFillBody K i.env i.event i.aPos thePts toIgnoreEvents
      let turn : FillTurn :=
        { seek := !toIgnoreEvents && !r.2.myToSwitchDev && i.event.isSeek, branch := b.1 }
      if b.1 = .quit then
        { trace := [turn], returned := true, state := b.2 }
      else
        let run := fillLoop K thePts toIgnoreEvents rest b.2
        { run with trace := turn :: run.trace }

/-- `stalFillBuffers(thePts, toIgnoreEvents)`; `env0` and `ev0` serve the call of `parseEvents`
of line 636. -/
def stalFillBuffers (K : ALConfig) (thePts : ℚ) (toIgnoreEvents : Bool) (env0 : ALEnv)
    (ev0 : StPlayEvent) (inputs : List FillInput) (s : StAudioQueue) : FillRun :=
  let s := if !toIgnoreEvents then (s.parseEvents K env0 ev0).2 else s
  s.fillLoop K thePts toIgnoreEvents inputs

end StAudioQueue

/-! ## Notions of the specification -/

/-- What `init` needs to reach the channel setup: the device session is open, the stream and
the codec are valid and the sample format is one of the five supported ones. -/
def StAudioQueue.Ready (s : StAudioQueue) (strm : AVStream) : Prop :=
  s.myIsAlValid = .ST_AL_INIT_OK ∧ strm.queueInitOk = true ∧ strm.isAudio = true ∧
    strm.decoderFound = true ∧ strm.codecOpened = true ∧ strm.sample_fmt ≠ .OTHER

instance (s : StAudioQueue) (strm : AVStream) : Decidable (s.Ready strm) := by
  unfold StAudioQueue.Ready; infer_instance

/-- The channel counts the specification calls supported. -/
def SupportedChannels (n : Int) : Prop := n = 1 ∨ n = 2 ∨ n = 4 ∨ n = 6

instance (n : Int) : Decidable (SupportedChannels n) := by
  unfold SupportedChannels; infer_instance

/-- The destination format in the words of the specification: float64 for a float64 source on
a device with 64-bit floats, else float32 for a signed-32, float32 or float64 source on a device
with 32-bit floats, else unsigned-8 for an unsigned-8 source, else signed-16. -/
def preferredFormat (src : StPcmFormat) (hasFloat32 hasFloat64 : Bool) : StPcmFormat :=
  if src = .PCM64FLOAT ∧ hasFloat64 = true then .PCM64FLOAT
  else if (src = .PCM32_SIGNED ∨ src = .PCM32FLOAT ∨ src = .PCM64FLOAT) ∧ hasFloat32 = true then
    .PCM32FLOAT
  else if src = .PCM8_UNSIGNED then .PCM8_UNSIGNED
  else .PCM16_SIGNED

/-- The destination format of a stream played through the multichannel extension, whose
formats are 8 bit, 16 bit and 32 bit float. -/
def multichannelFormat (src : StPcmFormat) : StPcmFormat :=
  if src = .PCM8_UNSIGNED then .PCM8_UNSIGNED
  else if src = .PCM32_SIGNED ∨ src = .PCM32FLOAT ∨ src = .PCM64FLOAT then .PCM32FLOAT
  else .PCM16_SIGNED

/-- The decoder library is old in the words of the specification: major below 52, or major 52
and minor below 72. -/
def isOldLibrary (v : Version) : Prop :=
  v.myMajor < 52 ∨ (v.myMajor = 52 ∧ v.myMinor < 72)

instance (v : Version) : Decidable (isOldLibrary v) := by
  unfold isOldLibrary; infer_instance

/-- In-flight seconds in the words of the specification: the sum of the data-rate history plus
the bytes of the current output buffer, over the bytes per second of the output format. -/
def inFlightSeconds (s : StAudioQueue) : ℚ :=
  ((s.dataLoopSumm : ℚ) + (s.myBufferOut.getDataSizeWhole : ℚ)) / (s.myBufferOut.getSecondSize : ℚ)

/-- Every source of the device has an empty queue and has nothing played. -/
def QueuesEmpty (c : StALContext) : Prop :=
  ∀ a ∈ c.sources, a.queue = [] ∧ a.processed = 0

/-- The device at rest: empty queues, and every source initial or stopped. -/
def AtRest (c : StALContext) : Prop :=
  ∀ a ∈ c.sources, a.queue = [] ∧ a.processed = 0 ∧ (a.state = .AL_INITIAL ∨ a.state = .AL_STOPPED)

/-- The ring discipline of the device for a ring of `N` buffers: a source has played no more
buffers than it has queued, it has no more buffers queued than the reference source, which has
at most `N`, and every queued buffer sits in a slot of the ring. -/
def RingInv (N : Nat) (c : StALContext) : Prop :=
  c.buffersQueued 0 ≤ N ∧
  ∀ a ∈ c.sources, a.processed ≤ a.queue.length ∧ a.queue.length ≤ c.buffersQueued 0 ∧
    ∀ b ∈ a.queue, b.2 < N

instance (c : StALContext) : Decidable (QueuesEmpty c) := by
  unfold QueuesEmpty; infer_instance

instance (c : StALContext) : Decidable (AtRest c) := by
  unfold AtRest; infer_instance

instance (N : Nat) (c : StALContext) : Decidable (RingInv N c) := by
  unfold RingInv; infer_instance

/-- Source `a'` holds as many buffers as source `a`, all of them buffers `a` held, and has
played no more buffers than it holds when that is so of `a`. -/
def ALSource.SameQueue (a a' : ALSource) : Prop :=
  a'.queue.length = a.queue.length ∧ (∀ b ∈ a'.queue, b ∈ a.queue) ∧
    (a.processed ≤ a.queue.length → a'.processed ≤ a'.queue.length)

/-- Two lists of sources which correspond source by source in the sense of `SameQueue`. -/
def SameQueues (l l' : List ALSource) : Prop := List.Forall₂ ALSource.SameQueue l l'

/-! ## Concrete objects -/

/-- An object with an open device session of 8 sources without extensions, nothing queued,
16 bit stereo buffers at 48 kHz. -/
def opened : StAudioQueue :=
  { myPlaybackTimer := { elapsed := 0, running := false },
    myBufferSrc := { format := .PCM16_SIGNED, freq := 48000, channels := .CH20, rules := .PCM,
                     sourcesCount := 1, dataSize := 0 },
    myBufferOut := { format := .PCM16_SIGNED, freq := 48000, channels := .CH20, rules := .PCM,
                     sourcesCount := 1, dataSize := 0 },
    myIsAlValid := .ST_AL_INIT_OK, myToSwitchDev := false, myIsDisconnected := false,
    myAlDeviceName := "",
    myAlCtx := { hasExtFloat32 := false, hasExtFloat64 := false, hasExtMultiChannel := false,
                 listenerGain := 1, sources := List.replicate 8 ALSource.fresh },
    myAlFormat := .AL_FORMAT_STEREO16, myPrevFormat := .AL_FORMAT_STEREO16,
    myPrevFrequency := 48000, myAlGain := 1, myAlGainPrev := 1, dataLoopSumm := 0,
    myToQuit := false, myIsPlaying := false, oldPts := 0, errors := [] }

/-- The same object on a device with the multichannel extension. -/
def openedMulti : StAudioQueue :=
  { opened with myAlCtx := { opened.myAlCtx with hasExtMultiChannel := true } }

/-- A valid audio stream at 48 kHz with the given sample format, channel count and codec. -/
def pcmStream (fmt : SampleFmt) (n : Int) (codec : CodecId) : AVStream :=
  { queueInitOk := true, isAudio := true, decoderFound := true, codecOpened := true,
    sample_fmt := fmt, sample_rate := 48000, channels := n, codecId := codec }

/-- A platform whose device is connected and can be opened, without extensions. -/
def plainEnv : ALEnv :=
  { isConnected := true, createNamed := true, createDefault := true, hasExtFloat32 := false,
    hasExtFloat64 := false, hasExtMultiChannel := false }

/-- The object `opened` with the ring of source 0 full (3 buffers, none played yet), one second
of audio in the output buffer, and the intent to play. -/
def ringFull (st : ALState) : StAudioQueue :=
  { opened with
    myBufferOut := { opened.myBufferOut with dataSize := 192000 },
    myIsPlaying := true,
    myAlCtx := { opened.myAlCtx with
      sources := { ALSource.fresh with state := st, queue := [(0, 0), (0, 1), (0, 2)] } ::
        List.replicate 7 ALSource.fresh } }

/-- The object `ringFull .AL_PLAYING` with the clock running at `t`. -/
def playingAt (t : ℚ) : StAudioQueue :=
  { ringFull .AL_PLAYING with myPlaybackTimer := { elapsed := t, running := true } }

/-- The object `ringFull .AL_INITIAL` with 191992 bytes in the output buffer. -/
def nearLimit : StAudioQueue :=
  { ringFull .AL_INITIAL with
    myBufferOut := { (ringFull .AL_INITIAL).myBufferOut with dataSize := 191992 } }

/-- A turn of the wait loop one millisecond after the previous poll, during which the hardware
finishes nothing, nobody asks to quit, the controlling side wants to play, and `popPlayEvent`
returns `ev`. -/
def quietTurn (ev : StPlayEvent) : FillInput :=
  { dt := 1 / 1000, hw := fun _ => 0, wait := fun _ => 0, env := plainEnv, event := ev,
    aPos := 0, toQuit := false, isPlaying := true }

/-- The object `opened` set up for 6 split channels, where source 1 has its ring of 3 buffers
queued and the other sources, the reference source among them, have nothing queued. -/
def skewed : StAudioQueue :=
  { opened with
    myAlFormat := .AL_FORMAT_MONO16, myPrevFormat := .AL_FORMAT_MONO16,
    myBufferOut := { opened.myBufferOut with channels := .CH51, sourcesCount := 6 },
    myAlCtx := { opened.myAlCtx with
      sources := ALSource.fresh ::
        { ALSource.fresh with queue := [(1, 0), (1, 1), (1, 2)] } ::
        List.replicate 6 ALSource.fresh } }

end SView

namespace SView

/-! ## Decoding (`decodePacket`, `decodeLoop`) -/

/-- A data packet as `decodePacket` reads it: the size of its payload (`getSize()`) and its
presentation timestamp converted to seconds by `unitsToSeconds`, `none` when `getPts()` is
`stLibAV::NOPTS_VALUE`. -/
structure StAVPacket where
  size : Int
  pts : Option ℚ

/-- One call of `avcodec_decode_audio3` in `decodePacket` and what the surroundings contribute
to the code which follows it: the bytes consumed `len1` (negative on error), the bytes produced
`dataSize`, and, should a fill cycle follow, the platform `env0` and the event `ev0` of its
first `parseEvents`, the turns of its wait loop, and the size `dropped` which leaves the ring
`myAlDataLoop` when a new size is pushed. -/
structure Frame where
  len1 : Int
  dataSize : Int
  env0 : ALEnv
  ev0 : StPlayEvent
  turns : List FillInput
  dropped : Nat

/-- The record of one call of `decodePacket`: the timestamps `stalFillBuffers` was invoked
with, in order, the pairs (new PTS, old PTS) of the message "Got the AUDIO packet with pts in
past", whether the function has returned, the argument `thePts` and the object at that point. -/
structure DecodeRun where
  fills : List ℚ
  anomalies : List (ℚ × ℚ)
  returned : Bool
  thePts : ℚ
  state : StAudioQueue

/-- What the loop of `decodeLoop` finds in the packet queue: nothing (`isEmpty()`; `env` and
`ev` serve the call of `parseEvents`), a null handle from `pop()`, or a packet of one of the
five types; a stream-end packet comes with what its fill cycle meets, a data packet with its
payload and the answers of the decoder. -/
inductive Arrival
  | empty (env : ALEnv) (ev : StPlayEvent)
  | null
  | FLUSH_PACKET
  | START_PACKET
  | END_PACKET (env0 : ALEnv) (ev0 : StPlayEvent) (turns : List FillInput)
  | QUIT_PACKET
  | DATA_PACKET (pkt : StAVPacket) (frames : List Frame)

/-- One iteration of the loop of `decodeLoop` seen from outside: whether the destructor has
raised `myToQuit` by the time it begins, and what the packet queue holds. -/
structure LoopInput where
  toQuit : Bool
  arrival : Arrival

/-- The object together with the local variable `aPts` of `decodeLoop` and the condition
`myDowntimeEvent`. -/
structure LoopState where
  obj : StAudioQueue
  aPts : ℚ
  myDowntimeEvent : Bool

/-- The ways through the body of the loop of `decodeLoop`; `streamEnd filled` is the case
`END_PACKET`, where `filled` tells whether `stalFillBuffers` was called. -/
inductive LoopStep
  | idle
  | null
  | flush
  | start
  | streamEnd (filled : Bool)
  | data
  | quit
  deriving DecidableEq, Repr

/-- One iteration of the loop of `decodeLoop`: the way taken, whether it left the function by
`return`, whether it is still inside a fill cycle or the decoder when the inputs end, and the
state after it. -/
structure StepResult where
  step : LoopStep
  returned : Bool
  pending : Bool
  state : LoopState

/-- The record of a run of `decodeLoop`: the iterations of its loop, in order, whether the
function has returned, and the state at that point. -/
structure LoopRun where
  trace : List LoopStep
  returned : Bool
  state : LoopState

namespace StAudioQueue

/-- `pushPlayEvent(theEventId, theSeekParam)`: the event goes to the mailbox of
`StAVPacketQueue`, which is not part of the record; a seek restarts the playback clock at its
target (`StTimer::restart` is start-at, as in `playTimerStart`). -/
def pushPlayEvent (ev : StPlayEvent) (s : StAudioQueue) : StAudioQueue :=
  match ev with
  | .ST_PLAYEVENT_SEEK aPtsSeek =>
    { s with myPlaybackTimer := { elapsed := aPtsSeek, running := true } }
  | _ => s

/-- Modelled from the spec: `myAlDataLoop.push(n)` on the ring of recently queued buffer sizes:
the ring takes `n` and loses its oldest entry `dropped`, so its sum changes by the
difference. -/
def pushDataLoop (n dropped : Nat) (s : StAudioQueue) : StAudioQueue :=
  { s with dataLoopSumm := s.dataLoopSumm + n - dropped }

/-- Lines 792-793 and 808-809 of `decodeLoop`: `myBufferOut.setDataSize(0)` and
`myBufferSrc.setDataSize(0)`. -/
def clearBuffers (s : StAudioQueue) : StAudioQueue :=
  let s := { s with myBufferOut := s.myBufferOut.setDataSize 0 }
  { s with myBufferSrc := s.myBufferSrc.setDataSize 0 }

/-- The loops of `decodePacket` (lines 696-760), one `Frame` for each call of the decoder;
`size` is `audio_pkt_size`. `addData dst src` is `dst.addData(src)` of `StPCMBuffer`, whose
sources are absent: it returns whether the data went in, and the buffer after the call.
`myPtsStartBase` is the member of `StAVPacketQueue`. The outer `for(;;)` goes round again
exactly when a frame was produced, so the two loops are one loop over the calls of the decoder.
When the frames end while payload is left, the run has not returned. -/
def decodeFrames (addData : StPCMBuffer → StPCMBuffer → Bool × StPCMBuffer) (K : ALConfig)
    (myPtsStartBase : ℚ) (thePacket : StAVPacket) :
    List Frame → Int → ℚ → StAudioQueue → DecodeRun
  | [], size, thePts, s =>
    { fills := [], anomalies := [], returned := decide (size ≤ 0), thePts := thePts, state := s }
  | f :: rest, size, thePts, s =>
    if size ≤ 0 then
      { fills := [], anomalies := [], returned := true, thePts := thePts, state := s }
    else if f.len1 < 0 then
      { fills := [], anomalies := [], returned := true, thePts := thePts, state := s }
    else
      let size := size - f.len1
      if f.dataSize ≤ 0 then
        decodeFrames addData K myPtsStartBase thePacket rest size thePts s
      else
        let s := { s with myBufferSrc := s.myBufferSrc.setDataSize f.dataSize.toNat }
        let r := addData s.myBufferOut s.myBufferSrc
        let s := { s with myBufferOut := r.2 }
        if r.1 then
          decodeFrames addData K myPtsStartBase thePacket rest size thePts s
        else
          let aNewPts : ℚ :=
            match thePacket.pts with
            | some u => u - myPtsStartBase
            | none => thePts
          let logged : List (ℚ × ℚ) :=
            match thePacket.pts with
            | some u => if u - myPtsStartBase ≤ thePts then [(u - myPtsStartBase, thePts)] else []
            | none => []
          let run := s.stalFillBuffers K aNewPts false f.env0 f.ev0 f.turns
          if !run.returned then
            { fills := [aNewPts], anomalies := logged, returned := false, thePts := aNewPts,
              state := run.state }
          else if run.state.myToQuit then
            { fills := [aNewPts], anomalies := logged, returned := true, thePts := aNewPts,
              state := run.state }
          else
            let s := run.state.pushDataLoop run.state.myBufferOut.getDataSizeWhole f.dropped
            let s := { s with myBufferOut := s.myBufferOut.setDataSize 0 }
            let s := { s with myBufferOut := (addData s.myBufferOut s.myBufferSrc).2 }
            let run := decodeFrames addData K myPtsStartBase thePacket rest size aNewPts s
            { run with fills := aNewPts :: run.fills, anomalies := logged ++ run.anomalies }

/-- `decodePacket(thePacket, thePts)`. -/
def decodePacket (addData : StPCMBuffer → StPCMBuffer → Bool × StPCMBuffer) (K : ALConfig)
    (myPtsStartBase : ℚ) (thePacket : StAVPacket) (frames : List Frame) (thePts : ℚ)
    (s : StAudioQueue) : DecodeRun :=
  s.decodeFrames addData K myPtsStartBase thePacket frames thePacket.size thePts

end StAudioQueue

/-- The body of the loop of `decodeLoop` (lines 771-825). `myPtsStartStream` and
`myPtsStartBase` are the members of `StAVPacketQueue`. -/
def decodeStep (addData : StPCMBuffer → StPCMBuffer → Bool × StPCMBuffer) (K : ALConfig)
    (myPtsStartStream myPtsStartBase : ℚ) (i : LoopInput) (st : LoopState) : StepResult :=
  let s := { st.obj with myToQuit := st.obj.myToQuit || i.toQuit }
  match i.arrival with
  | .empty env ev =>
    { step := .idle, returned := false, pending := false,
      state := { st with obj := (s.parseEvents K env ev).2, myDowntimeEvent := true } }
  | .null =>
    { step := .null, returned := false, pending := false,
      state := { st with obj := s, myDowntimeEvent := false } }
  | .FLUSH_PACKET =>
    { step := .flush, returned := false, pending := false,
      state := { st with obj := s.clearBuffers.stalEmpty, myDowntimeEvent := false } }
  | .START_PACKET =>
    { step := .start, returned := false, pending := false,
      state := { obj := s.playTimerStart (myPtsStartStream - myPtsStartBase), aPts := 0,
                 myDowntimeEvent := false } }
  | .END_PACKET env0 ev0 turns =>
    let s := s.pushPlayEvent .ST_PLAYEVENT_NONE
    let filled : Bool := s.myBufferOut.getDataSize 0 ≠ 0
    let run : FillRun :=
      if filled then s.stalFillBuffers K st.aPts true env0 ev0 turns
      else { trace := [], returned := true, state := s }
    if !run.returned then
      { step := .streamEnd filled, returned := false, pending := true,
        state := { st with obj := run.state, myDowntimeEvent := false } }
    else
      let s := run.state.clearBuffers
      if s.myToQuit then
        { step := .streamEnd filled, returned := true, pending := false,
          state := { st with obj := s.stalDeinit, myDowntimeEvent := false } }
      else
        { step := .streamEnd filled, returned := false, pending := false,
          state := { st with obj := s, myDowntimeEvent := false } }
  | .QUIT_PACKET =>
    { step := .quit, returned := true, pending := false,
      state := { st with obj := s.stalDeinit, myDowntimeEvent := false } }
  | .DATA_PACKET pkt frames =>
    let run := s.decodePacket addData K myPtsStartBase pkt frames st.aPts
    { step := .data, returned := false, pending := !run.returned,
      state := { obj := run.state, aPts := run.thePts, myDowntimeEvent := false } }

/-- The loop `for(;;)` of `decodeLoop`, one `LoopInput` for each iteration. When the inputs end
before the loop does, the run has not returned. -/
def decodeIterate (addData : StPCMBuffer → StPCMBuffer → Bool × StPCMBuffer) (K : ALConfig)
    (myPtsStartStream myPtsStartBase : ℚ) : List LoopInput → LoopState → LoopRun
  | [], st => { trace := [], returned := false, state := st }
  | i :: rest, st =>
    let r := decodeStep addData K myPtsStartStream myPtsStartBase i st
    if r.returned then
      { trace := [r.step], returned := true, state := r.state }
    else if r.pending then
      { trace := [r.step], returned := false, state := r.state }
    else
      let run := decodeIterate addData K myPtsStartStream myPtsStartBase rest r.state
      { run with trace := r.step :: run.trace }

/-- `decodeLoop()`: the device is opened, then the loop runs from `aPts = 0`; `env` is the
platform at the time of `stalInit`. -/
def StAudioQueue.decodeLoop (addData : StPCMBuffer → StPCMBuffer → Bool × StPCMBuffer)
    (K : ALConfig) (myPtsStartStream myPtsStartBase : ℚ) (env : ALEnv) (inputs : List LoopInput)
    (myDowntimeEvent : Bool) (s : StAudioQueue) : LoopRun :=
  decodeIterate addData K myPtsStartStream myPtsStartBase inputs
    { obj := s.reopen K env, aPts := 0, myDowntimeEvent := myDowntimeEvent }

/-! ## Concrete objects for the decoding loop -/

/-- Modelled from the spec: an `appendFrom` for two buffers of the same format, with room for
`cap` bytes in each plane: the bytes are appended when they fit, and refused as a whole
otherwise. -/
def addDataUpTo (cap : Nat) (dst src : StPCMBuffer) : Bool × StPCMBuffer :=
  if dst.dataSize + src.dataSize ≤ cap then
    (true, { dst with dataSize := dst.dataSize + src.dataSize })
  else (false, dst)

/-- A call of the decoder which consumes 4096 bytes and produces 4096 bytes, on a quiet
platform where the fill cycle, should there be one, gets `turns`. -/
def plainFrame (turns : List FillInput) : Frame :=
  { len1 := 4096, dataSize := 4096, env0 := plainEnv, ev0 := .ST_PLAYEVENT_NONE, turns := turns,
    dropped := 0 }

/-- A turn of the wait loop like `quietTurn .ST_PLAYEVENT_NONE`, during which every playing
source finishes one buffer. -/
def playedTurn : FillInput :=
  { quietTurn .ST_PLAYEVENT_NONE with hw := fun _ => 1 }

/-- A call of `decodePacket` with running timestamp 10 on a packet of 4096 bytes stamped 5
seconds (the base is 0), while the output buffer is full and the ring of the playing reference
source is full; the fill cycle gets one turn, in which the source finishes a buffer. -/
def regressedRun : DecodeRun :=
  (ringFull .AL_PLAYING).decodePacket (addDataUpTo 192000) ⟨8, 3⟩ 0 ⟨4096, some 5⟩
    [plainFrame [playedTurn]] 10

/-- The object `opened` set up for 6 split channels after the destructor has raised `myToQuit`:
the six sources play with their ring of 3 buffers queued, the reference source has finished one
buffer, and the output buffer holds data. -/
def splitQuitting : StAudioQueue :=
  { opened with
    myToQuit := true, myIsPlaying := true,
    myAlFormat := .AL_FORMAT_MONO16, myPrevFormat := .AL_FORMAT_MONO16,
    myBufferOut := { opened.myBufferOut with channels := .CH51, sourcesCount := 6,
                                             dataSize := 32000 },
    myAlCtx := { opened.myAlCtx with
      sources := (List.range 6).map (fun i =>
          { ALSource.fresh with state := .AL_PLAYING, queue := [(i, 0), (i, 1), (i, 2)],
                                processed := if i = 0 then 1 else 0 }) ++
        List.replicate 2 ALSource.fresh } }

/-- An iteration of the loop of `decodeLoop` which finds the packet queue empty and no event
pending. -/
def idleInput : LoopInput :=
  { toQuit := false, arrival := .empty plainEnv .ST_PLAYEVENT_NONE }

/-- The object `opened` after a flush during playback: the reference source is stopped with
nothing queued, and one second of audio waits in the output buffer. -/
def stoppedEmpty : StAudioQueue :=
  { opened with
    myBufferOut := { opened.myBufferOut with dataSize := 192000 },
    myAlCtx := { opened.myAlCtx with
      sources := { ALSource.fresh with state := .AL_STOPPED } ::
        List.replicate 7 ALSource.fresh } }

/-- The object `ringFull .AL_PLAYING` when the stream has changed from mono to stereo since the
last queue operation. -/
def retuned : StAudioQueue :=
  { ringFull .AL_PLAYING with myPrevFormat := .AL_FORMAT_MONO16 }

end SView

/-! ## Channel layout resolution (`init`) -/

namespace SView

open StAudioQueue

theorem init_of_ready (v : Version) (strm : AVStream) (s : StAudioQueue) (h : s.Ready strm) :
    ∃ f s0, srcFormatOf strm.sample_fmt = some f ∧ s.init v strm = some (initChannels v strm s0) ∧
      s0.myAlCtx = s.myAlCtx ∧ s0.myBufferSrc.format = f ∧ s0.errors = s.errors ∧
      s0.myAlFormat = s.myAlFormat ∧ s0.myBufferSrc.rules = s.myBufferSrc.rules ∧
      s0.myBufferOut.rules = s.myBufferOut.rules ∧
      s0.myBufferOut.channels = s.myBufferOut.channels ∧
      s0.myBufferOut.sourcesCount = s.myBufferOut.sourcesCount := by
  obtain ⟨h1, h2, h3, h4, h5, h6⟩ := h
  obtain ⟨f, hf⟩ : ∃ f, srcFormatOf strm.sample_fmt = some f := by
    cases hs : strm.sample_fmt <;> simp_all [srcFormatOf]
  refine ⟨f, { s with myBufferSrc := (s.myBufferSrc.setFormat f).setFreq strm.sample_rate,
                      myBufferOut := s.myBufferOut.setFreq strm.sample_rate }, hf, ?_,
    rfl, rfl, rfl, rfl, rfl, rfl, rfl, rfl⟩
  simp [StAudioQueue.init, h1, h2, h3, h4, h5, hf]

theorem ready_of_init (v : Version) (strm : AVStream) (s s' : StAudioQueue)
    (h : s.init v strm = some (true, s')) : s.Ready strm := by
  unfold StAudioQueue.init at h
  unfold StAudioQueue.Ready
  split_ifs at h with h1 h2 h3 h4 h5
  · simp at h
  · simp at h
  · simp at h
  · simp at h
  · cases hf : strm.sample_fmt <;> simp [hf, srcFormatOf] at h <;> simp_all

theorem init_eq_of_channels (v : Version) (strm : AVStream) (s s0 : StAudioQueue)
    (hi : s.init v strm = some (initChannels v strm s0))
    (h1 : (initChannels v strm s0).1 = true) :
    s.init v strm = some (true, (initChannels v strm s0).2) := by
  rw [hi, ← h1]

theorem setupCoreFormat_src (a b c d : ALFormat) (s : StAudioQueue) :
    (setupCoreFormat a b c d s).myBufferSrc = s.myBufferSrc := by
  unfold setupCoreFormat; split_ifs <;> rfl

theorem setupCoreFormat_ctx (a b c d : ALFormat) (s : StAudioQueue) :
    (setupCoreFormat a b c d s).myAlCtx = s.myAlCtx := by
  unfold setupCoreFormat; split_ifs <;> rfl

theorem setupCoreFormat_out (a b c d : ALFormat) (s : StAudioQueue) :
    (setupCoreFormat a b c d s).myBufferOut =
      s.myBufferOut.setFormat
        (preferredFormat s.myBufferSrc.format s.myAlCtx.hasExtFloat32 s.myAlCtx.hasExtFloat64) := by
  unfold setupCoreFormat preferredFormat
  cases s.myBufferSrc.format <;> cases s.myAlCtx.hasExtFloat32 <;>
    cases s.myAlCtx.hasExtFloat64 <;> simp

theorem setupCoreFormat_al (a b c d : ALFormat) (s : StAudioQueue) :
    (setupCoreFormat a b c d s).myAlFormat = a ∨ (setupCoreFormat a b c d s).myAlFormat = b ∨
    (setupCoreFormat a b c d s).myAlFormat = c ∨ (setupCoreFormat a b c d s).myAlFormat = d := by
  unfold setupCoreFormat; split_ifs <;> simp

theorem setupMultiFormat_src (a b c : ALFormat) (s : StAudioQueue) :
    (setupMultiFormat a b c s).myBufferSrc = s.myBufferSrc := by
  unfold setupMultiFormat; split_ifs <;> rfl

theorem setupMultiFormat_ctx (a b c : ALFormat) (s : StAudioQueue) :
    (setupMultiFormat a b c s).myAlCtx = s.myAlCtx := by
  unfold setupMultiFormat; split_ifs <;> rfl

theorem setupMultiFormat_out (a b c : ALFormat) (s : StAudioQueue) :
    (setupMultiFormat a b c s).myBufferOut =
      s.myBufferOut.setFormat (multichannelFormat s.myBufferSrc.format) := by
  unfold setupMultiFormat multichannelFormat
  cases s.myBufferSrc.format <;> simp

theorem setupMultiFormat_al (a b c : ALFormat) (s : StAudioQueue) :
    (setupMultiFormat a b c s).myAlFormat = a ∨ (setupMultiFormat a b c s).myAlFormat = b ∨
    (setupMultiFormat a b c s).myAlFormat = c := by
  unfold setupMultiFormat; split_ifs <;> simp

theorem setupSrcChannels51_out (v : Version) (c : CodecId) (s : StAudioQueue) :
    (setupSrcChannels51 v c s).myBufferOut = s.myBufferOut := by
  unfold setupSrcChannels51; split_ifs <;> rfl

theorem setupSrcChannels51_al (v : Version) (c : CodecId) (s : StAudioQueue) :
    (setupSrcChannels51 v c s).myAlFormat = s.myAlFormat := by
  unfold setupSrcChannels51; split_ifs <;> rfl

theorem setupSrcChannels51_ctx (v : Version) (c : CodecId) (s : StAudioQueue) :
    (setupSrcChannels51 v c s).myAlCtx = s.myAlCtx := by
  unfold setupSrcChannels51; split_ifs <;> rfl

theorem setupSrcChannels51_rules (v : Version) (c : CodecId) (s : StAudioQueue) :
    (setupSrcChannels51 v c s).myBufferSrc.rules =
      if isReoderingNeeded v = true ∧ c = .CODEC_ID_AC3 then .AC3
      else if isReoderingNeeded v = true ∧ c = .CODEC_ID_VORBIS then .OGG else .PCM := by
  unfold setupSrcChannels51
  cases isReoderingNeeded v <;> cases c <;> simp [StPCMBuffer.setupChannels]

theorem isReoderingNeeded_iff (v : Version) : isReoderingNeeded v = true ↔ isOldLibrary v := by
  unfold isReoderingNeeded isReoderingNeededInit isOldLibrary
  simp only [Bool.not_eq_true', Bool.or_eq_false_iff, Bool.and_eq_false_imp, decide_eq_false_iff_not,
    decide_eq_true_eq]
  omega

theorem multi_of_quad (strm : AVStream) (s : StAudioQueue)
    (hm : ¬ (strm.channels = 4 ∧ s.myAlCtx.hasExtMultiChannel = false)) (h4 : strm.channels = 4) :
    s.myAlCtx.hasExtMultiChannel = true := by
  cases h : s.myAlCtx.hasExtMultiChannel
  · exact absurd ⟨h4, h⟩ hm
  · rfl

theorem initChannels_unsupported (v : Version) (strm : AVStream) (s : StAudioQueue)
    (hn : ¬ SupportedChannels strm.channels) : initChannels v strm s = (true, s) := by
  unfold SupportedChannels at hn
  push_neg at hn
  obtain ⟨n1, n2, n4, n6⟩ := hn
  simp [initChannels, n1, n2, n4, n6]

theorem initChannels_quad_fails (v : Version) (strm : AVStream) (s : StAudioQueue)
    (h4 : strm.channels = 4) (hm : s.myAlCtx.hasExtMultiChannel = false) :
    (initChannels v strm s).1 = false := by
  simp [initChannels, h4, hm]

theorem initChannels_total (v : Version) (strm : AVStream) (s : StAudioQueue)
    (hn : SupportedChannels strm.channels)
    (hm : ¬ (strm.channels = 4 ∧ s.myAlCtx.hasExtMultiChannel = false)) :
    (initChannels v strm s).1 = true ∧
      ((initChannels v strm s).2.totalChannels : Int) = strm.channels ∧
      ((initChannels v strm s).2.myBufferOut.channels.count : Int) = strm.channels := by
  rcases hn with h1 | h1 | h1 | h1
  · have := setupCoreFormat_al .AL_FORMAT_MONO8 .AL_FORMAT_MONO_DOUBLE_EXT
      .AL_FORMAT_MONO_FLOAT32 .AL_FORMAT_MONO16 s
    simp only [initChannels, h1, totalChannels, stalConfigureSources1, StPCMBuffer.setupChannels,
      Channels.count, if_true]
    rcases this with h | h | h | h <;> simp [h, ALFormat.channels]
  · have := setupCoreFormat_al .AL_FORMAT_STEREO8 .AL_FORMAT_STEREO_DOUBLE_EXT
      .AL_FORMAT_STEREO_FLOAT32 .AL_FORMAT_STEREO16 s
    simp [initChannels, h1, totalChannels, stalConfigureSources1, StPCMBuffer.setupChannels,
      Channels.count]
    rcases this with h | h | h | h <;> simp [h, ALFormat.channels]
  · have hmc := multi_of_quad strm s hm h1
    have := setupMultiFormat_al .AL_FORMAT_QUAD8 .AL_FORMAT_QUAD32 .AL_FORMAT_QUAD16 s
    simp [initChannels, h1, hmc, totalChannels, stalConfigureSources1, StPCMBuffer.setupChannels,
      Channels.count]
    rcases this with h | h | h <;> simp [h, ALFormat.channels]
  · cases hmc : s.myAlCtx.hasExtMultiChannel
    · have := setupCoreFormat_al .AL_FORMAT_MONO8 .AL_FORMAT_MONO_DOUBLE_EXT
        .AL_FORMAT_MONO_FLOAT32 .AL_FORMAT_MONO16 s
      simp [initChannels, h1, hmc, totalChannels, stalConfigureSources5_1,
        StPCMBuffer.setupChannels, Channels.count, setupSrcChannels51_out, setupSrcChannels51_al]
      rcases this with h | h | h | h <;> simp [h, ALFormat.channels]
    · have := setupMultiFormat_al .AL_FORMAT_51CHN8 .AL_FORMAT_51CHN32 .AL_FORMAT_51CHN16 s
      simp [initChannels, h1, hmc, totalChannels, stalConfigureSources1,
        StPCMBuffer.setupChannels, Channels.count, setupSrcChannels51_out, setupSrcChannels51_al]
      rcases this with h | h | h <;> simp [h, ALFormat.channels]

theorem initChannels_format (v : Version) (strm : AVStream) (s : StAudioQueue)
    (hn : SupportedChannels strm.channels)
    (hm : ¬ (strm.channels = 4 ∧ s.myAlCtx.hasExtMultiChannel = false)) :
    (initChannels v strm s).2.myBufferOut.format =
      if (strm.channels = 4 ∨ strm.channels = 6) ∧ s.myAlCtx.hasExtMultiChannel = true then
        multichannelFormat s.myBufferSrc.format
      else preferredFormat s.myBufferSrc.format s.myAlCtx.hasExtFloat32 s.myAlCtx.hasExtFloat64 := by
  rcases hn with h1 | h1 | h1 | h1
  · simp [initChannels, h1, stalConfigureSources1, StPCMBuffer.setupChannels,
      setupCoreFormat_out, StPCMBuffer.setFormat]
  · simp [initChannels, h1, stalConfigureSources1, StPCMBuffer.setupChannels,
      setupCoreFormat_out, StPCMBuffer.setFormat]
  · have hmc := multi_of_quad strm s hm h1
    simp [initChannels, h1, hmc, stalConfigureSources1, StPCMBuffer.setupChannels,
      setupMultiFormat_out, StPCMBuffer.setFormat]
  · cases hmc : s.myAlCtx.hasExtMultiChannel
    · simp [initChannels, h1, hmc, stalConfigureSources5_1, StPCMBuffer.setupChannels,
        setupCoreFormat_out, setupSrcChannels51_out, StPCMBuffer.setFormat]
    · simp [initChannels, h1, hmc, stalConfigureSources1, StPCMBuffer.setupChannels,
        setupMultiFormat_out, setupSrcChannels51_out, StPCMBuffer.setFormat]

theorem initChannels_rules (v : Version) (strm : AVStream) (s : StAudioQueue)
    (hn : SupportedChannels strm.channels)
    (hm : ¬ (strm.channels = 4 ∧ s.myAlCtx.hasExtMultiChannel = false)) :
    (initChannels v strm s).2.myBufferOut.rules = .PCM ∧
    (initChannels v strm s).2.myBufferSrc.rules =
      if strm.channels = 6 ∧ isReoderingNeeded v = true ∧ strm.codecId = .CODEC_ID_AC3 then .AC3
      else if strm.channels = 6 ∧ isReoderingNeeded v = true ∧ strm.codecId = .CODEC_ID_VORBIS
      then .OGG else .PCM := by
  rcases hn with h1 | h1 | h1 | h1
  · simp [initChannels, h1, stalConfigureSources1, StPCMBuffer.setupChannels]
  · simp [initChannels, h1, stalConfigureSources1, StPCMBuffer.setupChannels]
  · have hmc := multi_of_quad strm s hm h1
    simp [initChannels, h1, hmc, stalConfigureSources1, StPCMBuffer.setupChannels]
  · cases hmc : s.myAlCtx.hasExtMultiChannel
    · simp [initChannels, h1, hmc, stalConfigureSources5_1, StPCMBuffer.setupChannels,
        setupSrcChannels51_out, setupSrcChannels51_rules]
    · simp [initChannels, h1, hmc, stalConfigureSources1, StPCMBuffer.setupChannels,
        setupSrcChannels51_out, setupSrcChannels51_rules]

theorem get?_updateSource (f : ALSource → ALSource) (i j : Nat) (l : List ALSource) :
    (updateSource f i l).get? j = if i = j then (l.get? j).map f else l.get? j := by
  induction l generalizing i j with
  | nil => simp [updateSource]
  | cons a l ih =>
    cases i with
    | zero => cases j <;> simp [updateSource]
    | succ i =>
      cases j with
      | zero => simp [updateSource]
      | succ j => simpa [updateSource] using ih i j

theorem length_updateSource (f : ALSource → ALSource) (i : Nat) (l : List ALSource) :
    (updateSource f i l).length = l.length := by
  induction l generalizing i with
  | nil => simp [updateSource]
  | cons a l ih => cases i <;> simp [updateSource, ih]

theorem positionOf_setPosition (c : StALContext) (i j : Nat) (p : StGLVec3) :
    (c.setPosition i p).positionOf j =
      if i = j then (c.positionOf j).map (fun _ => p) else c.positionOf j := by
  unfold StALContext.positionOf StALContext.setPosition
  simp only [get?_updateSource]
  split_ifs <;> simp [Option.map_map, Function.comp_def]

theorem positionOf_isSome (c : StALContext) (i : Nat) (h : i < c.sources.length) :
    ∃ p, c.positionOf i = some p := by
  unfold StALContext.positionOf
  rw [List.get?_eq_get h]
  exact ⟨_, rfl⟩

theorem initChannels_51_split (v : Version) (strm : AVStream) (s : StAudioQueue)
    (h6 : strm.channels = 6) (hm : s.myAlCtx.hasExtMultiChannel = false)
    (hs : 6 ≤ s.myAlCtx.sources.length) :
    (initChannels v strm s).1 = true ∧ (initChannels v strm s).2.myAlFormat.channels = 1 ∧
      (initChannels v strm s).2.myBufferOut.sourcesCount = 6 ∧
      (initChannels v strm s).2.myBufferOut.channels = .CH51 ∧
      (initChannels v strm s).2.myAlCtx.positionOf 0 = some (-1, 0, -1) ∧
      (initChannels v strm s).2.myAlCtx.positionOf 1 = some (1, 0, -1) ∧
      (initChannels v strm s).2.myAlCtx.positionOf 2 = some (0, 0, -1) ∧
      (initChannels v strm s).2.myAlCtx.positionOf 3 = some (0, 0, 0) ∧
      (initChannels v strm s).2.myAlCtx.positionOf 4 = some (-1, 0, 1) ∧
      (initChannels v strm s).2.myAlCtx.positionOf 5 = some (1, 0, 1) := by
  obtain ⟨p0, hp0⟩ := positionOf_isSome s.myAlCtx 0 (by omega)
  obtain ⟨p1, hp1⟩ := positionOf_isSome s.myAlCtx 1 (by omega)
  obtain ⟨p2, hp2⟩ := positionOf_isSome s.myAlCtx 2 (by omega)
  obtain ⟨p3, hp3⟩ := positionOf_isSome s.myAlCtx 3 (by omega)
  obtain ⟨p4, hp4⟩ := positionOf_isSome s.myAlCtx 4 (by omega)
  obtain ⟨p5, hp5⟩ := positionOf_isSome s.myAlCtx 5 (by omega)
  have hal := setupCoreFormat_al .AL_FORMAT_MONO8 .AL_FORMAT_MONO_DOUBLE_EXT
    .AL_FORMAT_MONO_FLOAT32 .AL_FORMAT_MONO16 s
  simp [initChannels, h6, hm, stalConfigureSources5_1, StPCMBuffer.setupChannels,
    setupSrcChannels51_out, setupSrcChannels51_al, setupSrcChannels51_ctx, setupCoreFormat_ctx,
    positionOf_setPosition, hp0, hp1, hp2, hp3, hp4, hp5,
    POSITION_FRONT_LEFT, POSITION_FRONT_RIGHT, POSITION_FRONT_CENTER, POSITION_LFE,
    POSITION_REAR_LEFT, POSITION_REAR_RIGHT]
  rcases hal with h | h | h | h <;> simp [h, ALFormat.channels]

/-- C1 (what the code does): for a channel count other than 1, 2, 4 and 6, with the device
session open, the stream and the codec valid and the sample format supported, `init` returns
`true`, reports no error, and leaves the device format and the channel setup of the output
buffer as they were. -/
theorem init_unsupported_channels_succeeds (v : Version) (strm : AVStream) (s : StAudioQueue)
    (h : s.Ready strm) (hn : ¬ SupportedChannels strm.channels) :
    ∃ s', s.init v strm = some (true, s') ∧ s'.errors = s.errors ∧
      s'.myAlFormat = s.myAlFormat ∧ s'.myBufferOut.channels = s.myBufferOut.channels ∧
      s'.myBufferOut.sourcesCount = s.myBufferOut.sourcesCount := by
  obtain ⟨f, s0, _, hi, _, _, he, ha, _, _, hc, hn'⟩ := init_of_ready v strm s h
  rw [hi, initChannels_unsupported v strm s0 hn]
  exact ⟨s0, rfl, he, ha, hc, hn'⟩

/-- C1, at a valid 16 bit stream of 3 channels. -/
theorem init_unsupported_channels_succeeds_witness :
    opened.Ready (pcmStream .S16 3 .OTHER) ∧ ¬ SupportedChannels 3 ∧
    ∃ s', opened.init ⟨58, 0⟩ (pcmStream .S16 3 .OTHER) = some (true, s') ∧
      s'.errors = opened.errors ∧ s'.myAlFormat = opened.myAlFormat ∧
      s'.myBufferOut.channels = opened.myBufferOut.channels ∧
      s'.myBufferOut.sourcesCount = opened.myBufferOut.sourcesCount :=
  ⟨by decide, by decide,
    init_unsupported_channels_succeeds ⟨58, 0⟩ (pcmStream .S16 3 .OTHER) opened (by decide)
      (by decide)⟩

/-- C2 (as stated, refuted): a valid 16 bit stream of 4 channels on a device without the
multichannel extension: the channel count is a supported one and `init` does not succeed, so no
channel grouping is produced. -/
theorem init_quad_without_multichannel_fails :
    opened.Ready (pcmStream .S16 4 .OTHER) ∧ SupportedChannels 4 ∧
    (opened.init ⟨58, 0⟩ (pcmStream .S16 4 .OTHER)).map
      (fun r => (r.1, r.2.errors)) =
      some (false, ["OpenAL: multichannel extension (AL_FORMAT_QUAD16) not available"]) := by
  decide

/-- C2 (amended): for a channel count of 1, 2, 4 or 6, a supported sample format and any
capability flags, except 4 channels on a device without the multichannel extension, `init`
succeeds and the output sources carry together as many channels as the stream has; so does the
channel configuration of the output buffer. -/
theorem init_total_channels (v : Version) (strm : AVStream) (s : StAudioQueue) (h : s.Ready strm)
    (hn : SupportedChannels strm.channels)
    (hm : ¬ (strm.channels = 4 ∧ s.myAlCtx.hasExtMultiChannel = false)) :
    ∃ s', s.init v strm = some (true, s') ∧ (s'.totalChannels : Int) = strm.channels ∧
      (s'.myBufferOut.channels.count : Int) = strm.channels := by
  obtain ⟨f, s0, _, hi, hc, _⟩ := init_of_ready v strm s h
  obtain ⟨h1, h2, h3⟩ := initChannels_total v strm s0 hn (by rw [hc]; exact hm)
  exact ⟨_, init_eq_of_channels v strm s _ hi h1, h2, h3⟩

/-- C2 (amended), at a float stream of 6 channels on a device without extensions. -/
theorem init_total_channels_witness :
    opened.Ready (pcmStream .FLT 6 .OTHER) ∧ SupportedChannels 6 ∧
    ∃ s', opened.init ⟨58, 0⟩ (pcmStream .FLT 6 .OTHER) = some (true, s') ∧
      (s'.totalChannels : Int) = 6 ∧ (s'.myBufferOut.channels.count : Int) = 6 :=
  ⟨by decide, by decide,
    init_total_channels ⟨58, 0⟩ (pcmStream .FLT 6 .OTHER) opened (by decide) (by decide)
      (by decide)⟩

/-- C3: a stream of 6 channels on a device without the multichannel extension, whatever the
supported sample format and the float capabilities: `init` succeeds, the device format is a mono
one, the output buffer has 6 channel groups of the 5.1 configuration, and the sources 0 to 5 are
placed front left, front right, front center, at the origin (LFE), rear left and rear right. -/
theorem init_51_split_sources (v : Version) (strm : AVStream) (s : StAudioQueue)
    (h : s.Ready strm) (h6 : strm.channels = 6) (hm : s.myAlCtx.hasExtMultiChannel = false)
    (hs : 6 ≤ s.myAlCtx.sources.length) :
    ∃ s', s.init v strm = some (true, s') ∧ s'.myAlFormat.channels = 1 ∧
      s'.myBufferOut.sourcesCount = 6 ∧ s'.myBufferOut.channels = .CH51 ∧
      s'.myAlCtx.positionOf 0 = some (-1, 0, -1) ∧ s'.myAlCtx.positionOf 1 = some (1, 0, -1) ∧
      s'.myAlCtx.positionOf 2 = some (0, 0, -1) ∧ s'.myAlCtx.positionOf 3 = some (0, 0, 0) ∧
      s'.myAlCtx.positionOf 4 = some (-1, 0, 1) ∧ s'.myAlCtx.positionOf 5 = some (1, 0, 1) := by
  obtain ⟨f, s0, _, hi, hc, _⟩ := init_of_ready v strm s h
  obtain ⟨h1, h2⟩ := initChannels_51_split v strm s0 h6 (by rw [hc]; exact hm)
    (by rw [hc]; exact hs)
  exact ⟨_, init_eq_of_channels v strm s _ hi h1, h2⟩

/-- C3, at a double precision stream on a device of 8 sources without extensions. -/
theorem init_51_split_sources_witness :
    opened.Ready (pcmStream .DBL 6 .OTHER) ∧ opened.myAlCtx.hasExtMultiChannel = false ∧
    6 ≤ opened.myAlCtx.sources.length ∧
    ∃ s', opened.init ⟨58, 0⟩ (pcmStream .DBL 6 .OTHER) = some (true, s') ∧
      s'.myAlFormat.channels = 1 ∧
      s'.myBufferOut.sourcesCount = 6 ∧ s'.myBufferOut.channels = .CH51 ∧
      s'.myAlCtx.positionOf 0 = some (-1, 0, -1) ∧ s'.myAlCtx.positionOf 1 = some (1, 0, -1) ∧
      s'.myAlCtx.positionOf 2 = some (0, 0, -1) ∧ s'.myAlCtx.positionOf 3 = some (0, 0, 0) ∧
      s'.myAlCtx.positionOf 4 = some (-1, 0, 1) ∧ s'.myAlCtx.positionOf 5 = some (1, 0, 1) :=
  ⟨by decide, by decide, by decide,
    init_51_split_sources ⟨58, 0⟩ (pcmStream .DBL 6 .OTHER) opened (by decide) (by decide)
      (by decide) (by decide)⟩

/-- C4 (as stated, refuted): a signed 32 bit stream of 6 channels on a device with the
multichannel extension and without the 32 bit float capability: `init` succeeds with a float32
output buffer, where the preference order of the claim gives signed 16 bit. -/
theorem init_multichannel_float32_without_capability :
    openedMulti.myAlCtx.hasExtFloat32 = false ∧
    (openedMulti.init ⟨58, 0⟩ (pcmStream .S32 6 .OTHER)).map
      (fun r => (r.1, r.2.myBufferOut.format)) = some (true, .PCM32FLOAT) ∧
    preferredFormat .PCM32_SIGNED false false = .PCM16_SIGNED := by
  decide

/-- C4 (amended): whenever `init` succeeds on a stream of 1, 2, 4 or 6 channels, the format of
the output buffer is: through the multichannel extension (4 channels, or 6 channels on a device
which has it) unsigned-8 for an unsigned-8 source, float32 for a signed-32, float32 or float64
source whatever the float capabilities, and signed-16 otherwise; in every other case the
preference order float64 (source float64, 64 bit capability), float32 (source signed-32,
float32 or float64, 32 bit capability), unsigned-8 (source unsigned-8), signed-16. -/
theorem init_output_format (v : Version) (strm : AVStream) (s : StAudioQueue)
    (hn : SupportedChannels strm.channels)
    (hi : (s.init v strm).map (fun r => r.1) = some true) :
    ∃ f, srcFormatOf strm.sample_fmt = some f ∧
      (s.init v strm).map (fun r => r.2.myBufferOut.format) = some
        (if (strm.channels = 4 ∨ strm.channels = 6) ∧ s.myAlCtx.hasExtMultiChannel = true then
          multichannelFormat f
        else preferredFormat f s.myAlCtx.hasExtFloat32 s.myAlCtx.hasExtFloat64) := by
  obtain ⟨⟨b, s'⟩, hi, hb⟩ := Option.map_eq_some'.mp hi
  simp only at hb
  subst hb
  obtain ⟨f, s0, hf, hi0, hc, hsf, _⟩ := init_of_ready v strm s (ready_of_init v strm s s' hi)
  have hm : ¬ (strm.channels = 4 ∧ s0.myAlCtx.hasExtMultiChannel = false) := by
    rintro ⟨h4, hmc⟩
    have := initChannels_quad_fails v strm s0 h4 hmc
    rw [hi0] at hi
    simp only [Option.some.injEq] at hi
    rw [hi] at this
    simp at this
  have := initChannels_format v strm s0 hn hm
  rw [hc, hsf] at this
  refine ⟨f, hf, ?_⟩
  rw [hi0, Option.map_some', this]

/-- C4 (amended), at a float64 stream of 2 channels on a device without extensions: the
output buffer is signed 16 bit. -/
theorem init_output_format_witness :
    SupportedChannels 2 ∧
    (opened.init ⟨58, 0⟩ (pcmStream .DBL 2 .OTHER)).map (fun r => r.1) = some true ∧
    ∃ f, srcFormatOf SampleFmt.DBL = some f ∧
      (opened.init ⟨58, 0⟩ (pcmStream .DBL 2 .OTHER)).map (fun r => r.2.myBufferOut.format) =
        some (if ((2 : Int) = 4 ∨ (2 : Int) = 6) ∧ false = true then multichannelFormat f
          else preferredFormat f false false) :=
  ⟨by decide, by decide,
    init_output_format ⟨58, 0⟩ (pcmStream .DBL 2 .OTHER) opened (by decide) (by decide)⟩

/-- The channel order set up by a successful `init` on a stream of 1, 2, 4 or 6 channels: the
source buffer has the AC3 order exactly for 6 channels, codec AC3 and an old library, the OGG
order exactly for 6 channels, codec Vorbis and an old library, and the PCM order otherwise; the
output buffer has the PCM order. -/
theorem init_channel_order (v : Version) (strm : AVStream) (s s' : StAudioQueue)
    (hn : SupportedChannels strm.channels) (hi : s.init v strm = some (true, s')) :
    s'.myBufferOut.rules = .PCM ∧
    (s'.myBufferSrc.rules = .AC3 ↔
      strm.channels = 6 ∧ strm.codecId = .CODEC_ID_AC3 ∧ isOldLibrary v) ∧
    (s'.myBufferSrc.rules = .OGG ↔
      strm.channels = 6 ∧ strm.codecId = .CODEC_ID_VORBIS ∧ isOldLibrary v) ∧
    (s'.myBufferSrc.rules = .PCM ↔
      ¬ (strm.channels = 6 ∧ strm.codecId = .CODEC_ID_AC3 ∧ isOldLibrary v) ∧
      ¬ (strm.channels = 6 ∧ strm.codecId = .CODEC_ID_VORBIS ∧ isOldLibrary v)) := by
  obtain ⟨f, s0, _, hi0, _⟩ := init_of_ready v strm s (ready_of_init v strm s s' hi)
  have hm : ¬ (strm.channels = 4 ∧ s0.myAlCtx.hasExtMultiChannel = false) := by
    rintro ⟨h4, hmc⟩
    have := initChannels_quad_fails v strm s0 h4 hmc
    rw [hi0] at hi
    simp only [Option.some.injEq] at hi
    rw [hi] at this
    simp at this
  obtain ⟨h1, h2⟩ := initChannels_rules v strm s0 hn hm
  rw [hi0] at hi
  simp only [Option.some.injEq] at hi
  rw [hi] at h1 h2
  simp only at h1 h2
  refine ⟨h1, ?_⟩
  rw [h2]
  simp only [isReoderingNeeded_iff]
  cases hc : strm.codecId <;> by_cases h6 : strm.channels = 6 <;> by_cases ho : isOldLibrary v <;>
    simp [h6, ho]

/-- C5 (what the code does): on an old library (52.0), after a successful `init` for a 6
channel AC3 stream and `deinit`, `init` for a stream of 3 channels of another codec succeeds and
the source buffer keeps the AC3 order, though the stream has not 6 channels and is not AC3. -/
theorem init_unsupported_channels_keeps_order :
    isOldLibrary ⟨52, 0⟩ ∧
    ((opened.init ⟨52, 0⟩ (pcmStream .S16 6 .CODEC_ID_AC3)).bind
      (fun r => r.2.deinit.init ⟨52, 0⟩ (pcmStream .S16 3 .OTHER))).map
        (fun r => (r.1, r.2.myBufferSrc.rules)) = some (true, .AC3) := by
  decide

end SView

/-! ## Control events (`parseEvents`) -/

namespace SView

open StAudioQueue

theorem ALSource.unqueue_state (a : ALSource) : a.unqueue.2.state = a.state := by
  unfold ALSource.unqueue
  split
  · rfl
  · split_ifs <;> rfl

theorem ALSource.unqueueMany_state (n : Nat) (a : ALSource) :
    (a.unqueueMany n).state = a.state := by
  induction n generalizing a with
  | zero => rfl
  | succ n ih => rw [ALSource.unqueueMany, ih, ALSource.unqueue_state]

theorem ALSource.stop_state (a : ALSource) :
    a.stop.state = .AL_INITIAL ∨ a.stop.state = .AL_STOPPED := by
  unfold ALSource.stop
  split_ifs with h
  · exact Or.inl h
  · exact Or.inr rfl

theorem ALSource.detach_atRest (a : ALSource)
    (h : a.state = .AL_INITIAL ∨ a.state = .AL_STOPPED) :
    a.detach.queue = [] ∧ a.detach.processed = 0 ∧
      (a.detach.state = .AL_INITIAL ∨ a.detach.state = .AL_STOPPED) := by
  unfold ALSource.detach
  rcases h with h | h <;> simp [h]

theorem stalEmpty_atRest (s : StAudioQueue) : AtRest s.stalEmpty.myAlCtx := by
  intro a ha
  simp only [stalEmpty, StALContext.alSourceStopv, List.mem_map] at ha
  obtain ⟨b, ⟨c, _, rfl⟩, rfl⟩ := ha
  apply ALSource.detach_atRest
  rw [ALSource.unqueueMany_state]
  exact ALSource.stop_state c

theorem AtRest.queuesEmpty {c : StALContext} (h : AtRest c) : QueuesEmpty c :=
  fun a ha => ⟨(h a ha).1, (h a ha).2.1⟩

theorem stalEmpty_length (s : StAudioQueue) :
    s.stalEmpty.myAlCtx.sources.length = s.myAlCtx.sources.length := by
  simp [stalEmpty, StALContext.alSourceStopv]

theorem ALSource.pause_state (a : ALSource) : a.pause.state ≠ .AL_PLAYING := by
  unfold ALSource.pause
  split_ifs with h
  · simp
  · exact h

end SView

/-! ## The wait loop of `stalFillBuffers` and the playback clock -/

namespace SView

open StAudioQueue

theorem roundHalfEven_one (n : Nat) : roundHalfEven n 1 = n := by
  unfold roundHalfEven
  simp [Nat.mod_one]

theorem log2Fuel_bounds (fuel : Nat) :
    ∀ n : Nat, n ≤ fuel → n ≠ 0 →
      2 ^ log2Fuel fuel n ≤ n ∧ n < 2 ^ (log2Fuel fuel n + 1) := by
  induction fuel with
  | zero =>
    intro n h hn
    omega
  | succ fuel ih =>
    intro n h hn
    unfold log2Fuel
    by_cases h2 : 2 ≤ n
    · rw [if_pos h2]
      have hle : n / 2 ≤ fuel := by omega
      have hne : n / 2 ≠ 0 := by omega
      obtain ⟨h3, h4⟩ := ih (n / 2) hle hne
      constructor
      · rw [pow_succ]
        omega
      · rw [pow_succ]
        omega
    · rw [if_neg h2]
      have : n = 1 := by omega
      subst this
      exact ⟨by norm_num, by norm_num⟩

theorem natLog2_bounds (n : Nat) (hn : n ≠ 0) :
    2 ^ natLog2 n ≤ n ∧ n < 2 ^ (natLog2 n + 1) :=
  log2Fuel_bounds n n (le_refl n) hn

theorem natLog2_lt (n k : Nat) (hn : n ≠ 0) (h : n < 2 ^ k) : natLog2 n < k := by
  have h1 := (natLog2_bounds n hn).1
  have h2 : 2 ^ natLog2 n < 2 ^ k := lt_of_le_of_lt h1 h
  exact (Nat.pow_lt_pow_iff_right (by norm_num)).mp h2

theorem floorLog2_one (n : Nat) (hn : n ≠ 0) : floorLog2 n 1 = (natLog2 n : Int) := by
  unfold floorLog2
  have h1 : natLog2 1 = 0 := by decide
  rw [h1]
  simp only [Nat.zero_le, if_true, Nat.sub_zero, one_mul]
  rw [if_pos (natLog2_bounds n hn).1]

/-- A natural number below 2^53 converts to `double` without rounding. -/
theorem toDouble_natCast (n : Nat) (h : n < 2 ^ 53) : toDouble (n : ℚ) = n := by
  by_cases hn : n = 0
  · subst hn
    simp [toDouble]
  · have hlog : natLog2 n < 53 := natLog2_lt n 53 hn h
    have hq : (n : ℚ) ≠ 0 := by exact_mod_cast hn
    have hnum : (n : ℚ).num.natAbs = n := by simp
    have hden : (n : ℚ).den = 1 := by simp
    have hpos : ¬ ((n : ℚ) < 0) := by
      have : (0 : ℚ) ≤ n := by exact_mod_cast Nat.zero_le n
      exact not_lt.mpr this
    have hmax : (n : ℚ) ≤ maxDouble := by
      unfold maxDouble
      have h2 : n ≤ (2 ^ 53 - 1) * 2 ^ 971 := by
        have : (2 : Nat) ^ 53 ≤ (2 ^ 53 - 1) * 2 ^ 971 := by norm_num
        omega
      exact_mod_cast h2
    unfold toDouble
    rw [if_neg hq, if_neg hpos]
    simp only [hnum, hden, floorLog2_one n hn, roundHalfEven_one, one_mul]
    have he : max ((natLog2 n : Int)) (-1022) = (natLog2 n : Int) := by
      apply max_eq_left
      omega
    rw [he]
    by_cases h52 : (52 : Int) ≤ (natLog2 n : Int)
    · have h52' : natLog2 n = 52 := by omega
      rw [if_pos h52, h52']
      simp only [Nat.cast_ofNat, sub_self, Int.toNat_zero, pow_zero, mul_one, roundHalfEven_one]
      exact min_eq_left hmax
    · rw [if_neg h52]
      have hpow : ((2 ^ (52 - (natLog2 n : Int)).toNat : Nat) : ℚ) ≠ 0 := by
        have : 2 ^ (52 - (natLog2 n : Int)).toNat ≠ 0 := by positivity
        exact_mod_cast this
      have hv : ((n * 2 ^ (52 - (natLog2 n : Int)).toNat : Nat) : ℚ) /
          ((2 ^ (52 - (natLog2 n : Int)).toNat : Nat) : ℚ) = n := by
        rw [Nat.cast_mul, mul_div_assoc, div_self hpow, mul_one]
      rw [hv]
      exact min_eq_left hmax

/-- With byte counts below 2^53 the estimate of the code is the double nearest to the
in-flight seconds of the specification. -/
theorem diffSecs_eq_inFlightSeconds (s : StAudioQueue)
    (hbytes : s.dataLoopSumm + s.myBufferOut.getDataSizeWhole < 2 ^ 53)
    (hrate : s.myBufferOut.getSecondSize < 2 ^ 53) :
    s.diffSecs = toDouble (inFlightSeconds s) := by
  unfold diffSecs inFlightSeconds
  rw [toDouble_natCast _ hbytes, toDouble_natCast _ hrate]
  push_cast
  rfl

theorem stalQueueStart_fst (K : ALConfig) (env : ALEnv) (pts : ℚ) (st : ALState)
    (t q : Bool) (s : StAudioQueue) : (s.stalQueueStart K env pts st t q).1 = q := by
  unfold stalQueueStart
  split_ifs <;> rfl

theorem stalCheckConnected_timer (K : ALConfig) (env : ALEnv) (s : StAudioQueue) :
    (s.stalCheckConnected K env).2.myPlaybackTimer = s.myPlaybackTimer := by
  unfold stalCheckConnected reopen stalInit stalDeinit stalEmpty
  split_ifs <;> rfl

theorem anchorClock_timer (pts : ℚ) (s : StAudioQueue) :
    (s.anchorClock pts).myPlaybackTimer =
      ⟨if toDouble (pts - s.diffSecs) < 100000 then toDouble (pts - s.diffSecs) else 0,
        true⟩ := by
  unfold anchorClock
  split_ifs <;> rfl

theorem stalQueueStart_timer (K : ALConfig) (env : ALEnv) (pts : ℚ) (st : ALState)
    (t q : Bool) (s : StAudioQueue) :
    (s.stalQueueStart K env pts st t q).2.myPlaybackTimer =
      if st = .AL_STOPPED ∧ t = true then
        ⟨if toDouble (pts - s.diffSecs) < 100000 then toDouble (pts - s.diffSecs) else 0, true⟩
      else s.myPlaybackTimer := by
  unfold stalQueueStart
  by_cases h : st = .AL_STOPPED ∧ t = true
  · obtain ⟨h1, h2⟩ := h
    simp only [h1, h2, decide_True, Bool.and_self, if_true, and_self]
    rw [← anchorClock_timer]
    generalize s.anchorClock pts = s1
    split_ifs <;> simp [stalCheckConnected_timer]
  · rw [if_neg h]
    have : (decide (st = .AL_STOPPED) && t) = false := by
      cases t <;> simp_all
    simp [this]

theorem stalEmpty_inFlight (s : StAudioQueue) : s.stalEmpty.diffSecs = s.diffSecs := rfl

set_option maxHeartbeats 400000 in
/-- The ways through `stalQueue`: a property holds of its result when it holds on each of
them. -/
theorem stalQueue_elim (K : ALConfig) (env : ALEnv) (wait : Nat → Nat) (pts : ℚ)
    (s : StAudioQueue) (P : Bool × StAudioQueue → Prop)
    (hearly : (s.stalGetSourceState = .AL_PLAYING ∨ s.stalGetSourceState = .AL_PAUSED) →
      (s.myPrevFormat ≠ s.myAlFormat ∨ s.myPrevFrequency ≠ s.myBufferOut.freq) → P (false, s))
    (hreset : ¬ (s.stalGetSourceState = .AL_PLAYING ∨ s.stalGetSourceState = .AL_PAUSED) →
      0 < K.NUM_AL_BUFFERS →
      P (stalQueueStart K env pts s.stalGetSourceState (decide (0 + 1 = K.NUM_AL_BUFFERS)) true
        { s.stalEmpty with
          myPrevFormat := s.stalEmpty.myAlFormat, myPrevFrequency := s.stalEmpty.myBufferOut.freq,
          myAlCtx := s.stalEmpty.myAlCtx.stageBuffers 0 s.stalEmpty.myBufferOut.sourcesCount }))
    (hresetNone : ¬ (s.stalGetSourceState = .AL_PLAYING ∨ s.stalGetSourceState = .AL_PAUSED) →
      K.NUM_AL_BUFFERS = 0 →
      P (stalQueueStart K env pts s.stalGetSourceState false false s.stalEmpty))
    (hstage : ¬ (s.myPrevFormat ≠ s.myAlFormat ∨ s.myPrevFrequency ≠ s.myBufferOut.freq) →
      ¬ (s.stalGetSourceState = .AL_STOPPED ∧ s.myAlCtx.buffersQueued 0 = K.NUM_AL_BUFFERS) →
      s.myAlCtx.buffersProcessed 0 = 0 → s.myAlCtx.buffersQueued 0 < K.NUM_AL_BUFFERS →
      P (stalQueueStart K env pts s.stalGetSourceState
        (decide (s.myAlCtx.buffersQueued 0 + 1 = K.NUM_AL_BUFFERS)) true
        { s with
          myPrevFormat := s.myAlFormat, myPrevFrequency := s.myBufferOut.freq,
          myAlCtx := s.myAlCtx.stageBuffers (s.myAlCtx.buffersQueued 0)
            s.myBufferOut.sourcesCount }))
    (hempty : s.myAlCtx.buffersProcessed 0 ≠ 0 →
      (s.stalGetSourceState = .AL_PLAYING ∨ s.stalGetSourceState = .AL_PAUSED) → P (true, s))
    (hrefill : s.myAlCtx.buffersProcessed 0 ≠ 0 →
      (s.stalGetSourceState = .AL_PLAYING ∨ s.stalGetSourceState = .AL_PAUSED) →
      (s.myAlCtx.refillSources wait (List.range s.myBufferOut.sourcesCount) none).1 = true →
      P (stalQueueStart K env pts s.stalGetSourceState true true
        { s with
          myPrevFormat := s.myAlFormat, myPrevFrequency := s.myBufferOut.freq,
          myAlCtx := (s.myAlCtx.refillSources wait (List.range s.myBufferOut.sourcesCount)
            none).2 }))
    (hrefillOut : s.myAlCtx.buffersProcessed 0 ≠ 0 →
      (s.stalGetSourceState = .AL_PLAYING ∨ s.stalGetSourceState = .AL_PAUSED) →
      P (false,
        { s with
          myPrevFormat := s.myAlFormat, myPrevFrequency := s.myBufferOut.freq,
          myAlCtx := (s.myAlCtx.refillSources wait (List.range s.myBufferOut.sourcesCount)
            none).2 }))
    (hnone : ¬ (s.myAlCtx.buffersProcessed 0 = 0 ∧
        s.myAlCtx.buffersQueued 0 < K.NUM_AL_BUFFERS) →
      ¬ (s.myAlCtx.buffersProcessed 0 ≠ 0 ∧
        (s.stalGetSourceState = .AL_PLAYING ∨ s.stalGetSourceState = .AL_PAUSED)) →
      P (stalQueueStart K env pts s.stalGetSourceState false false s)) :
    P (s.stalQueue K env wait pts) := by
  unfold stalQueue
  simp only []
  split_ifs with h1 h2 h3 h4 h5 h6 h7 h8 h9 h10
  · simp only [Bool.and_eq_true, decide_eq_true_eq, Bool.or_eq_true] at h1
    exact hearly h1.1 h1.2
  · refine hreset ?_ (by simpa using h3)
    intro hs
    simp only [Bool.and_eq_true, decide_eq_true_eq, Bool.or_eq_true, not_and] at h1 h2
    rcases h2 with h2 | h2
    · exact h1 hs h2
    · rcases hs with hs | hs <;> rw [hs] at h2 <;> simp at h2
  · simp at h4
  · simp at h4
  · simp at h4
  · refine hresetNone ?_ (by simpa using h3)
    intro hs
    simp only [Bool.and_eq_true, decide_eq_true_eq, Bool.or_eq_true, not_and] at h1 h2
    rcases h2 with h2 | h2
    · exact h1 hs h2
    · rcases hs with hs | hs <;> rw [hs] at h2 <;> simp at h2
  · simp only [Bool.and_eq_true, decide_eq_true_eq, Bool.or_eq_true, not_or] at h2 h7
    exact hstage (fun h => Or.elim h h2.1.1 h2.1.2) h2.2 h7.1 h7.2
  · simp only [Bool.and_eq_true, decide_eq_true_eq, Bool.or_eq_true] at h8
    exact hempty h8.1 h8.2
  · simp only [Bool.and_eq_true, decide_eq_true_eq, Bool.or_eq_true] at h8
    exact hrefill h8.1 h8.2 h10
  · simp only [Bool.and_eq_true, decide_eq_true_eq, Bool.or_eq_true] at h8
    exact hrefillOut h8.1 h8.2
  · simp only [Bool.and_eq_true, decide_eq_true_eq, Bool.or_eq_true] at h7 h8
    exact hnone h7 h8

theorem stalQueue_timer (K : ALConfig) (env : ALEnv) (wait : Nat → Nat) (pts : ℚ)
    (s : StAudioQueue) :
    (s.stalQueue K env wait pts).2.myPlaybackTimer = s.myPlaybackTimer ∨
    (s.stalQueue K env wait pts).2.myPlaybackTimer =
      ⟨if toDouble (pts - s.diffSecs) < 100000 then toDouble (pts - s.diffSecs) else 0,
        true⟩ := by
  have key : ∀ (s' : StAudioQueue) (st : ALState) (t q : Bool),
      s'.myPlaybackTimer = s.myPlaybackTimer → s'.diffSecs = s.diffSecs →
      (s'.stalQueueStart K env pts st t q).2.myPlaybackTimer = s.myPlaybackTimer ∨
      (s'.stalQueueStart K env pts st t q).2.myPlaybackTimer =
        ⟨if toDouble (pts - s.diffSecs) < 100000 then toDouble (pts - s.diffSecs) else 0,
          true⟩ := by
    intro s' st t q h1 h2
    rw [stalQueueStart_timer, h1, h2]
    by_cases h : st = .AL_STOPPED ∧ t = true
    · rw [if_pos h]; exact Or.inr rfl
    · rw [if_neg h]; exact Or.inl rfl
  apply stalQueue_elim K env wait pts s
    (fun r => r.2.myPlaybackTimer = s.myPlaybackTimer ∨ r.2.myPlaybackTimer =
      ⟨if toDouble (pts - s.diffSecs) < 100000 then toDouble (pts - s.diffSecs) else 0, true⟩)
  · intro _ _; exact Or.inl rfl
  · intro _ _; exact key _ _ _ _ rfl rfl
  · intro _ _; exact key _ _ _ _ rfl rfl
  · intro _ _ _ _; exact key _ _ _ _ rfl rfl
  · intro _ _; exact Or.inl rfl
  · intro _ _ _; exact key _ _ _ _ rfl rfl
  · intro _ _; exact Or.inl rfl
  · intro _ _; exact key _ _ _ _ rfl rfl

theorem ALSource.advance_of_not_playing (n : Nat) (a : ALSource)
    (h : a.state ≠ .AL_PLAYING) : a.advance n = a := by
  unfold ALSource.advance
  simp [h]

theorem advanceFrom_of_not_playing (hw : Nat → Nat) (i : Nat) (l : List ALSource)
    (h : ∀ a ∈ l, a.state ≠ .AL_PLAYING) : advanceFrom hw i l = l := by
  induction l generalizing i with
  | nil => rfl
  | cons a l ih =>
    simp only [advanceFrom]
    rw [ALSource.advance_of_not_playing _ a (h a (List.mem_cons_self a l)),
      ih (i + 1) (fun b hb => h b (List.mem_cons_of_mem a hb))]

theorem AtRest.not_playing {c : StALContext} (h : AtRest c) :
    ∀ a ∈ c.sources, a.state ≠ .AL_PLAYING := by
  intro a ha
  rcases (h a ha).2.2 with h | h <;> simp [h]

theorem meet_atRest (i : FillInput) (s : StAudioQueue) (h : AtRest s.myAlCtx) :
    AtRest (s.meet i).myAlCtx := by
  have : (s.meet i).myAlCtx = s.myAlCtx := by
    simp only [meet, StALContext.advanceAll]
    rw [advanceFrom_of_not_playing _ _ _ h.not_playing]
  rw [this]
  exact h

theorem AtRest.poll {s : StAudioQueue} (h : AtRest s.myAlCtx) :
    s.myAlCtx.buffersProcessed 0 = 0 ∧ s.myAlCtx.buffersQueued 0 = 0 ∧
      s.stalGetSourceState ≠ .AL_PLAYING ∧ s.stalGetSourceState ≠ .AL_PAUSED := by
  unfold StALContext.buffersProcessed StALContext.buffersQueued stalGetSourceState
  cases hs : s.myAlCtx.sources with
  | nil => simp
  | cons a l =>
    have ha := h a (by rw [hs]; exact List.mem_cons_self a l)
    obtain ⟨h1, h2, h3⟩ := ha
    rcases h3 with h3 | h3 <;> simp [h1, h2, h3]

theorem stalQueue_atRest (K : ALConfig) (env : ALEnv) (wait : Nat → Nat) (pts : ℚ)
    (s : StAudioQueue) (h : AtRest s.myAlCtx) (hN : 0 < K.NUM_AL_BUFFERS) :
    (s.stalQueue K env wait pts).1 = true := by
  obtain ⟨hp, hq, h1, h2⟩ := h.poll
  apply stalQueue_elim K env wait pts s (fun r => r.1 = true)
  · intro hs _; rcases hs with hs | hs
    · exact absurd hs h1
    · exact absurd hs h2
  · intro _ _; exact stalQueueStart_fst _ _ _ _ _ _ _
  · intro _ h0; omega
  · intro _ _ _ _; exact stalQueueStart_fst _ _ _ _ _ _ _
  · intro hp' _; exact absurd hp hp'
  · intro hp' _ _; exact absurd hp hp'
  · intro hp' _; exact absurd hp hp'
  · intro hn _; exact absurd ⟨hp, by omega⟩ hn

theorem fillLoop_atRest (K : ALConfig) (pts : ℚ) (ign : Bool) (inputs : List FillInput)
    (s : StAudioQueue) (h : AtRest s.myAlCtx) (hN : 0 < K.NUM_AL_BUFFERS) :
    (s.fillLoop K pts ign inputs).trace = [] ∧
      (inputs ≠ [] → (s.fillLoop K pts ign inputs).returned = true) := by
  cases inputs with
  | nil => exact ⟨rfl, fun h => absurd rfl h⟩
  | cons i rest =>
    have := stalQueue_atRest K i.env i.wait pts (s.meet i) (meet_atRest i s h) hN
    simp [fillLoop, this]

theorem parseEvents_seek_atRest (K : ALConfig) (env : ALEnv) (t : ℚ) (s : StAudioQueue)
    (hsw : s.myToSwitchDev = false) :
    (s.parseEvents K env (.ST_PLAYEVENT_SEEK t)).1 = true ∧
      AtRest (s.parseEvents K env (.ST_PLAYEVENT_SEEK t)).2.myAlCtx := by
  simp only [parseEvents, hsw, Bool.false_eq_true, if_false, playTimerStart, playTimerPause,
    true_and]
  exact stalEmpty_atRest s.syncGain

theorem stalFillBody_skip (K : ALConfig) (env : ALEnv) (ev : StPlayEvent) (aPos pts : ℚ)
    (s : StAudioQueue) (h : (s.parseEvents K env ev).1 = true) :
    (s.stalFillBody K env ev aPos pts false).1 ≠ .autoResume ∧
      (s.stalFillBody K env ev aPos pts false).2.myAlCtx = (s.parseEvents K env ev).2.myAlCtx := by
  unfold stalFillBody
  simp only [Bool.not_false, if_true, h, Bool.not_true, Bool.false_and]
  split_ifs <;> first | contradiction | simp [playTimerStart]

/-- C7 (as stated, refuted): a fill cycle with events not ignored, entered with the ring
full on an initial source and the intent to play. Its first turn takes the auto-resume branch;
its second turn consumes `Seek(12.5)`; the third call of `stalQueue` ends the cycle. So a cycle
in which a seek event is consumed has taken the auto-resume branch. -/
theorem fill_cycle_with_seek_after_auto_resume :
    ((ringFull .AL_INITIAL).stalFillBuffers ⟨8, 3⟩ 20 false plainEnv .ST_PLAYEVENT_NONE
      [quietTurn .ST_PLAYEVENT_NONE, quietTurn (.ST_PLAYEVENT_SEEK (25 / 2)),
        quietTurn .ST_PLAYEVENT_NONE]).trace =
      [⟨false, .autoResume⟩, ⟨true, .drift⟩] ∧
    ((ringFull .AL_INITIAL).stalFillBuffers ⟨8, 3⟩ 20 false plainEnv .ST_PLAYEVENT_NONE
      [quietTurn .ST_PLAYEVENT_NONE, quietTurn (.ST_PLAYEVENT_SEEK (25 / 2)),
        quietTurn .ST_PLAYEVENT_NONE]).returned = true := by
  decide!

/-- C7 (amended): with a ring of at least one buffer and events not ignored, a fill cycle
does not take the auto-resume branch once it has consumed a seek event. When the call of
`parseEvents` at the start consumes the seek, the wait loop has no turn at all: the first call
of `stalQueue` ends the cycle. When a turn of the wait loop consumes it, that turn does not
take the auto-resume branch and it is the last turn of the cycle. Turns before it may have
taken the branch. -/
theorem seek_ends_fill_cycle (K : ALConfig) (pts : ℚ) (hN : 0 < K.NUM_AL_BUFFERS) :
    (∀ (env0 : ALEnv) (t : ℚ) (inputs : List FillInput) (s : StAudioQueue),
      s.myToSwitchDev = false →
      (s.stalFillBuffers K pts false env0 (.ST_PLAYEVENT_SEEK t) inputs).trace = [] ∧
      (inputs ≠ [] →
        (s.stalFillBuffers K pts false env0 (.ST_PLAYEVENT_SEEK t) inputs).returned = true)) ∧
    (∀ (ign : Bool) (inputs : List FillInput) (s : StAudioQueue) (pre post : List FillTurn)
      (turn : FillTurn),
      (s.fillLoop K pts ign inputs).trace = pre ++ turn :: post → turn.seek = true →
      turn.branch ≠ .autoResume ∧ post = []) := by
  constructor
  · intro env0 t inputs s hsw
    simp only [stalFillBuffers, Bool.not_false, if_true]
    exact fillLoop_atRest K pts false inputs _ (parseEvents_seek_atRest K env0 t s hsw).2 hN
  · intro ign inputs
    induction inputs with
    | nil =>
      intro s pre post turn h _
      simp [fillLoop] at h
    | cons i rest ih =>
      intro s pre post turn h hseek
      simp only [fillLoop] at h
      split_ifs at h with h1 h2
      · simp at h
      · cases pre with
        | nil =>
          simp only [List.nil_append, List.cons.injEq] at h
          obtain ⟨h, hp⟩ := h
          subst h
          exact ⟨by simp [h2], hp.symm⟩
        | cons p pre => simp at h
      · cases pre with
        | nil =>
          simp only [List.nil_append, List.cons.injEq] at h
          obtain ⟨h, hp⟩ := h
          subst h
          simp only [Bool.and_eq_true, Bool.not_eq_true'] at hseek
          obtain ⟨⟨hi, hsw⟩, hev⟩ := hseek
          subst hi
          obtain ⟨t, ht⟩ : ∃ t, i.event = .ST_PLAYEVENT_SEEK t := by
            cases he : i.event <;> simp [he, StPlayEvent.isSeek] at hev
            exact ⟨_, rfl⟩
          obtain ⟨hp1, hp2⟩ := parseEvents_seek_atRest K i.env t _ hsw
          rw [← ht] at hp1 hp2
          obtain ⟨hb1, hb2⟩ := stalFillBody_skip K i.env i.event i.aPos pts _ hp1
          refine ⟨hb1, ?_⟩
          rw [← hp]
          exact (fillLoop_atRest K pts false rest _ (by rw [hb2]; exact hp2) hN).1
        | cons p pre =>
          simp only [List.cons_append, List.cons.injEq] at h
          exact ih _ pre post turn h.2 hseek

/-- C7 (amended), at a ring of 3 buffers and a cycle which begins with `Seek(12.5)`. -/
theorem seek_ends_fill_cycle_witness :
    0 < (⟨8, 3⟩ : ALConfig).NUM_AL_BUFFERS ∧
    (opened.stalFillBuffers ⟨8, 3⟩ 20 false plainEnv (.ST_PLAYEVENT_SEEK (25 / 2))
      [quietTurn .ST_PLAYEVENT_NONE]).trace = [] :=
  ⟨by decide, ((seek_ends_fill_cycle ⟨8, 3⟩ 20 (by decide)).1 plainEnv (25 / 2)
    [quietTurn .ST_PLAYEVENT_NONE] opened rfl).1⟩

theorem parseEvents_inFlight (K : ALConfig) (env : ALEnv) (ev : StPlayEvent) (s : StAudioQueue)
    (h : (s.parseEvents K env ev).1 = false) :
    (s.parseEvents K env ev).2.diffSecs = s.diffSecs := by
  have hg : s.syncGain.diffSecs = s.diffSecs := by
    unfold syncGain; split_ifs <;> rfl
  unfold parseEvents at h ⊢
  split_ifs at h ⊢ with hsw
  cases ev <;> first | exact hg | simp at h

theorem stalFillBody_autoResume_timer (K : ALConfig) (env : ALEnv) (ev : StPlayEvent)
    (aPos pts : ℚ) (ign : Bool) (s : StAudioQueue)
    (h : (s.stalFillBody K env ev aPos pts ign).1 = .autoResume) :
    (s.stalFillBody K env ev aPos pts ign).2.myPlaybackTimer =
      ⟨if toDouble (pts - s.diffSecs) < 100000 then toDouble (pts - s.diffSecs) else 0,
        true⟩ := by
  rw [← anchorClock_timer]
  unfold stalFillBody at h ⊢
  have hfl : (if (!ign) = true then s.parseEvents K env ev else (false, s)).1 = false →
      (if (!ign) = true then s.parseEvents K env ev else (false, s)).2.diffSecs =
        s.diffSecs := by
    intro h0
    cases ign
    · exact parseEvents_inFlight K env ev s h0
    · rfl
  generalize (if (!ign) = true then s.parseEvents K env ev else (false, s)) = r at h hfl ⊢
  simp only [] at h ⊢
  by_cases hq : r.2.myToQuit = true
  · simp [hq] at h
  · by_cases hc : (!r.1 && !r.2.stalIsAudioPlaying && r.2.myIsPlaying) = true
    · simp only [hq, hc, if_true, Bool.false_eq_true, if_false]
      rw [stalCheckConnected_timer]
      simp only [Bool.and_eq_true, Bool.not_eq_true'] at hc
      simp only [anchorClock_timer, hfl hc.1.1]
    · simp only [hq, hc, Bool.false_eq_true, if_false] at h
      split_ifs at h

/-- C8 (as stated, refuted): the auto-resume branch entered with presentation timestamp
100001 and one second in flight: the clock is anchored at 0, where the timestamp less the
in-flight seconds is 100000. -/
theorem auto_resume_anchors_at_zero :
    ((ringFull .AL_INITIAL).stalFillBody ⟨8, 3⟩ plainEnv .ST_PLAYEVENT_NONE 0 100001 false).1 =
      .autoResume ∧
    ((ringFull .AL_INITIAL).stalFillBody ⟨8, 3⟩ plainEnv .ST_PLAYEVENT_NONE 0 100001
      false).2.myPlaybackTimer = ⟨0, true⟩ ∧
    100001 - inFlightSeconds (ringFull .AL_INITIAL) = 100000 := by
  decide!

/-- The code rounds the anchor before it tests it: with 191992 bytes in flight at 192000 bytes
per second and the presentation timestamp 429501024388339 / 2^32, the timestamp less the
in-flight seconds is below 100000, its double is 100000, and the clock is anchored at 0. -/
theorem anchor_is_rounded_before_the_test :
    (429501024388339 / 2 ^ 32 : ℚ) - inFlightSeconds nearLimit < 100000 ∧
    toDouble (429501024388339 / 2 ^ 32 - toDouble (inFlightSeconds nearLimit)) = 100000 ∧
    (nearLimit.stalFillBody ⟨8, 3⟩ plainEnv .ST_PLAYEVENT_NONE 0 (429501024388339 / 2 ^ 32)
      false).1 = .autoResume ∧
    (nearLimit.stalFillBody ⟨8, 3⟩ plainEnv .ST_PLAYEVENT_NONE 0 (429501024388339 / 2 ^ 32)
      false).2.myPlaybackTimer = ⟨0, true⟩ := by
  decide!

/-- C8 (amended): for an output format with a positive byte rate, byte counts below 2^53 and a
presentation timestamp which is a double, `stalQueue` leaves the clock alone or starts it at
the anchor, it starts it at the anchor whenever it starts playback (reference source polled
stopped, ring ready), and so does the auto-resume branch of `stalFillBuffers`. The anchor is
the double nearest to the presentation timestamp less the in-flight seconds, these rounded to
the nearest double first, when that double is below 100000, and 0 otherwise. -/
theorem restart_anchors_clock (K : ALConfig) (env : ALEnv) (pts : ℚ) (s : StAudioQueue)
    (_hsec : 0 < s.myBufferOut.getSecondSize)
    (hbytes : s.dataLoopSumm + s.myBufferOut.getDataSizeWhole < 2 ^ 53)
    (hrate : s.myBufferOut.getSecondSize < 2 ^ 53)
    (_hpts : toDouble pts = pts) :
    (∀ wait, (s.stalQueue K env wait pts).2.myPlaybackTimer = s.myPlaybackTimer ∨
      (s.stalQueue K env wait pts).2.myPlaybackTimer =
        ⟨if toDouble (pts - toDouble (inFlightSeconds s)) < 100000 then
          toDouble (pts - toDouble (inFlightSeconds s)) else 0, true⟩) ∧
    (∀ isQueued, (s.stalQueueStart K env pts .AL_STOPPED true isQueued).2.myPlaybackTimer =
      ⟨if toDouble (pts - toDouble (inFlightSeconds s)) < 100000 then
        toDouble (pts - toDouble (inFlightSeconds s)) else 0, true⟩) ∧
    (∀ ev aPos ign, (s.stalFillBody K env ev aPos pts ign).1 = .autoResume →
      (s.stalFillBody K env ev aPos pts ign).2.myPlaybackTimer =
        ⟨if toDouble (pts - toDouble (inFlightSeconds s)) < 100000 then
          toDouble (pts - toDouble (inFlightSeconds s)) else 0, true⟩) := by
  rw [← diffSecs_eq_inFlightSeconds s hbytes hrate]
  refine ⟨fun wait => stalQueue_timer K env wait pts s, fun q => ?_,
    fun ev aPos ign h => stalFillBody_autoResume_timer K env ev aPos pts ign s h⟩
  rw [stalQueueStart_timer]
  simp

/-- C8 (amended), at the auto-resume branch with presentation timestamp 20 and one second
in flight: the clock starts at 19. -/
theorem restart_anchors_clock_witness :
    (0 < (ringFull .AL_INITIAL).myBufferOut.getSecondSize ∧
      (ringFull .AL_INITIAL).dataLoopSumm + (ringFull .AL_INITIAL).myBufferOut.getDataSizeWhole <
        2 ^ 53 ∧
      (ringFull .AL_INITIAL).myBufferOut.getSecondSize < 2 ^ 53 ∧ toDouble 20 = 20) ∧
    toDouble (20 - toDouble (inFlightSeconds (ringFull .AL_INITIAL))) = 19 ∧
    ((ringFull .AL_INITIAL).stalFillBody ⟨8, 3⟩ plainEnv .ST_PLAYEVENT_NONE 0 20
      false).2.myPlaybackTimer =
      ⟨if toDouble (20 - toDouble (inFlightSeconds (ringFull .AL_INITIAL))) < 100000 then
        toDouble (20 - toDouble (inFlightSeconds (ringFull .AL_INITIAL))) else 0, true⟩ :=
  ⟨by decide!, by decide!,
    (restart_anchors_clock ⟨8, 3⟩ plainEnv 20 (ringFull .AL_INITIAL) (by decide) (by decide!)
      (by decide!) (by decide!)).2.2 .ST_PLAYEVENT_NONE 0 false (by decide!)⟩

/-- C9 (as stated, refuted): the drift-correction branch on a playing source with no event
pending, the clock at 9.5, presentation timestamp 10.25, one second in flight and a hardware
offset of 0.125: the clock is re-anchored at 9.375, earlier than its current value. -/
theorem drift_correction_moves_clock_back :
    ((playingAt (19 / 2)).stalFillBody ⟨8, 3⟩ plainEnv .ST_PLAYEVENT_NONE (1 / 8) (41 / 4)
      false).1 = .drift ∧
    ((playingAt (19 / 2)).stalFillBody ⟨8, 3⟩ plainEnv .ST_PLAYEVENT_NONE (1 / 8) (41 / 4)
      false).2.myPlaybackTimer = ⟨75 / 8, true⟩ ∧
    41 / 4 - (inFlightSeconds (playingAt (19 / 2)) - 1 / 8) = 75 / 8 ∧
    (75 / 8 : ℚ) < (playingAt (19 / 2)).myPlaybackTimer.elapsed := by
  decide!

/-- C9 (amended): for an output format with a positive byte rate, byte counts below 2^53, and
a presentation timestamp and a hardware offset which are doubles, a turn of the wait loop which
takes the drift-correction branch re-anchors the clock exactly when the new anchor is below
100000 and the timestamp differs from the one of the last re-anchoring in this branch; the
clock is then started at the new anchor whatever it reads, and the timestamp is remembered.
Otherwise the branch leaves the clock as the event handling of the turn left it. The new anchor
is the presentation timestamp less (in-flight seconds less hardware offset), where the
in-flight seconds and each of the two differences are rounded to the nearest double. -/
theorem drift_correction_reanchors (K : ALConfig) (env : ALEnv) (ev : StPlayEvent)
    (aPos pts : ℚ) (ign : Bool) (s s1 : StAudioQueue)
    (hs1 : s1 = (if (!ign) = true then s.parseEvents K env ev else (false, s)).2)
    (_hsec : 0 < s1.myBufferOut.getSecondSize)
    (hbytes : s1.dataLoopSumm + s1.myBufferOut.getDataSizeWhole < 2 ^ 53)
    (hrate : s1.myBufferOut.getSecondSize < 2 ^ 53)
    (_hpts : toDouble pts = pts) (_hpos : toDouble aPos = aPos)
    (hb : (s.stalFillBody K env ev aPos pts ign).1 = .drift) :
    (s.stalFillBody K env ev aPos pts ign).2.myPlaybackTimer =
      (if toDouble (pts - toDouble (toDouble (inFlightSeconds s1) - aPos)) < 100000 ∧
          pts ≠ s1.oldPts then
        ⟨toDouble (pts - toDouble (toDouble (inFlightSeconds s1) - aPos)), true⟩
      else s1.myPlaybackTimer) ∧
    (s.stalFillBody K env ev aPos pts ign).2.oldPts =
      (if toDouble (pts - toDouble (toDouble (inFlightSeconds s1) - aPos)) < 100000 ∧
          pts ≠ s1.oldPts then pts
      else s1.oldPts) := by
  rw [← diffSecs_eq_inFlightSeconds s1 hbytes hrate]
  subst hs1
  unfold stalFillBody at hb ⊢
  generalize (if (!ign) = true then s.parseEvents K env ev else (false, s)) = r at hb ⊢
  simp only [] at hb ⊢
  by_cases hq : r.2.myToQuit = true
  · simp [hq] at hb
  · by_cases hc : (!r.1 && !r.2.stalIsAudioPlaying && r.2.myIsPlaying) = true
    · simp [hq, hc] at hb
    · simp only [hq, hc, Bool.false_eq_true, if_false]
      by_cases h1 : toDouble (pts - toDouble (r.2.diffSecs - aPos)) < 100000
      · by_cases h2 : pts = r.2.oldPts
        · simp [h1, h2]
        · simp [h1, h2, playTimerStart]
      · simp [h1]

/-- C9 (amended), at a playing source with the clock at 9.5, presentation timestamp 10.25,
one second in flight and a hardware offset of 0.125: the new anchor is 9.375. -/
theorem drift_correction_reanchors_witness :
    (0 < (playingAt (19 / 2)).syncGain.myBufferOut.getSecondSize ∧
      (playingAt (19 / 2)).syncGain.dataLoopSumm +
        (playingAt (19 / 2)).syncGain.myBufferOut.getDataSizeWhole < 2 ^ 53 ∧
      (playingAt (19 / 2)).syncGain.myBufferOut.getSecondSize < 2 ^ 53 ∧
      toDouble (41 / 4) = 41 / 4 ∧ toDouble (1 / 8) = 1 / 8) ∧
    ((playingAt (19 / 2)).stalFillBody ⟨8, 3⟩ plainEnv .ST_PLAYEVENT_NONE (1 / 8) (41 / 4)
      false).1 = .drift ∧
    toDouble (41 / 4 - toDouble (toDouble (inFlightSeconds (playingAt (19 / 2)).syncGain) -
      1 / 8)) = 75 / 8 ∧
    ((playingAt (19 / 2)).stalFillBody ⟨8, 3⟩ plainEnv .ST_PLAYEVENT_NONE (1 / 8) (41 / 4)
      false).2.myPlaybackTimer =
      (if toDouble (41 / 4 - toDouble (toDouble (inFlightSeconds (playingAt (19 / 2)).syncGain) -
            1 / 8)) < 100000 ∧ (41 / 4 : ℚ) ≠ (playingAt (19 / 2)).syncGain.oldPts then
        ⟨toDouble (41 / 4 - toDouble (toDouble (inFlightSeconds (playingAt (19 / 2)).syncGain) -
          1 / 8)), true⟩
      else (playingAt (19 / 2)).syncGain.myPlaybackTimer) :=
  ⟨by decide!, by decide!, by decide!,
    (drift_correction_reanchors ⟨8, 3⟩ plainEnv .ST_PLAYEVENT_NONE (1 / 8) (41 / 4) false
      (playingAt (19 / 2)) (playingAt (19 / 2)).syncGain rfl (by decide!) (by decide!)
      (by decide!) (by decide!) (by decide!) (by decide!)).1⟩

end SView

/-! ## The buffer ring (`stalQueue`) -/

namespace SView

open StAudioQueue

theorem ALSource.sameQueue_refl (a : ALSource) : a.SameQueue a :=
  ⟨rfl, fun _ h => h, fun h => h⟩

theorem ALSource.sameQueue_trans {a b c : ALSource} (h1 : a.SameQueue b) (h2 : b.SameQueue c) :
    a.SameQueue c :=
  ⟨h2.1.trans h1.1, fun x hx => h1.2.1 x (h2.2.1 x hx), fun h => h2.2.2 (h1.2.2 h)⟩

theorem sameQueues_refl (l : List ALSource) : SameQueues l l := by
  induction l with
  | nil => exact List.Forall₂.nil
  | cons a l ih => exact List.Forall₂.cons (ALSource.sameQueue_refl a) ih

theorem SameQueues.chain {l1 l2 l3 : List ALSource} (h1 : SameQueues l1 l2)
    (h2 : SameQueues l2 l3) : SameQueues l1 l3 := by
  unfold SameQueues at *
  induction h1 generalizing l3 with
  | nil => cases h2; exact List.Forall₂.nil
  | cons hab _ ih =>
    cases h2 with
    | cons hbc hrest => exact List.Forall₂.cons (ALSource.sameQueue_trans hab hbc) (ih hrest)

theorem sameQueues_map (f : ALSource → ALSource) (hf : ∀ a : ALSource, a.SameQueue (f a))
    (l : List ALSource) : SameQueues l (l.map f) := by
  induction l with
  | nil => exact List.Forall₂.nil
  | cons a l ih => exact List.Forall₂.cons (hf a) ih

theorem sameQueues_updateSource (f : ALSource → ALSource) (i : Nat) (l : List ALSource)
    (hf : ∀ a : ALSource, l.get? i = some a → a.SameQueue (f a)) : SameQueues l (updateSource f i l) := by
  induction l generalizing i with
  | nil => simp only [updateSource]; exact List.Forall₂.nil
  | cons a l ih =>
    cases i with
    | zero => exact List.Forall₂.cons (hf a rfl) (sameQueues_refl l)
    | succ i =>
      exact List.Forall₂.cons (ALSource.sameQueue_refl a)
        (ih i (fun b hb => hf b (by simpa using hb)))

theorem SameQueues.get? {l l' : List ALSource} (h : SameQueues l l') (j : Nat) :
    (l.get? j = none ∧ l'.get? j = none) ∨
      ∃ a a', l.get? j = some a ∧ l'.get? j = some a' ∧ a.SameQueue a' := by
  unfold SameQueues at h
  induction h generalizing j with
  | nil => exact Or.inl ⟨rfl, rfl⟩
  | cons hab _ ih =>
    cases j with
    | zero => exact Or.inr ⟨_, _, rfl, rfl, hab⟩
    | succ j => simpa using ih j

theorem SameQueues.buffersQueued {c c' : StALContext} (h : SameQueues c.sources c'.sources)
    (j : Nat) : c'.buffersQueued j = c.buffersQueued j := by
  unfold StALContext.buffersQueued
  rcases h.get? j with ⟨h1, h2⟩ | ⟨a, a', h1, h2, h3⟩
  · rw [h1, h2]
  · rw [h1, h2]; exact h3.1

theorem RingInv.of_sameQueues {N : Nat} {c c' : StALContext} (h : RingInv N c)
    (hs : SameQueues c.sources c'.sources) : RingInv N c' := by
  refine ⟨by rw [hs.buffersQueued]; exact h.1, ?_⟩
  intro a' ha'
  obtain ⟨j, hj⟩ := List.get?_of_mem ha'
  rcases hs.get? j with ⟨_, h2⟩ | ⟨a, a'', h1, h2, h3⟩
  · rw [hj] at h2; simp at h2
  · rw [hj] at h2
    simp only [Option.some.injEq] at h2
    subst h2
    obtain ⟨g1, g2, g3⟩ := h.2 a (List.get?_mem h1)
    refine ⟨h3.2.2 g1, ?_, fun b hb => g3 b (h3.2.1 b hb)⟩
    rw [hs.buffersQueued, h3.1]
    exact g2

theorem RingInv.length_le {N : Nat} {c : StALContext} (h : RingInv N c) :
    ∀ a ∈ c.sources, a.queue.length ≤ N :=
  fun a ha => le_trans (h.2 a ha).2.1 h.1

theorem AtRest.ringInv {c : StALContext} (h : AtRest c) (N : Nat) : RingInv N c := by
  refine ⟨?_, fun a ha => ?_⟩
  · unfold StALContext.buffersQueued
    cases hs : c.sources with
    | nil => simp
    | cons a l =>
      have := (h a (by rw [hs]; exact List.mem_cons_self a l)).1
      simp [this]
  · obtain ⟨h1, h2, _⟩ := h a ha
    simp [h1, h2]

theorem ALSource.sameQueue_play (a : ALSource) : a.SameQueue a.play := by
  refine ⟨rfl, fun _ h => h, fun h => ?_⟩
  unfold ALSource.play
  simp only
  split_ifs
  · exact h
  · exact Nat.zero_le _

theorem ALSource.sameQueue_pause (a : ALSource) : a.SameQueue a.pause := by
  unfold ALSource.pause
  split_ifs
  · exact ⟨rfl, fun _ h => h, fun h => h⟩
  · exact a.sameQueue_refl

theorem ALSource.sameQueue_advance (n : Nat) (a : ALSource) : a.SameQueue (a.advance n) := by
  unfold ALSource.advance
  by_cases h : a.state = .AL_PLAYING ∧ n ≠ 0
  · rw [if_pos h]
    exact ⟨rfl, fun _ h => h, fun _ => Nat.min_le_right _ _⟩
  · rw [if_neg h]
    exact a.sameQueue_refl

theorem ALSource.sameQueue_rotate (a : ALSource) (b : ALBuffer) (q : List ALBuffer)
    (hq : a.queue = b :: q) (hp : a.processed ≠ 0) :
    a.unqueue.1 = some b ∧ a.SameQueue (a.unqueue.2.enqueue b) := by
  obtain ⟨st, qu, p, pos⟩ := a
  simp only at hq hp
  subst hq
  unfold ALSource.unqueue
  simp only [hp, ne_eq, not_false_eq_true, if_true, true_and]
  refine ⟨by simp [ALSource.enqueue], fun x hx => ?_, fun h => ?_⟩
  · simp only [ALSource.enqueue, List.mem_append, List.mem_singleton] at hx
    rcases hx with hx | hx
    · exact List.mem_cons_of_mem _ hx
    · rw [hx]; exact List.mem_cons_self _ _
  · simp only [List.length_cons] at h
    simp only [ALSource.enqueue, List.length_append, List.length_singleton]
    split_ifs <;> omega

theorem updateSource_updateSource (f g : ALSource → ALSource) (i : Nat) (l : List ALSource) :
    updateSource g i (updateSource f i l) = updateSource (fun a => g (f a)) i l := by
  induction l generalizing i with
  | nil => simp [updateSource]
  | cons a l ih => cases i <;> simp [updateSource, ih]

theorem ALSource.unqueue_of_processed_zero (a : ALSource) (h : a.processed = 0) :
    a.unqueue = (none, a) := by
  unfold ALSource.unqueue
  split
  · rfl
  · simp [h]

theorem refill_rotate (i : Nat) (id : Option ALBuffer) (c : StALContext) (a : ALSource)
    (ha : c.sources.get? i = some a) (hwf : a.processed ≤ a.queue.length)
    (hp : a.processed ≠ 0) :
    ∃ b, (c.unqueueBuffer i id).1 = some b ∧
      SameQueues c.sources (((c.unqueueBuffer i id).2).queueBuffer i b).sources := by
  obtain ⟨b, q, hq⟩ : ∃ b q, a.queue = b :: q := by
    cases hq : a.queue with
    | nil =>
      rw [hq] at hwf
      exact absurd (Nat.le_zero.mp hwf) hp
    | cons b q => exact ⟨b, q, rfl⟩
  obtain ⟨h1, h2⟩ := a.sameQueue_rotate b q hq hp
  refine ⟨b, ?_, ?_⟩
  · simp only [StALContext.unqueueBuffer, ha, h1]
  · simp only [StALContext.unqueueBuffer, ha, h1, StALContext.queueBuffer]
    rw [updateSource_updateSource]
    apply sameQueues_updateSource
    intro a' ha'
    rw [ha] at ha'
    cases ha'
    exact h2

theorem buffersProcessed_ne_zero (c : StALContext) (i : Nat) (h : c.buffersProcessed i ≠ 0) :
    ∃ a, c.sources.get? i = some a ∧ a.processed ≠ 0 := by
  unfold StALContext.buffersProcessed at h
  cases ha : c.sources.get? i with
  | none => simp only [ha, ne_eq, not_true_eq_false] at h
  | some a => exact ⟨a, rfl, by simpa only [ha] using h⟩

theorem refillSources_sameQueues (N : Nat) (wait : Nat → Nat) (ids : List Nat)
    (hids : ∀ i ∈ ids, i ≠ 0) (id : Option ALBuffer) (c : StALContext) (h : RingInv N c) :
    SameQueues c.sources (c.refillSources wait ids id).2.sources := by
  induction ids generalizing id c with
  | nil => exact sameQueues_refl _
  | cons i rest ih =>
    have hi : i ≠ 0 := hids i (List.mem_cons_self _ _)
    have hrest : ∀ j ∈ rest, j ≠ 0 := fun j hj => hids j (List.mem_cons_of_mem _ hj)
    have h1 : SameQueues c.sources (c.advance i (wait i)).sources :=
      sameQueues_updateSource _ _ _ (fun a _ => a.sameQueue_advance _)
    have hr1 := h.of_sameQueues h1
    simp only [StALContext.refillSources, hi, ne_eq, not_false_eq_true, if_true, true_and]
    by_cases hp : (c.advance i (wait i)).buffersProcessed i = 0
    · rw [if_pos hp]
      exact h1
    · rw [if_neg hp]
      obtain ⟨a, ha, hpa⟩ := buffersProcessed_ne_zero _ _ hp
      obtain ⟨b, hb1, hb2⟩ := refill_rotate i id _ a ha (hr1.2 a (List.get?_mem ha)).1 hpa
      simp only [hb1]
      exact h1.chain (hb2.chain (ih hrest _ _ (hr1.of_sameQueues hb2)))

theorem refillSources_range (N : Nat) (wait : Nat → Nat) (n : Nat) (c : StALContext)
    (h : RingInv N c) :
    SameQueues c.sources (c.refillSources wait (List.range n) none).2.sources := by
  cases n with
  | zero => exact sameQueues_refl _
  | succ n =>
    have hids : ∀ j ∈ List.map Nat.succ (List.range n), j ≠ 0 := by
      intro j hj
      simp only [List.mem_map] at hj
      obtain ⟨k, _, rfl⟩ := hj
      exact Nat.succ_ne_zero k
    rw [List.range_succ_eq_map]
    simp only [StALContext.refillSources, ne_eq, not_true_eq_false, if_false, false_and]
    by_cases hp : c.buffersProcessed 0 = 0
    · have : c.unqueueBuffer 0 none = (none, c) := by
        unfold StALContext.buffersProcessed at hp
        unfold StALContext.unqueueBuffer
        cases ha : c.sources.get? 0 with
        | none => rfl
        | some a =>
          simp only [ha] at hp
          simp [a.unqueue_of_processed_zero hp]
      simp only [this]
      exact refillSources_sameQueues N wait _ hids none c h
    · obtain ⟨a, ha, hpa⟩ := buffersProcessed_ne_zero _ _ hp
      obtain ⟨b, hb1, hb2⟩ := refill_rotate 0 none c a ha (h.2 a (List.get?_mem ha)).1 hpa
      simp only [hb1]
      exact hb2.chain (refillSources_sameQueues N wait _ hids _ _ (h.of_sameQueues hb2))

theorem stageBuffers_succ (slot n : Nat) (c : StALContext) :
    c.stageBuffers slot (n + 1) = (c.stageBuffers slot n).queueBuffer n (n, slot) := by
  simp [StALContext.stageBuffers, List.range_succ, List.foldl_append]

theorem stageBuffers_get? (slot n : Nat) (c : StALContext) (j : Nat) :
    (c.stageBuffers slot n).sources.get? j =
      if j < n then (c.sources.get? j).map (ALSource.enqueue (j, slot)) else c.sources.get? j := by
  induction n with
  | zero => simp [StALContext.stageBuffers]
  | succ n ih =>
    rw [stageBuffers_succ]
    simp only [StALContext.queueBuffer, get?_updateSource, ih]
    by_cases h1 : n = j
    · subst h1
      simp
    · by_cases h2 : j < n
      · simp [h1, h2, Nat.lt_succ_of_lt h2]
      · have : ¬ j < n + 1 := by omega
        simp [h1, h2, this]

theorem stageBuffers_ringInv (N slot n : Nat) (c : StALContext) (h : RingInv N c)
    (hs : slot = c.buffersQueued 0) (hlt : slot < N) : RingInv N (c.stageBuffers slot n) := by
  have hq : (c.stageBuffers slot n).buffersQueued 0 =
      if 0 < n ∧ (c.sources.get? 0).isSome then slot + 1 else slot := by
    rw [hs]
    unfold StALContext.buffersQueued
    rw [stageBuffers_get?]
    cases h0 : c.sources.get? 0 with
    | none => simp
    | some a0 =>
      by_cases hn : 0 < n
      · simp [hn, ALSource.enqueue]
      · simp [hn]
  refine ⟨by rw [hq]; split_ifs <;> omega, ?_⟩
  intro a' ha'
  obtain ⟨j, hj⟩ := List.get?_of_mem ha'
  rw [stageBuffers_get?] at hj
  by_cases hjn : j < n
  · rw [if_pos hjn] at hj
    obtain ⟨a, ha, rfl⟩ := Option.map_eq_some'.mp hj
    obtain ⟨g1, g2, g3⟩ := h.2 a (List.get?_mem ha)
    have h0 : (c.sources.get? 0).isSome = true := by
      have hl : j < c.sources.length := by
        by_contra hcon
        rw [List.get?_eq_none.mpr (by omega)] at ha
        simp at ha
      have : 0 < c.sources.length := by omega
      rw [List.get?_eq_get this]
      rfl
    have hn : 0 < n := by omega
    rw [hq, if_pos ⟨hn, h0⟩]
    refine ⟨?_, ?_, ?_⟩
    · simp only [ALSource.enqueue, List.length_append, List.length_singleton]
      split_ifs <;> omega
    · simp only [ALSource.enqueue, List.length_append, List.length_singleton]
      omega
    · intro b hb
      simp only [ALSource.enqueue, List.mem_append, List.mem_singleton] at hb
      rcases hb with hb | hb
      · exact g3 b hb
      · rw [hb]; exact hlt
  · rw [if_neg hjn] at hj
    obtain ⟨g1, g2, g3⟩ := h.2 a' (List.get?_mem hj)
    refine ⟨g1, ?_, g3⟩
    rw [hq]
    split_ifs <;> omega

theorem atRest_replicate_fresh (n : Nat) (c : StALContext)
    (h : c.sources = List.replicate n ALSource.fresh) : AtRest c := by
  intro a ha
  rw [h] at ha
  rw [List.eq_of_mem_replicate ha]
  exact ⟨rfl, rfl, Or.inl rfl⟩

theorem atRest_nil (c : StALContext) (h : c.sources = []) : AtRest c := by
  intro a ha
  rw [h] at ha
  simp at ha

theorem stalCheckConnected_ringInv (K : ALConfig) (env : ALEnv) (N : Nat) (s : StAudioQueue)
    (h : RingInv N s.myAlCtx) : RingInv N (s.stalCheckConnected K env).2.myAlCtx := by
  unfold stalCheckConnected
  split_ifs
  · exact h
  · simp only [reopen, stalInit]
    split_ifs
    · exact (atRest_nil _ rfl).ringInv N
    · exact (atRest_replicate_fresh K.NUM_AL_SOURCES _ rfl).ringInv N

theorem stalQueueStart_of_not_started (K : ALConfig) (env : ALEnv) (pts : ℚ) (st : ALState)
    (t q : Bool) (s : StAudioQueue) (h : ¬ (st = .AL_STOPPED ∧ t = true)) :
    s.stalQueueStart K env pts st t q = (q, s) := by
  unfold stalQueueStart
  have : (decide (st = .AL_STOPPED) && t) = false := by
    cases t <;> simp_all
  simp [this]

theorem stalQueueStart_ringInv (K : ALConfig) (env : ALEnv) (pts : ℚ) (st : ALState)
    (t q : Bool) (N : Nat) (s : StAudioQueue) (h : RingInv N s.myAlCtx) :
    RingInv N (s.stalQueueStart K env pts st t q).2.myAlCtx := by
  by_cases hc : st = .AL_STOPPED ∧ t = true
  · unfold stalQueueStart
    have hb : (decide (st = .AL_STOPPED) && t) = true := by simp [hc.1, hc.2]
    simp only [hb, if_true]
    have h1 : RingInv N (s.anchorClock pts).myAlCtx.alSourcePlayv := by
      have : (s.anchorClock pts).myAlCtx = s.myAlCtx := by
        unfold anchorClock; split_ifs <;> rfl
      rw [this]
      exact h.of_sameQueues (sameQueues_map _ ALSource.sameQueue_play _)
    have h2 := stalCheckConnected_ringInv K env N
      { s.anchorClock pts with myAlCtx := (s.anchorClock pts).myAlCtx.alSourcePlayv } h1
    split_ifs
    · exact h2.of_sameQueues (sameQueues_map _ ALSource.sameQueue_pause _)
    · exact h2
  · rw [stalQueueStart_of_not_started K env pts st t q s hc]
    exact h

/-- C10 (as stated, refuted): a ring of 3 buffers and 6 output sources, where source 1 has 3
buffers queued and the reference source none, so that every source has between 0 and 3 buffers
queued: `stalQueue` stages slot 0 on the 6 sources and source 1 has 4 buffers queued. -/
theorem stalQueue_overfills_lagging_reference :
    skewed.myAlCtx.sources.map (fun a => a.queue.length) = [0, 3, 0, 0, 0, 0, 0, 0] ∧
    (skewed.stalQueue ⟨8, 3⟩ plainEnv (fun _ => 0) 20).2.myAlCtx.sources.map
      (fun a => a.queue.length) = [1, 4, 1, 1, 1, 1, 0, 0] := by
  decide!

/-- C10 (amended): over the device model where each source holds its queue of buffers, from
a state in which every source has played no more buffers than it has queued and has no more
buffers queued than the reference source, the reference source has at most `NUM_AL_BUFFERS`
queued and every queued buffer is a slot of the ring, `stalQueue` leads to a state of the same
kind; so every source has at most `NUM_AL_BUFFERS` buffers queued afterwards. On the refill
path (reference source playing or paused with a played buffer) every source has as many
buffers queued afterwards as before. -/
theorem stalQueue_keeps_ring (K : ALConfig) (env : ALEnv) (wait : Nat → Nat) (pts : ℚ)
    (s : StAudioQueue) (h : RingInv K.NUM_AL_BUFFERS s.myAlCtx) :
    RingInv K.NUM_AL_BUFFERS (s.stalQueue K env wait pts).2.myAlCtx ∧
    (∀ a ∈ (s.stalQueue K env wait pts).2.myAlCtx.sources,
      a.queue.length ≤ K.NUM_AL_BUFFERS) ∧
    (s.myAlCtx.buffersProcessed 0 ≠ 0 →
      (s.stalGetSourceState = .AL_PLAYING ∨ s.stalGetSourceState = .AL_PAUSED) →
      ∀ j, (s.stalQueue K env wait pts).2.myAlCtx.buffersQueued j =
        s.myAlCtx.buffersQueued j) := by
  have key : RingInv K.NUM_AL_BUFFERS (s.stalQueue K env wait pts).2.myAlCtx ∧
      (s.myAlCtx.buffersProcessed 0 ≠ 0 →
        (s.stalGetSourceState = .AL_PLAYING ∨ s.stalGetSourceState = .AL_PAUSED) →
        ∀ j, (s.stalQueue K env wait pts).2.myAlCtx.buffersQueued j =
          s.myAlCtx.buffersQueued j) := by
    apply stalQueue_elim K env wait pts s
      (fun r => RingInv K.NUM_AL_BUFFERS r.2.myAlCtx ∧
        (s.myAlCtx.buffersProcessed 0 ≠ 0 →
          (s.stalGetSourceState = .AL_PLAYING ∨ s.stalGetSourceState = .AL_PAUSED) →
          ∀ j, r.2.myAlCtx.buffersQueued j = s.myAlCtx.buffersQueued j))
    · intro _ _
      exact ⟨h, fun _ _ _ => rfl⟩
    · intro hs hN
      refine ⟨?_, fun _ hs' => absurd hs' hs⟩
      apply stalQueueStart_ringInv
      exact stageBuffers_ringInv _ _ _ _ ((stalEmpty_atRest s).ringInv _)
        (stalEmpty_atRest s).poll.2.1.symm hN
    · intro hs _
      refine ⟨?_, fun _ hs' => absurd hs' hs⟩
      apply stalQueueStart_ringInv
      exact (stalEmpty_atRest s).ringInv _
    · intro _ _ hp hq
      refine ⟨?_, fun hp' _ => absurd hp hp'⟩
      apply stalQueueStart_ringInv
      exact stageBuffers_ringInv _ _ _ _ h rfl hq
    · intro _ _
      exact ⟨h, fun _ _ _ => rfl⟩
    · intro _ hs _
      have hsame := refillSources_range K.NUM_AL_BUFFERS wait s.myBufferOut.sourcesCount
        s.myAlCtx h
      have hst : ¬ (s.stalGetSourceState = .AL_STOPPED ∧ true = true) := by
        rintro ⟨h1, _⟩
        rcases hs with hs | hs <;> rw [h1] at hs <;> simp at hs
      rw [stalQueueStart_of_not_started K env pts _ _ _ _ hst]
      exact ⟨h.of_sameQueues hsame, fun _ _ j => hsame.buffersQueued j⟩
    · intro _ _
      have hsame := refillSources_range K.NUM_AL_BUFFERS wait s.myBufferOut.sourcesCount
        s.myAlCtx h
      exact ⟨h.of_sameQueues hsame, fun _ _ j => hsame.buffersQueued j⟩
    · intro _ _
      rw [stalQueueStart_of_not_started K env pts _ _ _ _ (by simp)]
      exact ⟨h, fun _ _ _ => rfl⟩
  exact ⟨key.1, key.1.length_le, key.2⟩

/-- C10 (amended), at a playing reference source with its ring of 3 buffers full. -/
theorem stalQueue_keeps_ring_witness :
    RingInv 3 (ringFull .AL_PLAYING).myAlCtx ∧
    ∀ a ∈ ((ringFull .AL_PLAYING).stalQueue ⟨8, 3⟩ plainEnv (fun _ => 0) 20).2.myAlCtx.sources,
      a.queue.length ≤ 3 :=
  ⟨by decide,
    (stalQueue_keeps_ring ⟨8, 3⟩ plainEnv (fun _ => 0) 20 (ringFull .AL_PLAYING) (by decide)).2.1⟩

end SView

/-! ## Device reconnection (`stalCheckConnected`) -/

namespace SView
open StAudioQueue

theorem stalCheckConnected_flag (K : ALConfig) (env : ALEnv) (s : StAudioQueue) :
    (s.stalCheckConnected K env).2.myIsDisconnected = (s.myIsDisconnected || !env.isConnected) := by
  unfold stalCheckConnected
  cases hd : s.myIsDisconnected <;> cases hc : env.isConnected <;> simp [hd]

theorem stalQueueStart_flag (K : ALConfig) (env : ALEnv) (pts : ℚ) (st : ALState)
    (t q : Bool) (s : StAudioQueue) (h : s.myIsDisconnected = true) :
    (s.stalQueueStart K env pts st t q).2.myIsDisconnected = true := by
  unfold stalQueueStart
  have hc : ∀ x : StAudioQueue, x.myIsDisconnected = true →
      (x.stalCheckConnected K env).2.myIsDisconnected = true := by
    intro x hx
    rw [stalCheckConnected_flag, hx]
    rfl
  have ha : (s.anchorClock pts).myIsDisconnected = true := by
    unfold anchorClock
    split_ifs <;> exact h
  split_ifs
  · simp only []
    split_ifs
    · exact hc { s.anchorClock pts with myAlCtx := (s.anchorClock pts).myAlCtx.alSourcePlayv } ha
    · exact hc { s.anchorClock pts with myAlCtx := (s.anchorClock pts).myAlCtx.alSourcePlayv } ha
  · exact h

theorem stalQueue_flag (K : ALConfig) (env : ALEnv) (wait : Nat → Nat) (pts : ℚ)
    (s : StAudioQueue) (h : s.myIsDisconnected = true) :
    (s.stalQueue K env wait pts).2.myIsDisconnected = true := by
  refine stalQueue_elim K env wait pts s (fun r => r.2.myIsDisconnected = true)
    ?_ ?_ ?_ ?_ ?_ ?_ ?_ ?_
  · intro _ _; exact h
  · intro _ _; exact stalQueueStart_flag _ _ _ _ _ _ _ h
  · intro _ _; exact stalQueueStart_flag _ _ _ _ _ _ _ h
  · intro _ _ _ _; exact stalQueueStart_flag _ _ _ _ _ _ _ h
  · intro _ _; exact h
  · intro _ _ _; exact stalQueueStart_flag _ _ _ _ _ _ _ h
  · intro _ _; exact h
  · intro _ _; exact stalQueueStart_flag _ _ _ _ _ _ _ h

/-- C17: `stalCheckConnected` returns true exactly when the disconnected flag is clear and the
context reports connected, and then changes nothing; otherwise it empties the device name,
tears the session down, reopens it, records the result of the opening as the session state,
sets the flag and returns false. A set flag stays set through `stalCheckConnected`, through
`stalQueue` and through a `parseEvents` without a device-switch request, whatever the device
reports; a `parseEvents` with a device-switch request clears it. -/
theorem stalCheckConnected_sticky (K : ALConfig) (env : ALEnv) (ev : StPlayEvent)
    (wait : Nat → Nat) (pts : ℚ) (s : StAudioQueue) :
    ((s.stalCheckConnected K env).1 = true ↔
      (s.myIsDisconnected = false ∧ env.isConnected = true)) ∧
    ((s.stalCheckConnected K env).1 = true → (s.stalCheckConnected K env).2 = s) ∧
    ((s.stalCheckConnected K env).1 = false →
      (s.stalCheckConnected K env).2 =
        { ({ s with myAlDeviceName := "" }.stalDeinit.reopen K env) with
          myIsDisconnected := true } ∧
      (s.stalCheckConnected K env).2.myAlDeviceName = "" ∧
      (s.stalCheckConnected K env).2.myIsAlValid =
        (if env.createNamed = true ∨ env.createDefault = true then StAlInit.ST_AL_INIT_OK
         else StAlInit.ST_AL_INIT_KO) ∧
      (s.stalCheckConnected K env).2.myAlCtx.sources =
        (if env.createNamed = true ∨ env.createDefault = true then
          List.replicate K.NUM_AL_SOURCES ALSource.fresh
         else []) ∧
      (s.stalCheckConnected K env).2.myIsDisconnected = true) ∧
    (s.myIsDisconnected = true →
      (s.stalCheckConnected K env).1 = false ∧
      (s.stalCheckConnected K env).2.myIsDisconnected = true ∧
      (s.stalQueue K env wait pts).2.myIsDisconnected = true) ∧
    (s.myToSwitchDev = false →
      (s.parseEvents K env ev).2.myIsDisconnected = s.myIsDisconnected ∧
      (s.parseEvents K env ev).2.myToSwitchDev = false) ∧
    (s.myToSwitchDev = true →
      (s.parseEvents K env ev).2.myIsDisconnected = false ∧
      (s.parseEvents K env ev).2.myToSwitchDev = false) := by
  refine ⟨?_, ?_, ?_, ?_, ?_, ?_⟩
  · unfold stalCheckConnected
    cases hd : s.myIsDisconnected <;> cases hc : env.isConnected <;> simp [hd]
  · unfold stalCheckConnected
    cases hd : s.myIsDisconnected <;> cases hc : env.isConnected <;> simp [hd]
  · unfold stalCheckConnected
    cases hd : s.myIsDisconnected <;> cases hc : env.isConnected <;>
      cases hn : env.createNamed <;> cases hf : env.createDefault <;>
      simp [hd, reopen, stalInit, stalDeinit, hn, hf]
  · intro h
    refine ⟨?_, ?_, stalQueue_flag K env wait pts s h⟩
    · unfold stalCheckConnected
      simp [h]
    · rw [stalCheckConnected_flag, h]
      rfl
  · intro h
    unfold parseEvents
    rw [if_neg (by simp [h])]
    have hg : s.syncGain.myIsDisconnected = s.myIsDisconnected ∧
        s.syncGain.myToSwitchDev = false := by
      unfold syncGain
      split_ifs <;> exact ⟨rfl, h⟩
    cases ev <;> exact hg
  · intro h
    unfold parseEvents
    rw [if_pos h]
    exact ⟨rfl, rfl⟩

/-- An object whose device went away earlier, on a platform which reports it connected
again. -/
theorem stalCheckConnected_sticky_witness :
    ({ opened with myIsDisconnected := true }.stalCheckConnected ⟨8, 3⟩ plainEnv).1 = false ∧
    ({ opened with myIsDisconnected := true }.stalCheckConnected ⟨8, 3⟩
      plainEnv).2.myIsDisconnected = true :=
  let h := (stalCheckConnected_sticky ⟨8, 3⟩ plainEnv .ST_PLAYEVENT_NONE (fun _ => 0) 0
    { opened with myIsDisconnected := true }).2.2.2.1 rfl
  ⟨h.1, h.2.1⟩

end SView

/-! ## The ways through `stalQueue` -/

namespace SView
open StAudioQueue

/-- The ways through `stalQueue` as one equation, with the tests of the source as
propositions. -/
theorem stalQueue_eq (K : ALConfig) (env : ALEnv) (wait : Nat → Nat) (pts : ℚ)
    (s : StAudioQueue) :
    s.stalQueue K env wait pts =
      if (s.stalGetSourceState = .AL_PLAYING ∨ s.stalGetSourceState = .AL_PAUSED) ∧
          (s.myPrevFormat ≠ s.myAlFormat ∨ s.myPrevFrequency ≠ s.myBufferOut.freq) then
        (false, s)
      else if (s.myPrevFormat ≠ s.myAlFormat ∨ s.myPrevFrequency ≠ s.myBufferOut.freq) ∨
          (s.stalGetSourceState = .AL_STOPPED ∧
            s.myAlCtx.buffersQueued 0 = K.NUM_AL_BUFFERS) then
        if 0 < K.NUM_AL_BUFFERS then
          stalQueueStart K env pts s.stalGetSourceState (decide (0 + 1 = K.NUM_AL_BUFFERS)) true
            { s.stalEmpty with
              myPrevFormat := s.myAlFormat, myPrevFrequency := s.myBufferOut.freq,
              myAlCtx := s.stalEmpty.myAlCtx.stageBuffers 0 s.myBufferOut.sourcesCount }
        else
          stalQueueStart K env pts s.stalGetSourceState false false s.stalEmpty
      else if s.myAlCtx.buffersProcessed 0 = 0 ∧
          s.myAlCtx.buffersQueued 0 < K.NUM_AL_BUFFERS then
        stalQueueStart K env pts s.stalGetSourceState
          (decide (s.myAlCtx.buffersQueued 0 + 1 = K.NUM_AL_BUFFERS)) true
          { s with
            myPrevFormat := s.myAlFormat, myPrevFrequency := s.myBufferOut.freq,
            myAlCtx := s.myAlCtx.stageBuffers (s.myAlCtx.buffersQueued 0)
              s.myBufferOut.sourcesCount }
      else if s.myAlCtx.buffersProcessed 0 ≠ 0 ∧
          (s.stalGetSourceState = .AL_PLAYING ∨ s.stalGetSourceState = .AL_PAUSED) then
        if s.myBufferOut.getDataSize 0 = 0 then (true, s)
        else if (s.myAlCtx.refillSources wait (List.range s.myBufferOut.sourcesCount)
            none).1 = true then
          stalQueueStart K env pts s.stalGetSourceState true true
            { s with
              myPrevFormat := s.myAlFormat, myPrevFrequency := s.myBufferOut.freq,
              myAlCtx := (s.myAlCtx.refillSources wait (List.range s.myBufferOut.sourcesCount)
                none).2 }
        else
          (false,
            { s with
              myPrevFormat := s.myAlFormat, myPrevFrequency := s.myBufferOut.freq,
              myAlCtx := (s.myAlCtx.refillSources wait (List.range s.myBufferOut.sourcesCount)
                none).2 })
      else
        stalQueueStart K env pts s.stalGetSourceState false false s := by
  unfold stalQueue
  simp only []
  by_cases h1 : (s.stalGetSourceState = .AL_PLAYING ∨ s.stalGetSourceState = .AL_PAUSED) ∧
      (s.myPrevFormat ≠ s.myAlFormat ∨ s.myPrevFrequency ≠ s.myBufferOut.freq)
  · rw [if_pos h1, if_pos (by simpa using h1)]
  · rw [if_neg h1, if_neg (by simpa using h1)]
    by_cases h2 : (s.myPrevFormat ≠ s.myAlFormat ∨ s.myPrevFrequency ≠ s.myBufferOut.freq) ∨
        (s.stalGetSourceState = .AL_STOPPED ∧ s.myAlCtx.buffersQueued 0 = K.NUM_AL_BUFFERS)
    · have h2b : ((decide (s.myPrevFormat ≠ s.myAlFormat) ||
          decide (s.myPrevFrequency ≠ s.myBufferOut.freq)) ||
          (decide (s.stalGetSourceState = .AL_STOPPED) &&
            decide (s.myAlCtx.buffersQueued 0 = K.NUM_AL_BUFFERS))) = true := by
        simpa using h2
      rw [if_pos h2]
      simp only [h2b, if_true]
      by_cases h3 : 0 < K.NUM_AL_BUFFERS
      · rw [if_pos h3, if_pos (by simpa using h3)]
        rfl
      · rw [if_neg h3, if_neg (by simpa using h3), if_neg (by simp)]
    · have h2b : ((decide (s.myPrevFormat ≠ s.myAlFormat) ||
          decide (s.myPrevFrequency ≠ s.myBufferOut.freq)) ||
          (decide (s.stalGetSourceState = .AL_STOPPED) &&
            decide (s.myAlCtx.buffersQueued 0 = K.NUM_AL_BUFFERS))) = false := by
        simpa using h2
      rw [if_neg h2]
      simp only [h2b, Bool.false_eq_true, if_false]
      by_cases h3 : s.myAlCtx.buffersProcessed 0 = 0 ∧
          s.myAlCtx.buffersQueued 0 < K.NUM_AL_BUFFERS
      · rw [if_pos h3, if_pos (by simpa using h3)]
      · rw [if_neg h3, if_neg (by simpa using h3)]
        by_cases h4 : s.myAlCtx.buffersProcessed 0 ≠ 0 ∧
            (s.stalGetSourceState = .AL_PLAYING ∨ s.stalGetSourceState = .AL_PAUSED)
        · rw [if_pos h4, if_pos (by simpa using h4)]
        · rw [if_neg h4, if_neg (by simpa using h4)]

/-! ## Flush and start in `stalQueue` -/

theorem stageBuffers_queue_of_atRest (slot n : Nat) (c : StALContext) (h : AtRest c) (i : Nat)
    (a : ALSource) (ha : (c.stageBuffers slot n).sources.get? i = some a) :
    a.queue = if i < n then [(i, slot)] else [] := by
  rw [stageBuffers_get?] at ha
  by_cases hi : i < n
  · rw [if_pos hi] at ha
    rw [if_pos hi]
    cases h0 : c.sources.get? i with
    | none => rw [h0] at ha; simp at ha
    | some a0 =>
      rw [h0] at ha
      simp only [Option.map_some', Option.some.injEq] at ha
      have hq := (h a0 (List.get?_mem h0)).1
      rw [← ha]
      simp [ALSource.enqueue, hq]
  · rw [if_neg hi] at ha
    rw [if_neg hi]
    exact (h a (List.get?_mem ha)).1

theorem get?_map_sources (f : ALSource → ALSource) (l : List ALSource) (i : Nat) :
    (l.map f).get? i = (l.get? i).map f := by
  simp [List.get?_eq_getElem?]

theorem stalCheckConnected_of_connected (K : ALConfig) (env : ALEnv) (s : StAudioQueue)
    (h : s.myIsDisconnected = false ∧ env.isConnected = true) :
    s.stalCheckConnected K env = (true, s) := by
  unfold stalCheckConnected
  simp [h.1, h.2]

theorem stalCheckConnected_queue (K : ALConfig) (env : ALEnv) (s : StAudioQueue)
    (h : ¬ (s.myIsDisconnected = false ∧ env.isConnected = true)) :
    ∀ a ∈ (s.stalCheckConnected K env).2.myAlCtx.sources, a.queue = [] := by
  have hif : (!s.myIsDisconnected && env.isConnected) = false := by
    cases hd : s.myIsDisconnected <;> cases hc : env.isConnected <;> simp_all
  unfold stalCheckConnected
  rw [hif]
  simp only [Bool.false_eq_true, if_false]
  unfold reopen stalInit
  split_ifs
  · intro a ha
    simp [stalDeinit] at ha
  · intro a ha
    simp only [List.mem_replicate] at ha
    rw [ha.2]
    rfl

theorem anchorClock_ctx (pts : ℚ) (s : StAudioQueue) :
    (s.anchorClock pts).myAlCtx = s.myAlCtx ∧
    (s.anchorClock pts).myIsDisconnected = s.myIsDisconnected ∧
    (s.anchorClock pts).myIsPlaying = s.myIsPlaying := by
  unfold anchorClock
  split_ifs <;> exact ⟨rfl, rfl, rfl⟩

theorem stalQueueStart_started (K : ALConfig) (env : ALEnv) (pts : ℚ) (q : Bool)
    (s : StAudioQueue) (h : s.myIsDisconnected = false ∧ env.isConnected = true) :
    (s.stalQueueStart K env pts .AL_STOPPED true q).2.myAlCtx.sources =
      s.myAlCtx.sources.map (fun a => if s.myIsPlaying = true then a.play else a.play.pause) := by
  unfold stalQueueStart
  rw [if_pos (by simp)]
  simp only []
  rw [stalCheckConnected_of_connected K env
    { s.anchorClock pts with myAlCtx := (s.anchorClock pts).myAlCtx.alSourcePlayv }
    ⟨(anchorClock_ctx pts s).2.1.trans h.1, h.2⟩]
  simp only [(anchorClock_ctx pts s).1, (anchorClock_ctx pts s).2.2]
  cases hp : s.myIsPlaying <;>
    simp [StALContext.alSourcePlayv, StALContext.alSourcePausev]

theorem stalQueueStart_queue (K : ALConfig) (env : ALEnv) (pts : ℚ) (st : ALState)
    (t q : Bool) (s : StAudioQueue) (i : Nat) (a' : ALSource)
    (ha : (s.stalQueueStart K env pts st t q).2.myAlCtx.sources.get? i = some a') :
    (a'.queue = [] ∧ ¬ (s.myIsDisconnected = false ∧ env.isConnected = true)) ∨
      ∃ a, s.myAlCtx.sources.get? i = some a ∧ a'.queue = a.queue := by
  by_cases hgo : st = .AL_STOPPED ∧ t = true
  · by_cases hc : s.myIsDisconnected = false ∧ env.isConnected = true
    · right
      obtain ⟨hst, ht⟩ := hgo
      subst hst ht
      rw [stalQueueStart_started K env pts q s hc, get?_map_sources] at ha
      cases h0 : s.myAlCtx.sources.get? i with
      | none => rw [h0] at ha; simp at ha
      | some a =>
        rw [h0] at ha
        simp only [Option.map_some', Option.some.injEq] at ha
        refine ⟨a, rfl, ?_⟩
        rw [← ha]
        split_ifs
        · rfl
        · unfold ALSource.pause
          split_ifs <;> rfl
    · left
      refine ⟨?_, hc⟩
      have hc2 : ¬ (({ s.anchorClock pts with
          myAlCtx := (s.anchorClock pts).myAlCtx.alSourcePlayv } : StAudioQueue).myIsDisconnected
            = false ∧ env.isConnected = true) := by
        rw [show ({ s.anchorClock pts with
          myAlCtx := (s.anchorClock pts).myAlCtx.alSourcePlayv } : StAudioQueue).myIsDisconnected
            = s.myIsDisconnected from (anchorClock_ctx pts s).2.1]
        exact hc
      have hall := stalCheckConnected_queue K env _ hc2
      unfold stalQueueStart at ha
      rw [if_pos (by simp [hgo.1, hgo.2])] at ha
      simp only [] at ha
      split_ifs at ha
      · simp only [StALContext.alSourcePausev, get?_map_sources] at ha
        cases h0 : ((stalCheckConnected K env { s.anchorClock pts with
            myAlCtx := (s.anchorClock pts).myAlCtx.alSourcePlayv }).2.myAlCtx.sources.get? i) with
        | none => rw [h0] at ha; simp at ha
        | some a =>
          rw [h0] at ha
          simp only [Option.map_some', Option.some.injEq] at ha
          rw [← ha]
          have := hall a (List.get?_mem h0)
          unfold ALSource.pause
          split_ifs <;> exact this
      · exact hall a' (List.get?_mem ha)
  · right
    rw [stalQueueStart_of_not_started K env pts st t q s hgo] at ha
    exact ⟨a', ha, rfl⟩

/-- C12: an empty output buffer is staged all the same on the initial-fill path. From `opened`,
whose output buffer holds no bytes, `stalQueue` queues ring slot 0 on the reference source and
reports a buffer queued; and a fill cycle whose first `parseEvents` consumes a seek, which
empties the output buffer and the queues, ends with that empty buffer queued. -/
theorem stalQueue_stages_empty_buffer :
    opened.myBufferOut.getDataSize 0 = 0 ∧
    (opened.stalQueue ⟨8, 3⟩ plainEnv (fun _ => 0) 0).1 = true ∧
    (opened.stalQueue ⟨8, 3⟩ plainEnv (fun _ => 0) 0).2.myAlCtx.sources.map (fun a => a.queue) =
      [(0, 0)] :: List.replicate 7 [] ∧
    ((playingAt 10).stalFillBuffers ⟨8, 3⟩ 20 false plainEnv (.ST_PLAYEVENT_SEEK 5)
      [quietTurn .ST_PLAYEVENT_NONE]).returned = true ∧
    ((playingAt 10).stalFillBuffers ⟨8, 3⟩ 20 false plainEnv (.ST_PLAYEVENT_SEEK 5)
      [quietTurn .ST_PLAYEVENT_NONE]).state.myBufferOut.getDataSize 0 = 0 ∧
    ((playingAt 10).stalFillBuffers ⟨8, 3⟩ 20 false plainEnv (.ST_PLAYEVENT_SEEK 5)
      [quietTurn .ST_PLAYEVENT_NONE]).state.myAlCtx.sources.map (fun a => a.queue) =
      [(0, 0)] :: List.replicate 7 [] := by
  decide!

/-- C15 as stated fails: with the reference source playing and the format changed since the
last queue operation, `stalQueue` returns false and flushes nothing; the 3 buffers stay
queued. -/
theorem stalQueue_format_change_while_playing :
    retuned.stalGetSourceState = .AL_PLAYING ∧
    retuned.myPrevFormat ≠ retuned.myAlFormat ∧
    retuned.stalQueue ⟨8, 3⟩ plainEnv (fun _ => 0) 0 = (false, retuned) ∧
    retuned.myAlCtx.buffersQueued 0 = 3 := by
  decide!

/-- C16 as stated fails: with the reference source stopped and nothing queued, `stalQueue`
stages ring slot 0 of a ring of 3 and does not start playback: the reference source is still
stopped. -/
theorem stalQueue_stages_without_start :
    stoppedEmpty.stalGetSourceState = .AL_STOPPED ∧
    (stoppedEmpty.stalQueue ⟨8, 3⟩ plainEnv (fun _ => 0) 0).1 = true ∧
    (stoppedEmpty.stalQueue ⟨8, 3⟩ plainEnv (fun _ => 0) 0).2.myAlCtx.sources.map
      (fun a => a.queue) = [(0, 0)] :: List.replicate 7 [] ∧
    (stoppedEmpty.stalQueue ⟨8, 3⟩ plainEnv (fun _ => 0) 0).2.myAlCtx.sources.map
      (fun a => a.state) = .AL_STOPPED :: List.replicate 7 .AL_INITIAL := by
  decide!

/-- C15 (amended): when the format or the frequency differs from the one recorded at the last
queue operation, or the reference source is stopped with all `NUM_AL_BUFFERS` slots queued:
while the reference source is playing or paused the call returns false and changes nothing;
otherwise the call is `stalEmpty`, then the staging of ring slot 0 (when the ring has a slot),
then the start of playback, so that afterwards every source holds at most the buffer of slot 0
staged in this call, and with a connected device exactly the sources of the output buffer hold
it. -/
theorem stalQueue_flushes_before_staging (K : ALConfig) (env : ALEnv) (wait : Nat → Nat)
    (pts : ℚ) (s : StAudioQueue)
    (hr : (s.myPrevFormat ≠ s.myAlFormat ∨ s.myPrevFrequency ≠ s.myBufferOut.freq) ∨
      (s.stalGetSourceState = .AL_STOPPED ∧ s.myAlCtx.buffersQueued 0 = K.NUM_AL_BUFFERS)) :
    ((s.stalGetSourceState = .AL_PLAYING ∨ s.stalGetSourceState = .AL_PAUSED) →
      s.stalQueue K env wait pts = (false, s)) ∧
    (¬ (s.stalGetSourceState = .AL_PLAYING ∨ s.stalGetSourceState = .AL_PAUSED) →
      (∀ i a, (s.stalQueue K env wait pts).2.myAlCtx.sources.get? i = some a →
        a.queue = [] ∨ a.queue = [(i, 0)]) ∧
      (0 < K.NUM_AL_BUFFERS →
        s.stalQueue K env wait pts =
          stalQueueStart K env pts s.stalGetSourceState (decide (0 + 1 = K.NUM_AL_BUFFERS)) true
            { s.stalEmpty with
              myPrevFormat := s.myAlFormat, myPrevFrequency := s.myBufferOut.freq,
              myAlCtx := s.stalEmpty.myAlCtx.stageBuffers 0 s.myBufferOut.sourcesCount } ∧
        (s.stalQueue K env wait pts).1 = true ∧
        (s.myIsDisconnected = false ∧ env.isConnected = true →
          ∀ i a, (s.stalQueue K env wait pts).2.myAlCtx.sources.get? i = some a →
            a.queue = if i < s.myBufferOut.sourcesCount then [(i, 0)] else []))) := by
  constructor
  · intro hp
    have hch : s.myPrevFormat ≠ s.myAlFormat ∨ s.myPrevFrequency ≠ s.myBufferOut.freq := by
      rcases hr with hr | hr
      · exact hr
      · rcases hp with hp | hp <;> rw [hr.1] at hp <;> simp at hp
    rw [stalQueue_eq, if_pos ⟨hp, hch⟩]
  · intro hp
    have hrest := stalEmpty_atRest s
    rw [stalQueue_eq, if_neg (fun h => hp h.1), if_pos hr]
    by_cases hN : 0 < K.NUM_AL_BUFFERS
    · rw [if_pos hN]
      have hstaged : ∀ i a,
          ({ s.stalEmpty with
              myPrevFormat := s.myAlFormat, myPrevFrequency := s.myBufferOut.freq,
              myAlCtx := s.stalEmpty.myAlCtx.stageBuffers 0 s.myBufferOut.sourcesCount } :
            StAudioQueue).myAlCtx.sources.get? i = some a →
          a.queue = if i < s.myBufferOut.sourcesCount then [(i, 0)] else [] :=
        fun i a ha => stageBuffers_queue_of_atRest 0 _ _ hrest i a ha
      refine ⟨?_, fun _ => ⟨rfl, stalQueueStart_fst _ _ _ _ _ _ _, ?_⟩⟩
      · intro i a' ha
        rcases stalQueueStart_queue _ _ _ _ _ _ _ i a' ha with h | ⟨a, h0, hq⟩
        · exact Or.inl h.1
        · rw [hq, hstaged i a h0]
          split_ifs
          · exact Or.inr rfl
          · exact Or.inl rfl
      · intro hc i a' ha
        rcases stalQueueStart_queue _ _ _ _ _ _ _ i a' ha with h | ⟨a, h0, hq⟩
        · exact absurd hc h.2
        · rw [hq, hstaged i a h0]
    · rw [if_neg hN]
      refine ⟨?_, fun h => absurd h hN⟩
      intro i a' ha
      rw [stalQueueStart_of_not_started _ _ _ _ _ _ _ (by simp)] at ha
      exact Or.inl (hrest a' (List.get?_mem ha)).1

/-- C15 (amended), at a stopped reference source with its ring of 3 buffers queued: after the
call the reference source holds the buffer of slot 0 alone. -/
theorem stalQueue_flushes_before_staging_witness :
    ((ringFull .AL_STOPPED).stalGetSourceState = .AL_STOPPED ∧
      (ringFull .AL_STOPPED).myAlCtx.buffersQueued 0 = 3) ∧
    ∀ i a,
      ((ringFull .AL_STOPPED).stalQueue ⟨8, 3⟩ plainEnv (fun _ => 0)
        20).2.myAlCtx.sources.get? i = some a →
      a.queue = if i < (ringFull .AL_STOPPED).myBufferOut.sourcesCount then [(i, 0)] else [] :=
  ⟨by decide,
    ((stalQueue_flushes_before_staging ⟨8, 3⟩ plainEnv (fun _ => 0) 20 (ringFull .AL_STOPPED)
      (Or.inr (by decide))).2 (by decide)).2 (by decide) |>.2.2 (by decide)⟩

theorem stalEmpty_stopped (s : StAudioQueue) (h : s.stalGetSourceState = .AL_STOPPED) :
    s.stalEmpty.stalGetSourceState = .AL_STOPPED := by
  unfold stalGetSourceState at h ⊢
  unfold stalEmpty StALContext.alSourceStopv
  cases hs : s.myAlCtx.sources with
  | nil => rw [hs] at h; simp at h
  | cons a l =>
    rw [hs] at h
    simp only [List.head?_cons] at h
    simp only [List.map_cons, List.head?_cons]
    have h1 : a.stop.state = .AL_STOPPED := by
      unfold ALSource.stop
      rw [if_neg (by rw [h]; decide)]
    have h2 : (a.stop.unqueueMany a.stop.queue.length).state = .AL_STOPPED := by
      rw [ALSource.unqueueMany_state, h1]
    unfold ALSource.detach
    rw [if_neg (by rw [h2]; decide)]
    exact h2

theorem stageBuffers_state (slot n : Nat) (s : StAudioQueue) (c : StALContext) :
    ({ s with myAlCtx := c.stageBuffers slot n } : StAudioQueue).stalGetSourceState =
      ({ s with myAlCtx := c } : StAudioQueue).stalGetSourceState := by
  unfold stalGetSourceState
  have h := stageBuffers_get? slot n c 0
  rw [List.get?_zero, List.get?_zero] at h
  simp only []
  rw [h]
  split_ifs
  · cases c.sources.head? <;> rfl
  · rfl

/-- C16 (amended): a call of `stalQueue` which polls the reference source stopped and stages a
buffer puts it in slot 0 after a reset and in slot `aQueued` otherwise. When that slot is the
last of the ring and the device is connected, all sources are started, and paused right after
when the playing intent is false; when it is not the last slot, playback is not started and
the reference source is still stopped. -/
theorem stalQueue_starts_when_ring_fills (K : ALConfig) (env : ALEnv) (wait : Nat → Nat)
    (pts : ℚ) (s : StAudioQueue) (slot : Nat)
    (hst : s.stalGetSourceState = .AL_STOPPED)
    (hq : (s.stalQueue K env wait pts).1 = true)
    (hslot : slot =
      if (s.myPrevFormat ≠ s.myAlFormat ∨ s.myPrevFrequency ≠ s.myBufferOut.freq) ∨
          s.myAlCtx.buffersQueued 0 = K.NUM_AL_BUFFERS then 0
      else s.myAlCtx.buffersQueued 0) :
    (∃ s1 : StAudioQueue, (s1 = s ∨ s1 = s.stalEmpty) ∧
      s.stalQueue K env wait pts =
        stalQueueStart K env pts .AL_STOPPED (decide (slot + 1 = K.NUM_AL_BUFFERS)) true
          { s1 with
            myPrevFormat := s.myAlFormat, myPrevFrequency := s.myBufferOut.freq,
            myAlCtx := s1.myAlCtx.stageBuffers slot s.myBufferOut.sourcesCount }) ∧
    (slot + 1 = K.NUM_AL_BUFFERS → s.myIsDisconnected = false ∧ env.isConnected = true →
      ∀ a ∈ (s.stalQueue K env wait pts).2.myAlCtx.sources,
        a.state = if s.myIsPlaying = true then .AL_PLAYING else .AL_PAUSED) ∧
    (slot + 1 ≠ K.NUM_AL_BUFFERS →
      (s.stalQueue K env wait pts).2.stalGetSourceState = .AL_STOPPED) := by
  have key : ∃ s1 : StAudioQueue, (s1 = s ∨ s1 = s.stalEmpty) ∧
      s.stalQueue K env wait pts =
        stalQueueStart K env pts .AL_STOPPED (decide (slot + 1 = K.NUM_AL_BUFFERS)) true
          { s1 with
            myPrevFormat := s.myAlFormat, myPrevFrequency := s.myBufferOut.freq,
            myAlCtx := s1.myAlCtx.stageBuffers slot s.myBufferOut.sourcesCount } := by
    have hnp : ¬ (s.stalGetSourceState = .AL_PLAYING ∨ s.stalGetSourceState = .AL_PAUSED) := by
      rw [hst]; decide
    rw [stalQueue_eq, if_neg (fun h => hnp h.1)] at hq
    rw [stalQueue_eq, if_neg (fun h => hnp h.1)]
    by_cases hr : (s.myPrevFormat ≠ s.myAlFormat ∨ s.myPrevFrequency ≠ s.myBufferOut.freq) ∨
        (s.stalGetSourceState = .AL_STOPPED ∧ s.myAlCtx.buffersQueued 0 = K.NUM_AL_BUFFERS)
    · have hr2 : (s.myPrevFormat ≠ s.myAlFormat ∨ s.myPrevFrequency ≠ s.myBufferOut.freq) ∨
          s.myAlCtx.buffersQueued 0 = K.NUM_AL_BUFFERS := by
        rcases hr with hr | hr
        · exact Or.inl hr
        · exact Or.inr hr.2
      rw [if_pos hr2] at hslot
      subst hslot
      rw [if_pos hr] at hq
      rw [if_pos hr]
      by_cases hN : 0 < K.NUM_AL_BUFFERS
      · rw [if_pos hN, hst]
        exact ⟨s.stalEmpty, Or.inr rfl, rfl⟩
      · rw [if_neg hN, stalQueueStart_fst] at hq
        exact absurd hq (by decide)
    · have hr2 :
          ¬ ((s.myPrevFormat ≠ s.myAlFormat ∨ s.myPrevFrequency ≠ s.myBufferOut.freq) ∨
            s.myAlCtx.buffersQueued 0 = K.NUM_AL_BUFFERS) := by
        intro h
        rcases h with h | h
        · exact hr (Or.inl h)
        · exact hr (Or.inr ⟨hst, h⟩)
      rw [if_neg hr2] at hslot
      subst hslot
      rw [if_neg hr] at hq
      rw [if_neg hr]
      by_cases h3 : s.myAlCtx.buffersProcessed 0 = 0 ∧
          s.myAlCtx.buffersQueued 0 < K.NUM_AL_BUFFERS
      · rw [if_pos h3, hst]
        exact ⟨s, Or.inl rfl, rfl⟩
      · rw [if_neg h3, if_neg (fun h => hnp h.2), stalQueueStart_fst] at hq
        exact absurd hq (by decide)
  refine ⟨key, ?_, ?_⟩
  · intro hlast hc a ha
    obtain ⟨s1, hs1, heq⟩ := key
    have hflag : s1.myIsDisconnected = s.myIsDisconnected ∧ s1.myIsPlaying = s.myIsPlaying := by
      rcases hs1 with h | h <;> rw [h] <;> exact ⟨rfl, rfl⟩
    rw [heq, decide_eq_true hlast,
      stalQueueStart_started K env pts true
        { s1 with
          myPrevFormat := s.myAlFormat, myPrevFrequency := s.myBufferOut.freq,
          myAlCtx := s1.myAlCtx.stageBuffers slot s.myBufferOut.sourcesCount }
        ⟨hflag.1.trans hc.1, hc.2⟩] at ha
    simp only [List.mem_map] at ha
    obtain ⟨a0, _, ha0⟩ := ha
    rw [← ha0]
    simp only [hflag.2]
    split_ifs
    · rfl
    · simp [ALSource.pause, ALSource.play]
  · intro hlast
    obtain ⟨s1, hs1, heq⟩ := key
    rw [heq, stalQueueStart_of_not_started _ _ _ _ _ _ _ (by simp [hlast])]
    have h1 : s1.stalGetSourceState = .AL_STOPPED := by
      rcases hs1 with h | h
      · rw [h]; exact hst
      · rw [h]; exact stalEmpty_stopped s hst
    have h2 := stageBuffers_state slot s.myBufferOut.sourcesCount
      { s1 with myPrevFormat := s.myAlFormat, myPrevFrequency := s.myBufferOut.freq } s1.myAlCtx
    exact h2.trans h1

/-- C16 (amended), at a stopped reference source with nothing queued, a ring of one buffer and
no intent to play: the buffer staged fills the ring, and all sources end paused. -/
theorem stalQueue_starts_when_ring_fills_witness :
    stoppedEmpty.stalGetSourceState = .AL_STOPPED ∧
    (stoppedEmpty.stalQueue ⟨8, 1⟩ plainEnv (fun _ => 0) 20).1 = true ∧
    ∀ a ∈ (stoppedEmpty.stalQueue ⟨8, 1⟩ plainEnv (fun _ => 0) 20).2.myAlCtx.sources,
      a.state = if stoppedEmpty.myIsPlaying = true then .AL_PLAYING else .AL_PAUSED :=
  ⟨by decide, by decide!,
    (stalQueue_starts_when_ring_fills ⟨8, 1⟩ plainEnv (fun _ => 0) 20 stoppedEmpty 0 (by decide)
      (by decide!) (by decide)).2.1 (by decide) (by decide)⟩

end SView

/-! ## Timestamps in `decodePacket` -/

namespace SView
open StAudioQueue

theorem decodeFrames_fills (addData : StPCMBuffer → StPCMBuffer → Bool × StPCMBuffer)
    (K : ALConfig) (base : ℚ) (pkt : StAVPacket) (u : ℚ) (hpts : pkt.pts = some u)
    (frames : List Frame) :
    ∀ (size : Int) (thePts : ℚ) (s : StAudioQueue), u - base ≤ thePts →
      (∀ p ∈ (s.decodeFrames addData K base pkt frames size thePts).fills, p = u - base) ∧
      (s.decodeFrames addData K base pkt frames size thePts).anomalies.length =
        (s.decodeFrames addData K base pkt frames size thePts).fills.length ∧
      (∀ x ∈ (s.decodeFrames addData K base pkt frames size thePts).anomalies,
        x.1 = u - base) ∧
      ((s.decodeFrames addData K base pkt frames size thePts).fills = [] →
        (s.decodeFrames addData K base pkt frames size thePts).thePts = thePts) ∧
      ((s.decodeFrames addData K base pkt frames size thePts).fills ≠ [] →
        (s.decodeFrames addData K base pkt frames size thePts).thePts = u - base ∧
        (s.decodeFrames addData K base pkt frames size thePts).anomalies.head? =
          some (u - base, thePts)) := by
  induction frames with
  | nil =>
    intro size thePts s _
    simp [decodeFrames]
  | cons f rest ih =>
    intro size thePts s hle
    have key := fun s1 => ih (size - f.len1) (u - base) s1 (le_refl _)
    generalize hrun : s.decodeFrames addData K base pkt (f :: rest) size thePts = run
    unfold decodeFrames at hrun
    simp only [hpts, if_pos hle] at hrun
    split_ifs at hrun
    · subst hrun; simp
    · subst hrun; simp
    · subst hrun; exact ih _ _ _ hle
    · subst hrun; exact ih _ _ _ hle
    · subst hrun; simp
    · subst hrun; simp
    · subst hrun
      simp only [List.singleton_append, List.length_cons, List.mem_cons, ne_eq,
        not_false_eq_true, List.head?_cons, forall_const, reduceCtorEq, and_true,
        false_implies, true_and]
      refine ⟨?_, ?_, ?_, ?_⟩
      · intro p hp
        rcases hp with hp | hp
        · exact hp
        · exact (key _).1 p hp
      · exact congrArg (· + 1) (key _).2.1
      · intro x hx
        rcases hx with hx | hx
        · rw [hx]
        · exact (key _).2.2.1 x hx
      · by_cases he : (decodeFrames addData K base pkt rest (size - f.len1) (u - base)
            (let s1 : StAudioQueue :=
              { s with myBufferSrc := s.myBufferSrc.setDataSize f.dataSize.toNat }
            let s2 : StAudioQueue :=
              { s1 with myBufferOut := (addData s1.myBufferOut s1.myBufferSrc).2 }
            let run := s2.stalFillBuffers K (u - base) false f.env0 f.ev0 f.turns
            let s3 := run.state.pushDataLoop run.state.myBufferOut.getDataSizeWhole f.dropped
            let s4 : StAudioQueue := { s3 with myBufferOut := s3.myBufferOut.setDataSize 0 }
            { s4 with myBufferOut := (addData s4.myBufferOut s4.myBufferSrc).2 })).fills = []
        · exact (key _).2.2.2.1 he
        · exact ((key _).2.2.2.2 he).1

end SView

/-! ## Shutdown (`decodeLoop` and the waits) -/

namespace SView
open StAudioQueue

theorem stalCheckConnected_setQuit (K : ALConfig) (env : ALEnv) (b : Bool) (s : StAudioQueue) :
    ({ s with myToQuit := b } : StAudioQueue).stalCheckConnected K env =
      ((s.stalCheckConnected K env).1, { (s.stalCheckConnected K env).2 with myToQuit := b }) := by
  unfold stalCheckConnected
  simp only []
  split_ifs
  · rfl
  · unfold reopen stalInit
    simp only []
    split_ifs <;> rfl

theorem anchorClock_setQuit (pts : ℚ) (b : Bool) (s : StAudioQueue) :
    ({ s with myToQuit := b } : StAudioQueue).anchorClock pts =
      { s.anchorClock pts with myToQuit := b } := by
  unfold anchorClock
  have hd : ({ s with myToQuit := b } : StAudioQueue).diffSecs = s.diffSecs := rfl
  rw [hd]
  split_ifs <;> rfl

theorem stalQueueStart_setQuit (K : ALConfig) (env : ALEnv) (pts : ℚ) (st : ALState)
    (t q : Bool) (b : Bool) (s : StAudioQueue) :
    ({ s with myToQuit := b } : StAudioQueue).stalQueueStart K env pts st t q =
      ((s.stalQueueStart K env pts st t q).1,
        { (s.stalQueueStart K env pts st t q).2 with myToQuit := b }) := by
  unfold stalQueueStart
  split_ifs
  · simp only [anchorClock_setQuit]
    have h := stalCheckConnected_setQuit K env b
      { s.anchorClock pts with myAlCtx := (s.anchorClock pts).myAlCtx.alSourcePlayv }
    simp only [] at h
    rw [h]
    simp only []
    split_ifs <;> rfl
  · rfl

/-- `stalQueue` does not read the flag `myToQuit` and does not write it. -/
theorem stalQueue_setQuit (K : ALConfig) (env : ALEnv) (wait : Nat → Nat) (pts : ℚ) (b : Bool)
    (s : StAudioQueue) :
    ({ s with myToQuit := b } : StAudioQueue).stalQueue K env wait pts =
      ((s.stalQueue K env wait pts).1, { (s.stalQueue K env wait pts).2 with myToQuit := b }) := by
  have hstate : ({ s with myToQuit := b } : StAudioQueue).stalGetSourceState =
      s.stalGetSourceState := rfl
  have hempty : ({ s with myToQuit := b } : StAudioQueue).stalEmpty =
      { s.stalEmpty with myToQuit := b } := rfl
  rw [stalQueue_eq K env wait pts { s with myToQuit := b }, stalQueue_eq K env wait pts s]
  simp only [hstate, hempty]
  by_cases h1 : (s.stalGetSourceState = .AL_PLAYING ∨ s.stalGetSourceState = .AL_PAUSED) ∧
      (s.myPrevFormat ≠ s.myAlFormat ∨ s.myPrevFrequency ≠ s.myBufferOut.freq)
  · rw [if_pos h1, if_pos h1]
  · rw [if_neg h1, if_neg h1]
    by_cases h2 : (s.myPrevFormat ≠ s.myAlFormat ∨ s.myPrevFrequency ≠ s.myBufferOut.freq) ∨
        (s.stalGetSourceState = .AL_STOPPED ∧ s.myAlCtx.buffersQueued 0 = K.NUM_AL_BUFFERS)
    · rw [if_pos h2, if_pos h2]
      by_cases h3 : 0 < K.NUM_AL_BUFFERS
      · rw [if_pos h3, if_pos h3]
        exact stalQueueStart_setQuit K env pts _ _ _ b
          { s.stalEmpty with
            myPrevFormat := s.myAlFormat, myPrevFrequency := s.myBufferOut.freq,
            myAlCtx := s.stalEmpty.myAlCtx.stageBuffers 0 s.myBufferOut.sourcesCount }
      · rw [if_neg h3, if_neg h3]
        exact stalQueueStart_setQuit K env pts _ _ _ b s.stalEmpty
    · rw [if_neg h2, if_neg h2]
      by_cases h3 : s.myAlCtx.buffersProcessed 0 = 0 ∧
          s.myAlCtx.buffersQueued 0 < K.NUM_AL_BUFFERS
      · rw [if_pos h3, if_pos h3]
        exact stalQueueStart_setQuit K env pts _ _ _ b
          { s with
            myPrevFormat := s.myAlFormat, myPrevFrequency := s.myBufferOut.freq,
            myAlCtx := s.myAlCtx.stageBuffers (s.myAlCtx.buffersQueued 0)
              s.myBufferOut.sourcesCount }
      · rw [if_neg h3, if_neg h3]
        by_cases h4 : s.myAlCtx.buffersProcessed 0 ≠ 0 ∧
            (s.stalGetSourceState = .AL_PLAYING ∨ s.stalGetSourceState = .AL_PAUSED)
        · rw [if_pos h4, if_pos h4]
          by_cases h5 : s.myBufferOut.getDataSize 0 = 0
          · rw [if_pos h5, if_pos h5]
          · rw [if_neg h5, if_neg h5]
            by_cases h6 : (s.myAlCtx.refillSources wait (List.range s.myBufferOut.sourcesCount)
                none).1 = true
            · rw [if_pos h6, if_pos h6]
              exact stalQueueStart_setQuit K env pts _ _ _ b
                { s with
                  myPrevFormat := s.myAlFormat, myPrevFrequency := s.myBufferOut.freq,
                  myAlCtx := (s.myAlCtx.refillSources wait
                    (List.range s.myBufferOut.sourcesCount) none).2 }
            · rw [if_neg h6, if_neg h6]
        · rw [if_neg h4, if_neg h4]
          exact stalQueueStart_setQuit K env pts _ _ _ b s

theorem stalQueue_toQuit (K : ALConfig) (env : ALEnv) (wait : Nat → Nat) (pts : ℚ)
    (s : StAudioQueue) : (s.stalQueue K env wait pts).2.myToQuit = s.myToQuit := by
  have h := stalQueue_setQuit K env wait pts s.myToQuit s
  have hs : ({ s with myToQuit := s.myToQuit } : StAudioQueue) = s := rfl
  rw [hs] at h
  exact congrArg (fun r => r.2.myToQuit) h

theorem parseEvents_toQuit (K : ALConfig) (env : ALEnv) (ev : StPlayEvent) (s : StAudioQueue) :
    (s.parseEvents K env ev).2.myToQuit = s.myToQuit := by
  have hg : s.syncGain.myToQuit = s.myToQuit := by
    unfold syncGain
    split_ifs <;> rfl
  unfold parseEvents reopen stalInit
  split_ifs
  · rfl
  · rfl
  · cases ev <;> exact hg

theorem stalFillBody_of_toQuit (K : ALConfig) (env : ALEnv) (ev : StPlayEvent) (aPos pts : ℚ)
    (ign : Bool) (s : StAudioQueue) (hq : s.myToQuit = true) :
    s.stalFillBody K env ev aPos pts ign =
      (.quit, if ign = true then s else (s.parseEvents K env ev).2) := by
  unfold stalFillBody
  cases ign
  · simp only [Bool.not_false, if_true, Bool.false_eq_true, if_false]
    rw [if_pos ((parseEvents_toQuit K env ev s).trans hq)]
  · simp only [Bool.not_true, Bool.false_eq_true, if_false, if_true]
    rw [if_pos hq]

theorem decodeStep_end (addData : StPCMBuffer → StPCMBuffer → Bool × StPCMBuffer)
    (K : ALConfig) (start base : ℚ) (i : LoopInput) (st : LoopState) (env0 : ALEnv)
    (ev0 : StPlayEvent) (turns : List FillInput) (hi : i.arrival = .END_PACKET env0 ev0 turns)
    (run : FillRun)
    (hrun : run =
      if st.obj.myBufferOut.getDataSize 0 ≠ 0 then
        ({ st.obj with myToQuit := st.obj.myToQuit || i.toQuit } : StAudioQueue).stalFillBuffers K
          st.aPts true env0 ev0 turns
      else
        { trace := [], returned := true,
          state := { st.obj with myToQuit := st.obj.myToQuit || i.toQuit } }) :
    decodeStep addData K start base i st =
      if run.returned = false then
        { step := .streamEnd (decide (st.obj.myBufferOut.getDataSize 0 ≠ 0)), returned := false,
          pending := true, state := { st with obj := run.state, myDowntimeEvent := false } }
      else if run.state.myToQuit = true then
        { step := .streamEnd (decide (st.obj.myBufferOut.getDataSize 0 ≠ 0)), returned := true,
          pending := false,
          state := { st with obj := run.state.clearBuffers.stalDeinit, myDowntimeEvent := false } }
      else
        { step := .streamEnd (decide (st.obj.myBufferOut.getDataSize 0 ≠ 0)), returned := false,
          pending := false,
          state := { st with obj := run.state.clearBuffers, myDowntimeEvent := false } } := by
  subst hrun
  unfold decodeStep
  rw [hi]
  simp only [pushPlayEvent]
  by_cases hz : st.obj.myBufferOut.getDataSize 0 = 0
  · simp [hz, clearBuffers]
  · simp only [ne_eq, hz, not_false_eq_true, decide_True, if_true]
    cases hr : (({ st.obj with myToQuit := st.obj.myToQuit || i.toQuit } :
        StAudioQueue).stalFillBuffers K st.aPts true env0 ev0 turns).returned
    · simp
    · simp only [Bool.not_true, Bool.false_eq_true, if_false]
      rfl

theorem decodeStep_returned (addData : StPCMBuffer → StPCMBuffer → Bool × StPCMBuffer)
    (K : ALConfig) (start base : ℚ) (i : LoopInput) (st : LoopState)
    (h : (decodeStep addData K start base i st).returned = true) :
    ((decodeStep addData K start base i st).step = .quit ∨
      ∃ b, (decodeStep addData K start base i st).step = .streamEnd b ∧
        (decodeStep addData K start base i st).state.obj.myToQuit = true) ∧
    ∃ x : StAudioQueue, (decodeStep addData K start base i st).state.obj = x.stalDeinit := by
  cases hi : i.arrival with
  | empty env ev => unfold decodeStep at h; rw [hi] at h; simp at h
  | null => unfold decodeStep at h; rw [hi] at h; simp at h
  | FLUSH_PACKET => unfold decodeStep at h; rw [hi] at h; simp at h
  | START_PACKET => unfold decodeStep at h; rw [hi] at h; simp at h
  | QUIT_PACKET =>
    unfold decodeStep
    rw [hi]
    exact ⟨Or.inl rfl, _, rfl⟩
  | DATA_PACKET pkt frames => unfold decodeStep at h; rw [hi] at h; simp at h
  | END_PACKET env0 ev0 turns =>
    obtain ⟨run, hrun⟩ : ∃ run : FillRun, run =
        if st.obj.myBufferOut.getDataSize 0 ≠ 0 then
          ({ st.obj with myToQuit := st.obj.myToQuit || i.toQuit } :
            StAudioQueue).stalFillBuffers K st.aPts true env0 ev0 turns
        else
          { trace := [], returned := true,
            state := { st.obj with myToQuit := st.obj.myToQuit || i.toQuit } } := ⟨_, rfl⟩
    have he := decodeStep_end addData K start base i st env0 ev0 turns hi run hrun
    rw [he] at h ⊢
    split_ifs at h ⊢ with h1 h2
    exact ⟨Or.inr ⟨_, rfl, h2⟩, _, rfl⟩

theorem decodeIterate_returned (addData : StPCMBuffer → StPCMBuffer → Bool × StPCMBuffer)
    (K : ALConfig) (start base : ℚ) (inputs : List LoopInput) :
    ∀ st : LoopState, (decodeIterate addData K start base inputs st).returned = true →
      ∃ pre last, (decodeIterate addData K start base inputs st).trace = pre ++ [last] ∧
        (last = .quit ∨ ∃ b, last = .streamEnd b ∧
          (decodeIterate addData K start base inputs st).state.obj.myToQuit = true) ∧
        ∃ x : StAudioQueue,
          (decodeIterate addData K start base inputs st).state.obj = x.stalDeinit := by
  induction inputs with
  | nil =>
    intro st h
    simp [decodeIterate] at h
  | cons i rest ih =>
    intro st h
    unfold decodeIterate at h ⊢
    simp only [] at h ⊢
    split_ifs at h ⊢ with h1 h2
    · have hx := decodeStep_returned addData K start base i st h1
      exact ⟨[], _, rfl, hx.1, hx.2⟩
    · obtain ⟨pre, last, htr, hl, hx⟩ := ih _ h
      exact ⟨_ :: pre, last, by rw [htr]; rfl, hl, hx⟩

theorem decodeIterate_idle (addData : StPCMBuffer → StPCMBuffer → Bool × StPCMBuffer)
    (K : ALConfig) (start base : ℚ) (inputs : List LoopInput)
    (hidle : ∀ i ∈ inputs, ∃ env ev, i.arrival = .empty env ev) :
    ∀ st : LoopState, (decodeIterate addData K start base inputs st).returned = false ∧
      (decodeIterate addData K start base inputs st).trace =
        List.replicate inputs.length .idle := by
  induction inputs with
  | nil =>
    intro st
    exact ⟨rfl, rfl⟩
  | cons i rest ih =>
    intro st
    obtain ⟨env, ev, hi⟩ := hidle i (List.mem_cons_self _ _)
    have hstep : decodeStep addData K start base i st =
        { step := .idle, returned := false, pending := false,
          state := { st with
            obj := (({ st.obj with myToQuit := st.obj.myToQuit || i.toQuit } :
              StAudioQueue).parseEvents K env ev).2,
            myDowntimeEvent := true } } := by
      unfold decodeStep
      rw [hi]
    unfold decodeIterate
    rw [hstep]
    simp only [Bool.false_eq_true, if_false, List.length_cons, List.replicate_succ]
    have h := ih (fun j hj => hidle j (List.mem_cons_of_mem _ hj))
      { st with
        obj := (({ st.obj with myToQuit := st.obj.myToQuit || i.toQuit } :
          StAudioQueue).parseEvents K env ev).2,
        myDowntimeEvent := true }
    exact ⟨h.1, by rw [h.2]⟩

/-- C13: on a stream-end packet `decodeLoop` runs a fill cycle, with events ignored, exactly
when the output buffer holds data; once the cycle is back it sets both buffers to hold no data,
and it closes the device session and returns exactly when `myToQuit` is set, leaving the
session as the cycle left it otherwise. A run of `decodeLoop` which has returned ended on a
shutdown packet or on a stream-end packet with `myToQuit` set, and closed the session by
`stalDeinit` before. -/
theorem decodeLoop_stream_end (addData : StPCMBuffer → StPCMBuffer → Bool × StPCMBuffer)
    (K : ALConfig) (start base : ℚ) (toQuit : Bool) (env0 : ALEnv) (ev0 : StPlayEvent)
    (turns : List FillInput) (st : LoopState) (env : ALEnv) (inputs : List LoopInput)
    (d : Bool) (s : StAudioQueue) :
    (decodeStep addData K start base ⟨toQuit, .END_PACKET env0 ev0 turns⟩ st).step =
      .streamEnd (decide (st.obj.myBufferOut.getDataSize 0 ≠ 0)) ∧
    (st.obj.myBufferOut.getDataSize 0 = 0 →
      decodeStep addData K start base ⟨toQuit, .END_PACKET env0 ev0 turns⟩ st =
        { step := .streamEnd false, returned := st.obj.myToQuit || toQuit, pending := false,
          state := { st with
            obj :=
              if (st.obj.myToQuit || toQuit) = true then
                ({ st.obj with myToQuit := st.obj.myToQuit || toQuit } :
                  StAudioQueue).clearBuffers.stalDeinit
              else
                ({ st.obj with myToQuit := st.obj.myToQuit || toQuit } :
                  StAudioQueue).clearBuffers,
            myDowntimeEvent := false } }) ∧
    (st.obj.myBufferOut.getDataSize 0 ≠ 0 →
      ∀ run : FillRun,
        run = ({ st.obj with myToQuit := st.obj.myToQuit || toQuit } :
          StAudioQueue).stalFillBuffers K st.aPts true env0 ev0 turns →
        decodeStep addData K start base ⟨toQuit, .END_PACKET env0 ev0 turns⟩ st =
          if run.returned = false then
            { step := .streamEnd true, returned := false, pending := true,
              state := { st with obj := run.state, myDowntimeEvent := false } }
          else
            { step := .streamEnd true, returned := run.state.myToQuit, pending := false,
              state := { st with
                obj :=
                  if run.state.myToQuit = true then run.state.clearBuffers.stalDeinit
                  else run.state.clearBuffers,
                myDowntimeEvent := false } }) ∧
    ((decodeStep addData K start base ⟨toQuit, .END_PACKET env0 ev0 turns⟩ st).pending =
        false →
      (decodeStep addData K start base ⟨toQuit, .END_PACKET env0 ev0 turns⟩
        st).state.obj.myBufferOut.dataSize = 0 ∧
      (decodeStep addData K start base ⟨toQuit, .END_PACKET env0 ev0 turns⟩
        st).state.obj.myBufferSrc.dataSize = 0 ∧
      (decodeStep addData K start base ⟨toQuit, .END_PACKET env0 ev0 turns⟩ st).returned =
        (decodeStep addData K start base ⟨toQuit, .END_PACKET env0 ev0 turns⟩
          st).state.obj.myToQuit ∧
      ((decodeStep addData K start base ⟨toQuit, .END_PACKET env0 ev0 turns⟩ st).returned =
          true →
        (decodeStep addData K start base ⟨toQuit, .END_PACKET env0 ev0 turns⟩
          st).state.obj.myAlCtx.sources = [])) ∧
    ((decodeStep addData K start base ⟨toQuit, .QUIT_PACKET⟩ st).step = .quit ∧
      (decodeStep addData K start base ⟨toQuit, .QUIT_PACKET⟩ st).returned = true ∧
      (decodeStep addData K start base ⟨toQuit, .QUIT_PACKET⟩ st).state.obj =
        ({ st.obj with myToQuit := st.obj.myToQuit || toQuit } : StAudioQueue).stalDeinit ∧
      (s.decodeLoop addData K start base env (⟨toQuit, .QUIT_PACKET⟩ :: inputs) d).returned =
        true) ∧
    ((s.decodeLoop addData K start base env inputs d).returned = true →
      ∃ pre last, (s.decodeLoop addData K start base env inputs d).trace = pre ++ [last] ∧
        (last = .quit ∨ ∃ b, last = .streamEnd b ∧
          (s.decodeLoop addData K start base env inputs d).state.obj.myToQuit = true) ∧
        (∃ x : StAudioQueue,
          (s.decodeLoop addData K start base env inputs d).state.obj = x.stalDeinit) ∧
        (s.decodeLoop addData K start base env inputs d).state.obj.myAlCtx.sources = []) := by
  obtain ⟨run, hrun⟩ : ∃ run : FillRun, run =
      if st.obj.myBufferOut.getDataSize 0 ≠ 0 then
        ({ st.obj with myToQuit := st.obj.myToQuit || toQuit } :
          StAudioQueue).stalFillBuffers K st.aPts true env0 ev0 turns
      else
        { trace := [], returned := true,
          state := { st.obj with myToQuit := st.obj.myToQuit || toQuit } } := ⟨_, rfl⟩
  have he := decodeStep_end addData K start base ⟨toQuit, .END_PACKET env0 ev0 turns⟩ st env0
    ev0 turns rfl run hrun
  have hclear : ∀ x : StAudioQueue, x.clearBuffers.myBufferOut.dataSize = 0 ∧
      x.clearBuffers.myBufferSrc.dataSize = 0 ∧ x.clearBuffers.myToQuit = x.myToQuit := by
    intro x
    simp [clearBuffers, StPCMBuffer.setDataSize]
  refine ⟨?_, ?_, ?_, ?_, ⟨rfl, rfl, rfl, rfl⟩, ?_⟩
  · rw [he]
    split_ifs <;> rfl
  · intro hz
    rw [if_neg (by simp [hz])] at hrun
    rw [he, hrun]
    simp only [Bool.true_eq_false, if_false, hz, ne_eq, not_true_eq_false, decide_False]
    cases hq : (st.obj.myToQuit || toQuit) <;> simp
  · intro hz run2 hrun2
    rw [if_pos hz] at hrun
    rw [he, hrun2, ← hrun]
    simp only [ne_eq, hz, not_false_eq_true, decide_True]
    split_ifs with h1 h2
    · rfl
    · simp [h2]
    · simp [h2]
  · rw [he]
    split_ifs with h1 h2
    · intro hp
      simp at hp
    · intro _
      refine ⟨(hclear _).1, (hclear _).2.1, ?_, fun _ => rfl⟩
      exact ((hclear _).2.2.trans h2).symm
    · intro _
      refine ⟨(hclear _).1, (hclear _).2.1, ?_, fun h => by simp at h⟩
      simp only [(hclear _).2.2]
      cases hq : run.state.myToQuit
      · rfl
      · exact absurd hq h2
  · intro h
    obtain ⟨pre, last, htr, hl, x, hx⟩ :=
      decodeIterate_returned addData K start base inputs _ h
    refine ⟨pre, last, htr, hl, ⟨x, hx⟩, ?_⟩
    unfold StAudioQueue.decodeLoop
    rw [hx]
    rfl

/-- C13, at a stream-end packet which arrives with `myToQuit` raised while the output buffer is
empty: no fill cycle, and the loop returns with the session closed. -/
theorem decodeLoop_stream_end_witness :
    opened.myBufferOut.getDataSize 0 = 0 ∧
    decodeStep (addDataUpTo 192000) ⟨8, 3⟩ 0 0
        ⟨true, .END_PACKET plainEnv .ST_PLAYEVENT_NONE []⟩ ⟨opened, 0, false⟩ =
      { step := .streamEnd false, returned := opened.myToQuit || true, pending := false,
        state := { (⟨opened, 0, false⟩ : LoopState) with
          obj :=
            if (opened.myToQuit || true) = true then
              ({ opened with myToQuit := opened.myToQuit || true } :
                StAudioQueue).clearBuffers.stalDeinit
            else
              ({ opened with myToQuit := opened.myToQuit || true } : StAudioQueue).clearBuffers,
          myDowntimeEvent := false } } :=
  ⟨by decide,
    (decodeLoop_stream_end (addDataUpTo 192000) ⟨8, 3⟩ 0 0 true plainEnv .ST_PLAYEVENT_NONE []
      ⟨opened, 0, false⟩ plainEnv [] false opened).2.1 (by decide)⟩

/-- C14 as stated fails at two of the three waits. With `myToQuit` set, `stalQueue` still
takes a played buffer from each of the six sources and queues it again; and `decodeLoop`,
entered with `myToQuit` set and finding the packet queue empty, goes through its idle wait twice
and has not returned. -/
theorem waits_ignore_shutdown_flag :
    splitQuitting.myToQuit = true ∧
    (splitQuitting.stalQueue ⟨8, 3⟩ plainEnv (fun _ => 1) 20).1 = true ∧
    (splitQuitting.stalQueue ⟨8, 3⟩ plainEnv (fun _ => 1) 20).2.myAlCtx.sources.map
      (fun a => a.queue) =
      (List.range 6).map (fun i => [(i, 1), (i, 2), (i, 0)]) ++ List.replicate 2 [] ∧
    ({ opened with myToQuit := true }.decodeLoop (addDataUpTo 192000) ⟨8, 3⟩ 0 0 plainEnv
      [idleInput, idleInput] true).returned = false ∧
    ({ opened with myToQuit := true }.decodeLoop (addDataUpTo 192000) ⟨8, 3⟩ 0 0 plainEnv
      [idleInput, idleInput] true).trace = [.idle, .idle] ∧
    ({ opened with myToQuit := true }.decodeLoop (addDataUpTo 192000) ⟨8, 3⟩ 0 0 plainEnv
      [idleInput, idleInput] true).state.obj.myToQuit = true := by
  decide!

/-- C14 (amended): with `myToQuit` set, the body of the wait loop of `stalFillBuffers` returns
after its `parseEvents`, so a turn of the loop whose `stalQueue` has returned false is the last
one and the turns after it are never reached; the idle wait of `decodeLoop` goes on for as long
as the packet queue stays empty; and `stalQueue`, with its wait for the other sources, does
what it does with the flag clear. -/
theorem shutdown_flag_at_waits (K : ALConfig) (s : StAudioQueue) (hq : s.myToQuit = true) :
    (∀ (env : ALEnv) (ev : StPlayEvent) (aPos pts : ℚ) (ign : Bool),
      s.stalFillBody K env ev aPos pts ign =
        (.quit, if ign = true then s else (s.parseEvents K env ev).2)) ∧
    (∀ (pts : ℚ) (ign : Bool) (i : FillInput) (rest : List FillInput),
      ((s.meet i).stalQueue K i.env i.wait pts).1 = false →
      (s.fillLoop K pts ign (i :: rest)).returned = true ∧
      (s.fillLoop K pts ign (i :: rest)).trace.map (fun t => t.branch) = [.quit] ∧
      (s.fillLoop K pts ign (i :: rest)).state =
        (((s.meet i).stalQueue K i.env i.wait pts).2.stalFillBody K i.env i.event i.aPos pts
          ign).2 ∧
      (s.fillLoop K pts ign (i :: rest)).state.myAlCtx =
        (if ign = true then ((s.meet i).stalQueue K i.env i.wait pts).2
         else (((s.meet i).stalQueue K i.env i.wait pts).2.parseEvents K i.env
           i.event).2).myAlCtx) ∧
    (∀ (addData : StPCMBuffer → StPCMBuffer → Bool × StPCMBuffer) (start base aPts : ℚ)
        (d b : Bool) (env : ALEnv) (ev : StPlayEvent),
      (decodeStep addData K start base ⟨b, .empty env ev⟩ ⟨s, aPts, d⟩).step = .idle ∧
      (decodeStep addData K start base ⟨b, .empty env ev⟩ ⟨s, aPts, d⟩).returned = false ∧
      (decodeStep addData K start base ⟨b, .empty env ev⟩ ⟨s, aPts, d⟩).pending = false ∧
      (decodeStep addData K start base ⟨b, .empty env ev⟩ ⟨s, aPts, d⟩).state.obj.myToQuit =
        true) ∧
    (∀ (addData : StPCMBuffer → StPCMBuffer → Bool × StPCMBuffer) (start base aPts : ℚ)
        (d : Bool) (inputs : List LoopInput),
      (∀ i ∈ inputs, ∃ env ev, i.arrival = .empty env ev) →
      (decodeIterate addData K start base inputs ⟨s, aPts, d⟩).returned = false ∧
      (decodeIterate addData K start base inputs ⟨s, aPts, d⟩).trace =
        List.replicate inputs.length .idle) ∧
    (∀ (env : ALEnv) (wait : Nat → Nat) (pts : ℚ),
      s.stalQueue K env wait pts =
        ((({ s with myToQuit := false } : StAudioQueue).stalQueue K env wait pts).1,
          { (({ s with myToQuit := false } : StAudioQueue).stalQueue K env wait pts).2 with
            myToQuit := true })) := by
  refine ⟨?_, ?_, ?_, ?_, ?_⟩
  · intro env ev aPos pts ign
    exact stalFillBody_of_toQuit K env ev aPos pts ign s hq
  · intro pts ign i rest hfalse
    have hm : (s.meet i).myToQuit = true := by
      simp [meet, hq]
    have hr : ((s.meet i).stalQueue K i.env i.wait pts).2.myToQuit = true :=
      (stalQueue_toQuit K i.env i.wait pts (s.meet i)).trans hm
    have hb := stalFillBody_of_toQuit K i.env i.event i.aPos pts ign _ hr
    unfold fillLoop
    simp only [hfalse, Bool.false_eq_true, if_false]
    rw [hb]
    simp
  · intro addData start base aPts d b env ev
    refine ⟨rfl, rfl, rfl, ?_⟩
    unfold decodeStep
    simp only []
    rw [parseEvents_toQuit]
    simp [hq]
  · intro addData start base aPts d inputs hidle
    exact decodeIterate_idle addData K start base inputs hidle _
  · intro env wait pts
    have h := stalQueue_setQuit K env wait pts true { s with myToQuit := false }
    have hs : ({ ({ s with myToQuit := false } : StAudioQueue) with myToQuit := true } :
        StAudioQueue) = s := by
      rw [← hq]
    rw [hs] at h
    exact h

/-- C14 (amended), at the object with six playing sources and `myToQuit` set: the body of the
wait loop returns at once. -/
theorem shutdown_flag_at_waits_witness :
    splitQuitting.myToQuit = true ∧
    splitQuitting.stalFillBody ⟨8, 3⟩ plainEnv .ST_PLAYEVENT_NONE 0 20 true =
      (.quit, splitQuitting) :=
  ⟨by decide,
    (shutdown_flag_at_waits ⟨8, 3⟩ splitQuitting (by decide)).1 plainEnv .ST_PLAYEVENT_NONE 0 20
      true⟩

end SView
